import Mathlib

/-!
Verification of the Game Boy emulator (Python sources under src/) against its
natural-language specification.

The Python classes `CPU`, `Memory`, `Interrupts`, `Input` and `Timer` form one
mutually-referencing object graph; here the whole graph is flattened into a
single state record `GB.S`, and every Python method becomes a Lean function
that threads this state explicitly.

Conventions used to render Python's unbounded signed integers in Lean:
  - nonnegative arithmetic stays in `Nat`; `x & m` is `x &&& m`;
  - Python's `x & ~(1 << k)` (bit clear) on a nonnegative `x` is
    `ldiff x (1 <<< k)`, which has exactly the same bits;
  - a subtraction that can go below zero before a mask, such as
    `(sp - 2) & 0xFFFF` or `(value - 1) & 0xFF`, is rendered by first adding
    the modulus: `(sp + 0x10000 - 2) % 0x10000`; this agrees with Python for
    every operand below the modulus (the masking keeps every such field
    below its modulus);
  - signed intermediate results (SUB/SBC/CP, relative-jump targets) are
    computed in `Int`, and Python's `r & 0xFF` / `r & 0xFFFF` on the possibly
    negative `r` is `(r % 256).toNat` / `(r % 65536).toNat` (`Int.emod` with a
    positive modulus is the nonnegative remainder, exactly Python's `%`);
  - Python truthiness `if v:` on an integer is `v ≠ 0`, and flag values passed
    to `set_flag` become `Bool`;
  - `print` calls are side effects with no state change and are dropped.

The memory is wired as in `GameBoy.__init__`: the interrupt controller and the
joypad are connected; the APU is absent (`Memory.__init__` default `apu=None`),
so the audio fallback branches of `read_byte` are taken.  The `Timer` object's
state is carried in the same record; note that `Memory.read_byte` and
`Memory.write_byte` in src/memory.py contain no routing to it.
-/

namespace GB

/-- Pointwise update of a `Nat`-indexed store, modelling `xs[i] = v` on a
Python list. -/
def upd (f : Nat → Nat) (i v : Nat) : Nat → Nat :=
  fun j => if j = i then v else f j

/-- Python's `a & ~b` on nonnegative integers: clear in `a` every bit set in
`b`.  Rendered as `a ^^^ (a &&& b)`, which has exactly those bits (see
`ldiff_bits` below). -/
def ldiff (a b : Nat) : Nat :=
  a ^^^ (a &&& b)


/-- Flattened state of the emulator object graph: CPU registers, the memory
arrays of `Memory`, the `Interrupts` controller, the `Input` handler and the
`Timer`. -/
structure S where
  -- CPU (src/cpu.py __init__)
  a : Nat
  f : Nat
  b : Nat
  c : Nat
  d : Nat
  e : Nat
  h : Nat
  l : Nat
  sp : Nat
  pc : Nat
  ime : Bool
  halted : Bool
  stopped : Bool
  cycles : Nat
  -- Memory (src/memory.py __init__); `io` is named `ioregs` here
  rom : Nat → Nat
  vram : Nat → Nat
  eram : Nat → Nat
  wram : Nat → Nat
  oam : Nat → Nat
  ioregs : Nat → Nat
  hram : Nat → Nat
  ie : Nat
  -- Interrupts (src/interrupts.py __init__)
  interrupt_flag : Nat
  interrupt_enable : Nat
  -- Input (src/input.py __init__)
  buttons : Nat → Bool
  select_buttons : Bool
  select_dpad : Bool
  p1 : Nat
  -- Timer (src/timer.py __init__)
  div : Nat
  tima : Nat
  tma : Nat
  tac : Nat
  div_counter : Nat
  tima_counter : Nat
  timer_enabled : Bool

/-- Interrupt bit constants from src/interrupts.py. -/
def INT_VBLANK : Nat := 0

/-- LCD STAT interrupt bit. -/
def INT_LCD : Nat := 1

/-- Timer interrupt bit. -/
def INT_TIMER : Nat := 2

/-- Serial interrupt bit. -/
def INT_SERIAL : Nat := 3

/-- Joypad interrupt bit. -/
def INT_JOYPAD : Nat := 4

/-- Interrupt vector constants from src/interrupts.py. -/
def VECTOR_VBLANK : Nat := 0x0040

/-- LCD STAT interrupt vector. -/
def VECTOR_LCD : Nat := 0x0048

/-- Timer interrupt vector. -/
def VECTOR_TIMER : Nat := 0x0050

/-- Serial interrupt vector. -/
def VECTOR_SERIAL : Nat := 0x0058

/-- Joypad interrupt vector. -/
def VECTOR_JOYPAD : Nat := 0x0060

/-- Button index constants from src/input.py. -/
def BUTTON_A : Nat := 0

/-- B button index. -/
def BUTTON_B : Nat := 1

/-- Select button index. -/
def BUTTON_SELECT : Nat := 2

/-- Start button index. -/
def BUTTON_START : Nat := 3

/-- Right button index. -/
def BUTTON_RIGHT : Nat := 4

/-- Left button index. -/
def BUTTON_LEFT : Nat := 5

/-- Up button index. -/
def BUTTON_UP : Nat := 6

/-- Down button index. -/
def BUTTON_DOWN : Nat := 7

/-- CPU flag bit positions from src/cpu.py. -/
def FLAG_Z : Nat := 7

/-- Subtract flag bit position. -/
def FLAG_N : Nat := 6

/-- Half-carry flag bit position. -/
def FLAG_H : Nat := 5

/-- Carry flag bit position. -/
def FLAG_C : Nat := 4

/-- Embedding of `Input.read_p1` (src/input.py).  Python's `result &= ~m` is
`ldiff result m`. -/
def read_p1 (s : S) : Nat :=
  let result := 0xCF
  let result :=
    if ¬ s.select_buttons then
      let result := if s.buttons BUTTON_START then ldiff result 0x08 else result
      let result := if s.buttons BUTTON_SELECT then ldiff result 0x04 else result
      let result := if s.buttons BUTTON_B then ldiff result 0x02 else result
      let result := if s.buttons BUTTON_A then ldiff result 0x01 else result
      ldiff result 0x20
    else result
  let result :=
    if ¬ s.select_dpad then
      let result := if s.buttons BUTTON_DOWN then ldiff result 0x08 else result
      let result := if s.buttons BUTTON_UP then ldiff result 0x04 else result
      let result := if s.buttons BUTTON_LEFT then ldiff result 0x02 else result
      let result := if s.buttons BUTTON_RIGHT then ldiff result 0x01 else result
      ldiff result 0x10
    else result
  result

/-- Embedding of `Input.update_p1_register` (src/input.py); the memory is
always connected in the `GameBoy` wiring. -/
def update_p1_register (s : S) : S :=
  let v := read_p1 s
  { s with p1 := v, ioregs := upd s.ioregs 0x00 v }

/-- Embedding of `Input.write_p1` (src/input.py).  Python's
`not (value & 0x20)` is the Bool `value &&& 0x20 == 0`. -/
def write_p1 (s : S) (value : Nat) : S :=
  let s := { s with
    select_buttons := value &&& 0x20 == 0,
    select_dpad := value &&& 0x10 == 0 }
  update_p1_register s

/-- Embedding of `Interrupts.get_interrupt_flag` (src/interrupts.py). -/
def get_interrupt_flag (s : S) : Nat :=
  s.interrupt_flag

/-- Embedding of `Interrupts.set_interrupt_flag` (src/interrupts.py). -/
def set_interrupt_flag (s : S) (value : Nat) : S :=
  { s with interrupt_flag := value &&& 0x1F }

/-- Embedding of `Interrupts.get_interrupt_enable` (src/interrupts.py). -/
def get_interrupt_enable (s : S) : Nat :=
  s.interrupt_enable

/-- Embedding of `Interrupts.set_interrupt_enable` (src/interrupts.py). -/
def set_interrupt_enable (s : S) (value : Nat) : S :=
  { s with interrupt_enable := value &&& 0x1F }

/-- Embedding of `Memory.read_byte` (src/memory.py), with interrupts and the
input handler connected and the APU absent, as in the `GameBoy` wiring. -/
def read_byte (s : S) (address : Nat) : Nat :=
  let address := address &&& 0xFFFF
  -- fast paths
  if address < 0x8000 then s.rom address
  else if address < 0xA000 then s.vram (address - 0x8000)
  else if 0xC000 ≤ address ∧ address < 0xE000 then s.wram (address - 0xC000)
  else if 0xFE00 ≤ address ∧ address < 0xFEA0 then s.oam (address - 0xFE00)
  else if 0xFF80 ≤ address ∧ address < 0xFFFF then s.hram (address - 0xFF80)
  -- less common paths
  else if address < 0xC000 then s.eram (address - 0xA000)
  else if address < 0xFE00 then s.wram (address - 0xE000)  -- Echo RAM
  else if address < 0xFF00 then 0
  else if address < 0xFF80 then
    if address = 0xFF00 then read_p1 s
    else if address = 0xFF0F then get_interrupt_flag s
    else if 0xFF10 ≤ address ∧ address ≤ 0xFF3F then 0xFF  -- apu is None
    else s.ioregs (address - 0xFF00)
  else  -- 0xFFFF
    get_interrupt_enable s

/-- Embedding of `Memory.write_byte` (src/memory.py), same wiring as
`read_byte`.  Note: there is no routing to the Timer registers 0xFF04-0xFF07
in the source. -/
def write_byte (s : S) (address value : Nat) : S :=
  let address := address &&& 0xFFFF
  let value := value &&& 0xFF
  if address < 0x8000 then s  -- ROM is read-only here
  else if address < 0xA000 then { s with vram := upd s.vram (address - 0x8000) value }
  else if address < 0xC000 then { s with eram := upd s.eram (address - 0xA000) value }
  else if address < 0xE000 then { s with wram := upd s.wram (address - 0xC000) value }
  else if address < 0xFE00 then { s with wram := upd s.wram (address - 0xE000) value }  -- Echo RAM
  else if address < 0xFEA0 then { s with oam := upd s.oam (address - 0xFE00) value }
  else if address < 0xFF00 then s  -- unusable
  else if address < 0xFF80 then
    let s :=
      if address = 0xFF00 then write_p1 s value
      else if address = 0xFF0F then set_interrupt_flag s value
      else s
    { s with ioregs := upd s.ioregs (address - 0xFF00) value }
  else if address < 0xFFFF then { s with hram := upd s.hram (address - 0xFF80) value }
  else
    let s := set_interrupt_enable s value
    { s with ie := value }

/-- Embedding of `Memory.read_word` (src/memory.py). -/
def read_word (s : S) (address : Nat) : Nat :=
  let low := read_byte s address
  let high := read_byte s (address + 1)
  (high <<< 8) ||| low

/-- Embedding of `Memory.write_word` (src/memory.py). -/
def write_word (s : S) (address value : Nat) : S :=
  let s := write_byte s address (value &&& 0xFF)
  write_byte s (address + 1) ((value >>> 8) &&& 0xFF)

/-- Embedding of `Timer.read_register` (src/timer.py). -/
def read_register (s : S) (address : Nat) : Nat :=
  if address = 0xFF04 then s.div
  else if address = 0xFF05 then s.tima
  else if address = 0xFF06 then s.tma
  else if address = 0xFF07 then s.tac ||| 0xF8
  else 0xFF

/-- Embedding of `Timer.write_register` (src/timer.py). -/
def write_register (s : S) (address value : Nat) : S :=
  let value := value &&& 0xFF
  if address = 0xFF04 then
    { s with div := 0, div_counter := 0 }
  else if address = 0xFF05 then { s with tima := value }
  else if address = 0xFF06 then { s with tma := value }
  else if address = 0xFF07 then
    let old_enabled := s.timer_enabled
    let s := { s with tac := value &&& 0x07, timer_enabled := value &&& 0x04 ≠ 0 }
    if ¬ old_enabled ∧ s.timer_enabled then { s with tima_counter := 0 } else s
  else s

/-- Embedding of `CPU.get_flag` (src/cpu.py). -/
def get_flag (s : S) (flag : Nat) : Nat :=
  (s.f >>> flag) &&& 1

/-- Embedding of `CPU.set_flag` (src/cpu.py); the Python truthiness test on
`value` makes the argument a `Bool` here, and `f &= ~(1 << flag)` is
`ldiff`. -/
def set_flag (s : S) (flag : Nat) (value : Bool) : S :=
  if value then { s with f := s.f ||| (1 <<< flag) }
  else { s with f := ldiff s.f (1 <<< flag) }

/-- Embedding of `CPU.get_bc` (src/cpu.py). -/
def get_bc (s : S) : Nat :=
  (s.b <<< 8) ||| s.c

/-- Embedding of `CPU.set_bc` (src/cpu.py). -/
def set_bc (s : S) (value : Nat) : S :=
  { s with b := (value >>> 8) &&& 0xFF, c := value &&& 0xFF }

/-- Embedding of `CPU.get_de` (src/cpu.py). -/
def get_de (s : S) : Nat :=
  (s.d <<< 8) ||| s.e

/-- Embedding of `CPU.set_de` (src/cpu.py). -/
def set_de (s : S) (value : Nat) : S :=
  { s with d := (value >>> 8) &&& 0xFF, e := value &&& 0xFF }

/-- Embedding of `CPU.get_hl` (src/cpu.py). -/
def get_hl (s : S) : Nat :=
  (s.h <<< 8) ||| s.l

/-- Embedding of `CPU.set_hl` (src/cpu.py). -/
def set_hl (s : S) (value : Nat) : S :=
  { s with h := (value >>> 8) &&& 0xFF, l := value &&& 0xFF }

/-- Embedding of `CPU.get_af` (src/cpu.py). -/
def get_af (s : S) : Nat :=
  (s.a <<< 8) ||| s.f

/-- Embedding of `CPU.set_af` (src/cpu.py); the lower 4 flag bits are always
forced to 0. -/
def set_af (s : S) (value : Nat) : S :=
  { s with a := (value >>> 8) &&& 0xFF, f := value &&& 0xF0 }

/-- Embedding of `CPU.fetch_byte` (src/cpu.py): returns the updated state and
the fetched byte. -/
def fetch_byte (s : S) : S × Nat :=
  let byte := read_byte s s.pc
  ({ s with pc := (s.pc + 1) &&& 0xFFFF }, byte)

/-- Embedding of `CPU.fetch_word` (src/cpu.py). -/
def fetch_word (s : S) : S × Nat :=
  let word := read_word s s.pc
  ({ s with pc := (s.pc + 2) &&& 0xFFFF }, word)

/-- Embedding of `CPU.push_word` (src/cpu.py); Python's `(sp - 2) & 0xFFFF`
on the below-modulus `sp` is `(sp + 0x10000 - 2) % 0x10000`. -/
def push_word (s : S) (value : Nat) : S :=
  let s := { s with sp := (s.sp + 0x10000 - 2) % 0x10000 }
  write_word s s.sp value

/-- Embedding of `CPU.pop_word` (src/cpu.py). -/
def pop_word (s : S) : S × Nat :=
  let value := read_word s s.sp
  ({ s with sp := (s.sp + 2) &&& 0xFFFF }, value)

/-- Embedding of `CPU.get_reg8` (src/cpu.py): register by index
(0-7: B,C,D,E,H,L,(HL),A).  Python returns `None` for other indices; all
callers mask the index with 0x07, and the final branch here returns 0. -/
def get_reg8 (s : S) (index : Nat) : Nat :=
  if index = 0 then s.b
  else if index = 1 then s.c
  else if index = 2 then s.d
  else if index = 3 then s.e
  else if index = 4 then s.h
  else if index = 5 then s.l
  else if index = 6 then read_byte s (get_hl s)
  else if index = 7 then s.a
  else 0

/-- Embedding of `CPU.set_reg8` (src/cpu.py).  Python does nothing for an
index above 7 (all callers mask with 0x07). -/
def set_reg8 (s : S) (index value : Nat) : S :=
  let value := value &&& 0xFF
  if index = 0 then { s with b := value }
  else if index = 1 then { s with c := value }
  else if index = 2 then { s with d := value }
  else if index = 3 then { s with e := value }
  else if index = 4 then { s with h := value }
  else if index = 5 then { s with l := value }
  else if index = 6 then write_byte s (get_hl s) value
  else if index = 7 then { s with a := value }
  else s

/-- Embedding of `CPU.ld_r_r` (src/cpu.py): LD r,r for opcodes 0x40-0x7F
except 0x76. -/
def ld_r_r (s : S) (opcode : Nat) : S :=
  let dst := (opcode >>> 3) &&& 0x07
  let src := opcode &&& 0x07
  let value := get_reg8 s src
  let s := set_reg8 s dst value
  if src = 6 ∨ dst = 6 then { s with cycles := s.cycles + 8 }
  else { s with cycles := s.cycles + 4 }

/-- Embedding of `CPU.inc_8bit` (src/cpu.py): returns the updated state and
the incremented byte. -/
def inc_8bit (s : S) (value : Nat) : S × Nat :=
  let result := (value + 1) &&& 0xFF
  let s := set_flag s FLAG_Z (result == 0)
  let s := set_flag s FLAG_N false
  let s := set_flag s FLAG_H ((value &&& 0x0F) == 0x0F)
  (s, result)

/-- Embedding of `CPU.dec_8bit` (src/cpu.py).  Python's `(value - 1) & 0xFF`
can see a negative intermediate (for `value = 0`); adding 0x100 first gives
the same masked byte for every byte-sized `value`. -/
def dec_8bit (s : S) (value : Nat) : S × Nat :=
  let result := (value + 0x100 - 1) &&& 0xFF
  let s := set_flag s FLAG_Z (result == 0)
  let s := set_flag s FLAG_N true
  let s := set_flag s FLAG_H ((value &&& 0x0F) == 0)
  (s, result)

/-- Embedding of `CPU.add_a` (src/cpu.py). -/
def add_a (s : S) (value : Nat) : S :=
  let result := s.a + value
  let s := set_flag s FLAG_Z ((result &&& 0xFF) == 0)
  let s := set_flag s FLAG_N false
  let s := set_flag s FLAG_H (decide ((s.a &&& 0xF) + (value &&& 0xF) > 0xF))
  let s := set_flag s FLAG_C (decide (result > 0xFF))
  { s with a := result &&& 0xFF }

/-- Embedding of `CPU.adc_a` (src/cpu.py). -/
def adc_a (s : S) (value : Nat) : S :=
  let carry := get_flag s FLAG_C
  let result := s.a + value + carry
  let s := set_flag s FLAG_Z ((result &&& 0xFF) == 0)
  let s := set_flag s FLAG_N false
  let s := set_flag s FLAG_H (decide ((s.a &&& 0xF) + (value &&& 0xF) + carry > 0xF))
  let s := set_flag s FLAG_C (decide (result > 0xFF))
  { s with a := result &&& 0xFF }

/-- Embedding of `CPU.sub_a` (src/cpu.py): the intermediate `result` is a
signed Python int, so it is computed in `Int`; `result & 0xFF` is
`(result % 256).toNat` and `(result & 0xFF) == 0` is `result % 256 = 0`. -/
def sub_a (s : S) (value : Nat) : S :=
  let result : Int := (s.a : Int) - (value : Int)
  let s := set_flag s FLAG_Z (decide (result % 256 = 0))
  let s := set_flag s FLAG_N true
  let s := set_flag s FLAG_H (decide (s.a &&& 0xF < value &&& 0xF))
  let s := set_flag s FLAG_C (decide (result < 0))
  { s with a := (result % 256).toNat }

/-- Embedding of `CPU.sbc_a` (src/cpu.py), in `Int` like `sub_a`. -/
def sbc_a (s : S) (value : Nat) : S :=
  let carry := get_flag s FLAG_C
  let result : Int := (s.a : Int) - (value : Int) - (carry : Int)
  let s := set_flag s FLAG_Z (decide (result % 256 = 0))
  let s := set_flag s FLAG_N true
  let s := set_flag s FLAG_H (decide (s.a &&& 0xF < (value &&& 0xF) + carry))
  let s := set_flag s FLAG_C (decide (result < 0))
  { s with a := (result % 256).toNat }

/-- Embedding of `CPU.and_a` (src/cpu.py): the accumulator is updated first,
then the flags read the new value. -/
def and_a (s : S) (value : Nat) : S :=
  let s := { s with a := s.a &&& value }
  let s := set_flag s FLAG_Z (s.a == 0)
  let s := set_flag s FLAG_N false
  let s := set_flag s FLAG_H true
  set_flag s FLAG_C false

/-- Embedding of `CPU.xor_a` (src/cpu.py). -/
def xor_a (s : S) (value : Nat) : S :=
  let s := { s with a := s.a ^^^ value }
  let s := set_flag s FLAG_Z (s.a == 0)
  let s := set_flag s FLAG_N false
  let s := set_flag s FLAG_H false
  set_flag s FLAG_C false

/-- Embedding of `CPU.or_a` (src/cpu.py). -/
def or_a (s : S) (value : Nat) : S :=
  let s := { s with a := s.a ||| value }
  let s := set_flag s FLAG_Z (s.a == 0)
  let s := set_flag s FLAG_N false
  let s := set_flag s FLAG_H false
  set_flag s FLAG_C false

/-- Embedding of `CPU.cp_a` (src/cpu.py): like `sub_a` but the result is
discarded. -/
def cp_a (s : S) (value : Nat) : S :=
  let result : Int := (s.a : Int) - (value : Int)
  let s := set_flag s FLAG_Z (decide (result % 256 = 0))
  let s := set_flag s FLAG_N true
  let s := set_flag s FLAG_H (decide (s.a &&& 0xF < value &&& 0xF))
  set_flag s FLAG_C (decide (result < 0))

/-- Embedding of `CPU.add_hl` (src/cpu.py). -/
def add_hl (s : S) (value : Nat) : S :=
  let hl := get_hl s
  let result := hl + value
  let s := set_flag s FLAG_N false
  let s := set_flag s FLAG_H (decide ((hl &&& 0xFFF) + (value &&& 0xFFF) > 0xFFF))
  let s := set_flag s FLAG_C (decide (result > 0xFFFF))
  set_hl s (result &&& 0xFFFF)

/-- Embedding of `CPU.execute_cb_opcode` (src/cpu.py): CB-prefixed bit
operations.  Python passes the int `carry` to `set_flag`, whose truthiness is
`carry ≠ 0` here; the final `else` is unreachable for byte opcodes and only
charges the 8 cycles the source charges. -/
def execute_cb_opcode (s : S) (opcode : Nat) : S :=
  let reg_idx := opcode &&& 0x07
  -- RLC r (0x00-0x07)
  if opcode ≤ 0x07 then
    let value := get_reg8 s reg_idx
    let carry := (value >>> 7) &&& 1
    let result := ((value <<< 1) ||| carry) &&& 0xFF
    let s := set_reg8 s reg_idx result
    let s := set_flag s FLAG_Z (result == 0)
    let s := set_flag s FLAG_N false
    let s := set_flag s FLAG_H false
    let s := set_flag s FLAG_C (carry != 0)
    { s with cycles := s.cycles + (if reg_idx ≠ 6 then 8 else 16) }
  -- RRC r (0x08-0x0F)
  else if 0x08 ≤ opcode ∧ opcode ≤ 0x0F then
    let value := get_reg8 s reg_idx
    let carry := value &&& 1
    let result := ((value >>> 1) ||| (carry <<< 7)) &&& 0xFF
    let s := set_reg8 s reg_idx result
    let s := set_flag s FLAG_Z (result == 0)
    let s := set_flag s FLAG_N false
    let s := set_flag s FLAG_H false
    let s := set_flag s FLAG_C (carry != 0)
    { s with cycles := s.cycles + (if reg_idx ≠ 6 then 8 else 16) }
  -- RL r (0x10-0x17)
  else if 0x10 ≤ opcode ∧ opcode ≤ 0x17 then
    let value := get_reg8 s reg_idx
    let carry := get_flag s FLAG_C
    let new_carry := (value >>> 7) &&& 1
    let result := ((value <<< 1) ||| carry) &&& 0xFF
    let s := set_reg8 s reg_idx result
    let s := set_flag s FLAG_Z (result == 0)
    let s := set_flag s FLAG_N false
    let s := set_flag s FLAG_H false
    let s := set_flag s FLAG_C (new_carry != 0)
    { s with cycles := s.cycles + (if reg_idx ≠ 6 then 8 else 16) }
  -- RR r (0x18-0x1F)
  else if 0x18 ≤ opcode ∧ opcode ≤ 0x1F then
    let value := get_reg8 s reg_idx
    let carry := get_flag s FLAG_C
    let new_carry := value &&& 1
    let result := ((value >>> 1) ||| (carry <<< 7)) &&& 0xFF
    let s := set_reg8 s reg_idx result
    let s := set_flag s FLAG_Z (result == 0)
    let s := set_flag s FLAG_N false
    let s := set_flag s FLAG_H false
    let s := set_flag s FLAG_C (new_carry != 0)
    { s with cycles := s.cycles + (if reg_idx ≠ 6 then 8 else 16) }
  -- SLA r (0x20-0x27)
  else if 0x20 ≤ opcode ∧ opcode ≤ 0x27 then
    let value := get_reg8 s reg_idx
    let carry := (value >>> 7) &&& 1
    let result := (value <<< 1) &&& 0xFF
    let s := set_reg8 s reg_idx result
    let s := set_flag s FLAG_Z (result == 0)
    let s := set_flag s FLAG_N false
    let s := set_flag s FLAG_H false
    let s := set_flag s FLAG_C (carry != 0)
    { s with cycles := s.cycles + (if reg_idx ≠ 6 then 8 else 16) }
  -- SRA r (0x28-0x2F)
  else if 0x28 ≤ opcode ∧ opcode ≤ 0x2F then
    let value := get_reg8 s reg_idx
    let carry := value &&& 1
    let result := ((value >>> 1) ||| (value &&& 0x80)) &&& 0xFF
    let s := set_reg8 s reg_idx result
    let s := set_flag s FLAG_Z (result == 0)
    let s := set_flag s FLAG_N false
    let s := set_flag s FLAG_H false
    let s := set_flag s FLAG_C (carry != 0)
    { s with cycles := s.cycles + (if reg_idx ≠ 6 then 8 else 16) }
  -- SWAP r (0x30-0x37)
  else if 0x30 ≤ opcode ∧ opcode ≤ 0x37 then
    let value := get_reg8 s reg_idx
    let result := ((value &&& 0x0F) <<< 4) ||| ((value &&& 0xF0) >>> 4)
    let s := set_reg8 s reg_idx result
    let s := set_flag s FLAG_Z (result == 0)
    let s := set_flag s FLAG_N false
    let s := set_flag s FLAG_H false
    let s := set_flag s FLAG_C false
    { s with cycles := s.cycles + (if reg_idx ≠ 6 then 8 else 16) }
  -- SRL r (0x38-0x3F)
  else if 0x38 ≤ opcode ∧ opcode ≤ 0x3F then
    let value := get_reg8 s reg_idx
    let carry := value &&& 1
    let result := (value >>> 1) &&& 0xFF
    let s := set_reg8 s reg_idx result
    let s := set_flag s FLAG_Z (result == 0)
    let s := set_flag s FLAG_N false
    let s := set_flag s FLAG_H false
    let s := set_flag s FLAG_C (carry != 0)
    { s with cycles := s.cycles + (if reg_idx ≠ 6 then 8 else 16) }
  -- BIT n,r (0x40-0x7F)
  else if 0x40 ≤ opcode ∧ opcode ≤ 0x7F then
    let bit := (opcode >>> 3) &&& 0x07
    let value := get_reg8 s reg_idx
    let s := set_flag s FLAG_Z ((value &&& (1 <<< bit)) == 0)
    let s := set_flag s FLAG_N false
    let s := set_flag s FLAG_H true
    { s with cycles := s.cycles + (if reg_idx ≠ 6 then 8 else 12) }
  -- RES n,r (0x80-0xBF)
  else if 0x80 ≤ opcode ∧ opcode ≤ 0xBF then
    let bit := (opcode >>> 3) &&& 0x07
    let value := get_reg8 s reg_idx
    let result := ldiff value (1 <<< bit)
    let s := set_reg8 s reg_idx result
    { s with cycles := s.cycles + (if reg_idx ≠ 6 then 8 else 16) }
  -- SET n,r (0xC0-0xFF)
  else if 0xC0 ≤ opcode ∧ opcode ≤ 0xFF then
    let bit := (opcode >>> 3) &&& 0x07
    let value := get_reg8 s reg_idx
    let result := value ||| (1 <<< bit)
    let s := set_reg8 s reg_idx result
    { s with cycles := s.cycles + (if reg_idx ≠ 6 then 8 else 16) }
  else
    { s with cycles := s.cycles + 8 }

/-- Upper half (opcodes 0x80-0xFF) of the `CPU.execute_opcode` dispatch
chain (src/cpu.py), split into its own definition purely to keep terms
manageable; `execute_opcode` below chains to it, so together they are the
source's single if/elif chain in order. -/
def execute_opcode_hi (s : S) (opcode : Nat) : S :=
  if 0x80 ≤ opcode ∧ opcode ≤ 0x87 then  -- ADD A,r
    let s := add_a s (get_reg8 s (opcode &&& 0x07))
    { s with cycles := s.cycles + (if opcode &&& 0x07 ≠ 6 then 4 else 8) }
  else if 0x88 ≤ opcode ∧ opcode ≤ 0x8F then  -- ADC A,r
    let s := adc_a s (get_reg8 s (opcode &&& 0x07))
    { s with cycles := s.cycles + (if opcode &&& 0x07 ≠ 6 then 4 else 8) }
  else if 0x90 ≤ opcode ∧ opcode ≤ 0x97 then  -- SUB r
    let s := sub_a s (get_reg8 s (opcode &&& 0x07))
    { s with cycles := s.cycles + (if opcode &&& 0x07 ≠ 6 then 4 else 8) }
  else if 0x98 ≤ opcode ∧ opcode ≤ 0x9F then  -- SBC A,r
    let s := sbc_a s (get_reg8 s (opcode &&& 0x07))
    { s with cycles := s.cycles + (if opcode &&& 0x07 ≠ 6 then 4 else 8) }
  else if 0xA0 ≤ opcode ∧ opcode ≤ 0xA7 then  -- AND r
    let s := and_a s (get_reg8 s (opcode &&& 0x07))
    { s with cycles := s.cycles + (if opcode &&& 0x07 ≠ 6 then 4 else 8) }
  else if 0xA8 ≤ opcode ∧ opcode ≤ 0xAF then  -- XOR r
    let s := xor_a s (get_reg8 s (opcode &&& 0x07))
    { s with cycles := s.cycles + (if opcode &&& 0x07 ≠ 6 then 4 else 8) }
  else if 0xB0 ≤ opcode ∧ opcode ≤ 0xB7 then  -- OR r
    let s := or_a s (get_reg8 s (opcode &&& 0x07))
    { s with cycles := s.cycles + (if opcode &&& 0x07 ≠ 6 then 4 else 8) }
  else if 0xB8 ≤ opcode ∧ opcode ≤ 0xBF then  -- CP r
    let s := cp_a s (get_reg8 s (opcode &&& 0x07))
    { s with cycles := s.cycles + (if opcode &&& 0x07 ≠ 6 then 4 else 8) }
  else if opcode = 0xC0 then  -- RET NZ
    if get_flag s FLAG_Z = 0 then
      let pr := pop_word s
      let s := { pr.1 with pc := pr.2 }
      { s with cycles := s.cycles + 20 }
    else
      { s with cycles := s.cycles + 8 }
  else if opcode = 0xC1 then  -- POP BC
    let pr := pop_word s
    let s := set_bc pr.1 pr.2
    { s with cycles := s.cycles + 12 }
  else if opcode = 0xC2 then  -- JP NZ,nn
    let fr := fetch_word s
    let s := fr.1
    if get_flag s FLAG_Z = 0 then
      let s := { s with pc := fr.2 }
      { s with cycles := s.cycles + 16 }
    else
      { s with cycles := s.cycles + 12 }
  else if opcode = 0xC3 then  -- JP nn
    let fr := fetch_word s
    let s := { fr.1 with pc := fr.2 }
    { s with cycles := s.cycles + 16 }
  else if opcode = 0xC4 then  -- CALL NZ,nn
    let fr := fetch_word s
    let s := fr.1
    if get_flag s FLAG_Z = 0 then
      let s := push_word s s.pc
      let s := { s with pc := fr.2 }
      { s with cycles := s.cycles + 24 }
    else
      { s with cycles := s.cycles + 12 }
  else if opcode = 0xC5 then  -- PUSH BC
    let s := push_word s (get_bc s)
    { s with cycles := s.cycles + 16 }
  else if opcode = 0xC6 then  -- ADD A,n
    let fr := fetch_byte s
    let s := add_a fr.1 fr.2
    { s with cycles := s.cycles + 8 }
  else if opcode = 0xC8 then  -- RET Z
    if get_flag s FLAG_Z ≠ 0 then
      let pr := pop_word s
      let s := { pr.1 with pc := pr.2 }
      { s with cycles := s.cycles + 20 }
    else
      { s with cycles := s.cycles + 8 }
  else if opcode = 0xC9 then  -- RET
    let pr := pop_word s
    let s := { pr.1 with pc := pr.2 }
    { s with cycles := s.cycles + 16 }
  else if opcode = 0xCA then  -- JP Z,nn
    let fr := fetch_word s
    let s := fr.1
    if get_flag s FLAG_Z ≠ 0 then
      let s := { s with pc := fr.2 }
      { s with cycles := s.cycles + 16 }
    else
      { s with cycles := s.cycles + 12 }
  else if opcode = 0xCB then  -- PREFIX CB
    let fr := fetch_byte s
    execute_cb_opcode fr.1 fr.2
  else if opcode = 0xCC then  -- CALL Z,nn
    let fr := fetch_word s
    let s := fr.1
    if get_flag s FLAG_Z ≠ 0 then
      let s := push_word s s.pc
      let s := { s with pc := fr.2 }
      { s with cycles := s.cycles + 24 }
    else
      { s with cycles := s.cycles + 12 }
  else if opcode = 0xCD then  -- CALL nn
    let fr := fetch_word s
    let s := push_word fr.1 fr.1.pc
    let s := { s with pc := fr.2 }
    { s with cycles := s.cycles + 24 }
  else if opcode = 0xCE then  -- ADC A,n
    let fr := fetch_byte s
    let s := adc_a fr.1 fr.2
    { s with cycles := s.cycles + 8 }
  else if opcode = 0xD0 then  -- RET NC
    if get_flag s FLAG_C = 0 then
      let pr := pop_word s
      let s := { pr.1 with pc := pr.2 }
      { s with cycles := s.cycles + 20 }
    else
      { s with cycles := s.cycles + 8 }
  else if opcode = 0xD1 then  -- POP DE
    let pr := pop_word s
    let s := set_de pr.1 pr.2
    { s with cycles := s.cycles + 12 }
  else if opcode = 0xD2 then  -- JP NC,nn
    let fr := fetch_word s
    let s := fr.1
    if get_flag s FLAG_C = 0 then
      let s := { s with pc := fr.2 }
      { s with cycles := s.cycles + 16 }
    else
      { s with cycles := s.cycles + 12 }
  else if opcode = 0xD4 then  -- CALL NC,nn
    let fr := fetch_word s
    let s := fr.1
    if get_flag s FLAG_C = 0 then
      let s := push_word s s.pc
      let s := { s with pc := fr.2 }
      { s with cycles := s.cycles + 24 }
    else
      { s with cycles := s.cycles + 12 }
  else if opcode = 0xD5 then  -- PUSH DE
    let s := push_word s (get_de s)
    { s with cycles := s.cycles + 16 }
  else if opcode = 0xD6 then  -- SUB n
    let fr := fetch_byte s
    let s := sub_a fr.1 fr.2
    { s with cycles := s.cycles + 8 }
  else if opcode = 0xD8 then  -- RET C
    if get_flag s FLAG_C ≠ 0 then
      let pr := pop_word s
      let s := { pr.1 with pc := pr.2 }
      { s with cycles := s.cycles + 20 }
    else
      { s with cycles := s.cycles + 8 }
  else if opcode = 0xD9 then  -- RETI
    let pr := pop_word s
    let s := { pr.1 with pc := pr.2 }
    let s := { s with ime := true }
    { s with cycles := s.cycles + 16 }
  else if opcode = 0xDA then  -- JP C,nn
    let fr := fetch_word s
    let s := fr.1
    if get_flag s FLAG_C ≠ 0 then
      let s := { s with pc := fr.2 }
      { s with cycles := s.cycles + 16 }
    else
      { s with cycles := s.cycles + 12 }
  else if opcode = 0xDC then  -- CALL C,nn
    let fr := fetch_word s
    let s := fr.1
    if get_flag s FLAG_C ≠ 0 then
      let s := push_word s s.pc
      let s := { s with pc := fr.2 }
      { s with cycles := s.cycles + 24 }
    else
      { s with cycles := s.cycles + 12 }
  else if opcode = 0xDE then  -- SBC A,n
    let fr := fetch_byte s
    let s := sbc_a fr.1 fr.2
    { s with cycles := s.cycles + 8 }
  else if opcode = 0xE0 then  -- LDH (n),A
    let fr := fetch_byte s
    let s := write_byte fr.1 (0xFF00 + fr.2) fr.1.a
    { s with cycles := s.cycles + 12 }
  else if opcode = 0xE1 then  -- POP HL
    let pr := pop_word s
    let s := set_hl pr.1 pr.2
    { s with cycles := s.cycles + 12 }
  else if opcode = 0xE2 then  -- LD (C),A
    let s := write_byte s (0xFF00 + s.c) s.a
    { s with cycles := s.cycles + 8 }
  else if opcode = 0xE5 then  -- PUSH HL
    let s := push_word s (get_hl s)
    { s with cycles := s.cycles + 16 }
  else if opcode = 0xE6 then  -- AND n
    let fr := fetch_byte s
    let s := and_a fr.1 fr.2
    { s with cycles := s.cycles + 8 }
  else if opcode = 0xE9 then  -- JP (HL)
    let s := { s with pc := get_hl s }
    { s with cycles := s.cycles + 4 }
  else if opcode = 0xEA then  -- LD (nn),A
    let fr := fetch_word s
    let s := write_byte fr.1 fr.2 fr.1.a
    { s with cycles := s.cycles + 16 }
  else if opcode = 0xEE then  -- XOR n
    let fr := fetch_byte s
    let s := xor_a fr.1 fr.2
    { s with cycles := s.cycles + 8 }
  else if opcode = 0xF0 then  -- LDH A,(n)
    let fr := fetch_byte s
    let s := { fr.1 with a := read_byte fr.1 (0xFF00 + fr.2) }
    { s with cycles := s.cycles + 12 }
  else if opcode = 0xF1 then  -- POP AF
    let pr := pop_word s
    let s := set_af pr.1 pr.2
    { s with cycles := s.cycles + 12 }
  else if opcode = 0xF2 then  -- LD A,(C)
    let s := { s with a := read_byte s (0xFF00 + s.c) }
    { s with cycles := s.cycles + 8 }
  else if opcode = 0xF3 then  -- DI
    let s := { s with ime := false }
    { s with cycles := s.cycles + 4 }
  else if opcode = 0xF5 then  -- PUSH AF
    let s := push_word s (get_af s)
    { s with cycles := s.cycles + 16 }
  else if opcode = 0xF6 then  -- OR n
    let fr := fetch_byte s
    let s := or_a fr.1 fr.2
    { s with cycles := s.cycles + 8 }
  else if opcode = 0xFA then  -- LD A,(nn)
    let fr := fetch_word s
    let s := { fr.1 with a := read_byte fr.1 fr.2 }
    { s with cycles := s.cycles + 16 }
  else if opcode = 0xFB then  -- EI
    let s := { s with ime := true }
    { s with cycles := s.cycles + 4 }
  else if opcode = 0xFE then  -- CP n
    let fr := fetch_byte s
    let s := cp_a fr.1 fr.2
    { s with cycles := s.cycles + 8 }
  else  -- unimplemented opcode: the source prints and charges 4 cycles
    { s with cycles := s.cycles + 4 }

/-- Embedding of `CPU.execute_opcode` (src/cpu.py): the full opcode
dispatch.  Branches follow the source order; opcodes the source does not
implement fall through to the final branch, which only charges 4 cycles
(the source also prints a message there).  16-bit decrements follow the
`(x - 1) & 0xFFFF` convention from the module comment. -/
def execute_opcode (s : S) (opcode : Nat) : S :=
  if opcode = 0x00 then  -- NOP
    { s with cycles := s.cycles + 4 }
  else if opcode = 0x01 then  -- LD BC,nn
    let fr := fetch_word s
    let s := set_bc fr.1 fr.2
    { s with cycles := s.cycles + 12 }
  else if opcode = 0x02 then  -- LD (BC),A
    let s := write_byte s (get_bc s) s.a
    { s with cycles := s.cycles + 8 }
  else if opcode = 0x03 then  -- INC BC
    let s := set_bc s ((get_bc s + 1) &&& 0xFFFF)
    { s with cycles := s.cycles + 8 }
  else if opcode = 0x04 then  -- INC B
    let fr := inc_8bit s s.b
    let s := { fr.1 with b := fr.2 }
    { s with cycles := s.cycles + 4 }
  else if opcode = 0x05 then  -- DEC B
    let fr := dec_8bit s s.b
    let s := { fr.1 with b := fr.2 }
    { s with cycles := s.cycles + 4 }
  else if opcode = 0x06 then  -- LD B,n
    let fr := fetch_byte s
    let s := { fr.1 with b := fr.2 }
    { s with cycles := s.cycles + 8 }
  else if opcode = 0x07 then  -- RLCA
    let carry := (s.a >>> 7) &&& 1
    let s := { s with a := ((s.a <<< 1) ||| carry) &&& 0xFF }
    let s := set_flag s FLAG_Z false
    let s := set_flag s FLAG_N false
    let s := set_flag s FLAG_H false
    let s := set_flag s FLAG_C (carry != 0)
    { s with cycles := s.cycles + 4 }
  else if opcode = 0x08 then  -- LD (nn),SP
    let fr := fetch_word s
    let s := write_word fr.1 fr.2 fr.1.sp
    { s with cycles := s.cycles + 20 }
  else if opcode = 0x09 then  -- ADD HL,BC
    let s := add_hl s (get_bc s)
    { s with cycles := s.cycles + 8 }
  else if opcode = 0x0A then  -- LD A,(BC)
    let s := { s with a := read_byte s (get_bc s) }
    { s with cycles := s.cycles + 8 }
  else if opcode = 0x0B then  -- DEC BC
    let s := set_bc s ((get_bc s + 0x10000 - 1) % 0x10000)
    { s with cycles := s.cycles + 8 }
  else if opcode = 0x0C then  -- INC C
    let fr := inc_8bit s s.c
    let s := { fr.1 with c := fr.2 }
    { s with cycles := s.cycles + 4 }
  else if opcode = 0x0D then  -- DEC C
    let fr := dec_8bit s s.c
    let s := { fr.1 with c := fr.2 }
    { s with cycles := s.cycles + 4 }
  else if opcode = 0x0E then  -- LD C,n
    let fr := fetch_byte s
    let s := { fr.1 with c := fr.2 }
    { s with cycles := s.cycles + 8 }
  else if opcode = 0x0F then  -- RRCA
    let carry := s.a &&& 1
    let s := { s with a := ((s.a >>> 1) ||| (carry <<< 7)) &&& 0xFF }
    let s := set_flag s FLAG_Z false
    let s := set_flag s FLAG_N false
    let s := set_flag s FLAG_H false
    let s := set_flag s FLAG_C (carry != 0)
    { s with cycles := s.cycles + 4 }
  else if opcode = 0x11 then  -- LD DE,nn
    let fr := fetch_word s
    let s := set_de fr.1 fr.2
    { s with cycles := s.cycles + 12 }
  else if opcode = 0x12 then  -- LD (DE),A
    let s := write_byte s (get_de s) s.a
    { s with cycles := s.cycles + 8 }
  else if opcode = 0x13 then  -- INC DE
    let s := set_de s ((get_de s + 1) &&& 0xFFFF)
    { s with cycles := s.cycles + 8 }
  else if opcode = 0x14 then  -- INC D
    let fr := inc_8bit s s.d
    let s := { fr.1 with d := fr.2 }
    { s with cycles := s.cycles + 4 }
  else if opcode = 0x15 then  -- DEC D
    let fr := dec_8bit s s.d
    let s := { fr.1 with d := fr.2 }
    { s with cycles := s.cycles + 4 }
  else if opcode = 0x16 then  -- LD D,n
    let fr := fetch_byte s
    let s := { fr.1 with d := fr.2 }
    { s with cycles := s.cycles + 8 }
  else if opcode = 0x17 then  -- RLA
    let carry := get_flag s FLAG_C
    let new_carry := (s.a >>> 7) &&& 1
    let s := { s with a := ((s.a <<< 1) ||| carry) &&& 0xFF }
    let s := set_flag s FLAG_Z false
    let s := set_flag s FLAG_N false
    let s := set_flag s FLAG_H false
    let s := set_flag s FLAG_C (new_carry != 0)
    { s with cycles := s.cycles + 4 }
  else if opcode = 0x18 then  -- JR n
    let fr := fetch_byte s
    let s := fr.1
    let offset : Int := if fr.2 > 127 then (fr.2 : Int) - 256 else (fr.2 : Int)
    let s := { s with pc := (((s.pc : Int) + offset) % 0x10000).toNat }
    { s with cycles := s.cycles + 12 }
  else if opcode = 0x19 then  -- ADD HL,DE
    let s := add_hl s (get_de s)
    { s with cycles := s.cycles + 8 }
  else if opcode = 0x1A then  -- LD A,(DE)
    let s := { s with a := read_byte s (get_de s) }
    { s with cycles := s.cycles + 8 }
  else if opcode = 0x1B then  -- DEC DE
    let s := set_de s ((get_de s + 0x10000 - 1) % 0x10000)
    { s with cycles := s.cycles + 8 }
  else if opcode = 0x1C then  -- INC E
    let fr := inc_8bit s s.e
    let s := { fr.1 with e := fr.2 }
    { s with cycles := s.cycles + 4 }
  else if opcode = 0x1D then  -- DEC E
    let fr := dec_8bit s s.e
    let s := { fr.1 with e := fr.2 }
    { s with cycles := s.cycles + 4 }
  else if opcode = 0x1E then  -- LD E,n
    let fr := fetch_byte s
    let s := { fr.1 with e := fr.2 }
    { s with cycles := s.cycles + 8 }
  else if opcode = 0x1F then  -- RRA
    let carry := get_flag s FLAG_C
    let new_carry := s.a &&& 1
    let s := { s with a := ((s.a >>> 1) ||| (carry <<< 7)) &&& 0xFF }
    let s := set_flag s FLAG_Z false
    let s := set_flag s FLAG_N false
    let s := set_flag s FLAG_H false
    let s := set_flag s FLAG_C (new_carry != 0)
    { s with cycles := s.cycles + 4 }
  else if opcode = 0x20 then  -- JR NZ,n
    let fr := fetch_byte s
    let s := fr.1
    if get_flag s FLAG_Z = 0 then
      let offset : Int := if fr.2 > 127 then (fr.2 : Int) - 256 else (fr.2 : Int)
      let s := { s with pc := (((s.pc : Int) + offset) % 0x10000).toNat }
      { s with cycles := s.cycles + 12 }
    else
      { s with cycles := s.cycles + 8 }
  else if opcode = 0x21 then  -- LD HL,nn
    let fr := fetch_word s
    let s := set_hl fr.1 fr.2
    { s with cycles := s.cycles + 12 }
  else if opcode = 0x22 then  -- LD (HL+),A
    let s := write_byte s (get_hl s) s.a
    let s := set_hl s ((get_hl s + 1) &&& 0xFFFF)
    { s with cycles := s.cycles + 8 }
  else if opcode = 0x23 then  -- INC HL
    let s := set_hl s ((get_hl s + 1) &&& 0xFFFF)
    { s with cycles := s.cycles + 8 }
  else if opcode = 0x24 then  -- INC H
    let fr := inc_8bit s s.h
    let s := { fr.1 with h := fr.2 }
    { s with cycles := s.cycles + 4 }
  else if opcode = 0x25 then  -- DEC H
    let fr := dec_8bit s s.h
    let s := { fr.1 with h := fr.2 }
    { s with cycles := s.cycles + 4 }
  else if opcode = 0x26 then  -- LD H,n
    let fr := fetch_byte s
    let s := { fr.1 with h := fr.2 }
    { s with cycles := s.cycles + 8 }
  else if opcode = 0x28 then  -- JR Z,n
    let fr := fetch_byte s
    let s := fr.1
    if get_flag s FLAG_Z ≠ 0 then
      let offset : Int := if fr.2 > 127 then (fr.2 : Int) - 256 else (fr.2 : Int)
      let s := { s with pc := (((s.pc : Int) + offset) % 0x10000).toNat }
      { s with cycles := s.cycles + 12 }
    else
      { s with cycles := s.cycles + 8 }
  else if opcode = 0x29 then  -- ADD HL,HL
    let s := add_hl s (get_hl s)
    { s with cycles := s.cycles + 8 }
  else if opcode = 0x2A then  -- LD A,(HL+)
    let s := { s with a := read_byte s (get_hl s) }
    let s := set_hl s ((get_hl s + 1) &&& 0xFFFF)
    { s with cycles := s.cycles + 8 }
  else if opcode = 0x2B then  -- DEC HL
    let s := set_hl s ((get_hl s + 0x10000 - 1) % 0x10000)
    { s with cycles := s.cycles + 8 }
  else if opcode = 0x2C then  -- INC L
    let fr := inc_8bit s s.l
    let s := { fr.1 with l := fr.2 }
    { s with cycles := s.cycles + 4 }
  else if opcode = 0x2D then  -- DEC L
    let fr := dec_8bit s s.l
    let s := { fr.1 with l := fr.2 }
    { s with cycles := s.cycles + 4 }
  else if opcode = 0x2E then  -- LD L,n
    let fr := fetch_byte s
    let s := { fr.1 with l := fr.2 }
    { s with cycles := s.cycles + 8 }
  else if opcode = 0x2F then  -- CPL
    let s := { s with a := s.a ^^^ 0xFF }
    let s := set_flag s FLAG_N true
    let s := set_flag s FLAG_H true
    { s with cycles := s.cycles + 4 }
  else if opcode = 0x30 then  -- JR NC,n
    let fr := fetch_byte s
    let s := fr.1
    if get_flag s FLAG_C = 0 then
      let offset : Int := if fr.2 > 127 then (fr.2 : Int) - 256 else (fr.2 : Int)
      let s := { s with pc := (((s.pc : Int) + offset) % 0x10000).toNat }
      { s with cycles := s.cycles + 12 }
    else
      { s with cycles := s.cycles + 8 }
  else if opcode = 0x31 then  -- LD SP,nn
    let fr := fetch_word s
    let s := { fr.1 with sp := fr.2 }
    { s with cycles := s.cycles + 12 }
  else if opcode = 0x32 then  -- LD (HL-),A
    let s := write_byte s (get_hl s) s.a
    let s := set_hl s ((get_hl s + 0x10000 - 1) % 0x10000)
    { s with cycles := s.cycles + 8 }
  else if opcode = 0x33 then  -- INC SP
    let s := { s with sp := (s.sp + 1) &&& 0xFFFF }
    { s with cycles := s.cycles + 8 }
  else if opcode = 0x34 then  -- INC (HL)
    let addr := get_hl s
    let value := read_byte s addr
    let fr := inc_8bit s value
    let s := write_byte fr.1 addr fr.2
    { s with cycles := s.cycles + 12 }
  else if opcode = 0x35 then  -- DEC (HL)
    let addr := get_hl s
    let value := read_byte s addr
    let fr := dec_8bit s value
    let s := write_byte fr.1 addr fr.2
    { s with cycles := s.cycles + 12 }
  else if opcode = 0x36 then  -- LD (HL),n
    let hl := get_hl s
    let fr := fetch_byte s
    let s := write_byte fr.1 hl fr.2
    { s with cycles := s.cycles + 12 }
  else if opcode = 0x37 then  -- SCF
    let s := set_flag s FLAG_N false
    let s := set_flag s FLAG_H false
    let s := set_flag s FLAG_C true
    { s with cycles := s.cycles + 4 }
  else if opcode = 0x38 then  -- JR C,n
    let fr := fetch_byte s
    let s := fr.1
    if get_flag s FLAG_C ≠ 0 then
      let offset : Int := if fr.2 > 127 then (fr.2 : Int) - 256 else (fr.2 : Int)
      let s := { s with pc := (((s.pc : Int) + offset) % 0x10000).toNat }
      { s with cycles := s.cycles + 12 }
    else
      { s with cycles := s.cycles + 8 }
  else if opcode = 0x39 then  -- ADD HL,SP
    let s := add_hl s s.sp
    { s with cycles := s.cycles + 8 }
  else if opcode = 0x3A then  -- LD A,(HL-)
    let s := { s with a := read_byte s (get_hl s) }
    let s := set_hl s ((get_hl s + 0x10000 - 1) % 0x10000)
    { s with cycles := s.cycles + 8 }
  else if opcode = 0x3B then  -- DEC SP
    let s := { s with sp := (s.sp + 0x10000 - 1) % 0x10000 }
    { s with cycles := s.cycles + 8 }
  else if opcode = 0x3C then  -- INC A
    let fr := inc_8bit s s.a
    let s := { fr.1 with a := fr.2 }
    { s with cycles := s.cycles + 4 }
  else if opcode = 0x3D then  -- DEC A
    let fr := dec_8bit s s.a
    let s := { fr.1 with a := fr.2 }
    { s with cycles := s.cycles + 4 }
  else if opcode = 0x3E then  -- LD A,n
    let fr := fetch_byte s
    let s := { fr.1 with a := fr.2 }
    { s with cycles := s.cycles + 8 }
  else if opcode = 0x3F then  -- CCF
    let s := set_flag s FLAG_N false
    let s := set_flag s FLAG_H false
    let s := set_flag s FLAG_C (get_flag s FLAG_C == 0)
    { s with cycles := s.cycles + 4 }
  else if 0x40 ≤ opcode ∧ opcode ≤ 0x7F then  -- LD r,r and HALT
    if opcode = 0x76 then
      let s := { s with halted := true }
      { s with cycles := s.cycles + 4 }
    else
      ld_r_r s opcode
  else
    execute_opcode_hi s opcode

/-- Embedding of `CPU.step` (src/cpu.py): while halted only 4 cycles are
charged (the source has a TODO about waking from HALT); while stopped
nothing happens; otherwise fetch and execute one opcode. -/
def step (s : S) : S :=
  if s.halted then { s with cycles := s.cycles + 4 }
  else if s.stopped then s
  else
    let fr := fetch_byte s
    execute_opcode fr.1 fr.2

/-- Embedding of `Interrupts.request_interrupt` (src/interrupts.py). -/
def request_interrupt (s : S) (interrupt_bit : Nat) : S :=
  let s := { s with interrupt_flag := s.interrupt_flag ||| (1 <<< interrupt_bit) }
  write_byte s 0xFF0F s.interrupt_flag

/-- Embedding of `Interrupts.service_interrupt` (src/interrupts.py); the
trailing `print` is dropped. -/
def service_interrupt (s : S) (interrupt_bit vector : Nat) : S :=
  let s := { s with ime := false }
  let s := { s with interrupt_flag := ldiff s.interrupt_flag (1 <<< interrupt_bit) }
  let s := write_byte s 0xFF0F s.interrupt_flag
  let s := { s with halted := false }
  let s := push_word s s.pc
  let s := { s with pc := vector }
  { s with cycles := s.cycles + 20 }

/-- Embedding of `Interrupts.handle_interrupts` (src/interrupts.py): returns
the new state and whether an interrupt was handled. -/
def handle_interrupts (s : S) : S × Bool :=
  if ¬ s.ime then (s, false)
  else
    let pending := s.interrupt_flag &&& s.interrupt_enable
    if pending = 0 then (s, false)
    else if pending &&& (1 <<< INT_VBLANK) ≠ 0 then
      (service_interrupt s INT_VBLANK VECTOR_VBLANK, true)
    else if pending &&& (1 <<< INT_LCD) ≠ 0 then
      (service_interrupt s INT_LCD VECTOR_LCD, true)
    else if pending &&& (1 <<< INT_TIMER) ≠ 0 then
      (service_interrupt s INT_TIMER VECTOR_TIMER, true)
    else if pending &&& (1 <<< INT_SERIAL) ≠ 0 then
      (service_interrupt s INT_SERIAL VECTOR_SERIAL, true)
    else if pending &&& (1 <<< INT_JOYPAD) ≠ 0 then
      (service_interrupt s INT_JOYPAD VECTOR_JOYPAD, true)
    else (s, false)

/-- Initial emulator state: the `GameBoy.__init__` wiring with the field
values from the component constructors (all memory arrays zeroed, CPU
post-boot register values, no button pressed). -/
def init_state : S where
  a := 0x01
  f := 0xB0
  b := 0x00
  c := 0x13
  d := 0x00
  e := 0xD8
  h := 0x01
  l := 0x4D
  sp := 0xFFFE
  pc := 0x0100
  ime := false
  halted := false
  stopped := false
  cycles := 0
  rom := fun _ => 0
  vram := fun _ => 0
  eram := fun _ => 0
  wram := fun _ => 0
  oam := fun _ => 0
  ioregs := fun _ => 0
  hram := fun _ => 0
  ie := 0
  interrupt_flag := 0
  interrupt_enable := 0
  buttons := fun _ => false
  select_buttons := false
  select_dpad := false
  p1 := 0xFF
  div := 0
  tima := 0
  tma := 0
  tac := 0
  div_counter := 0
  tima_counter := 0
  timer_enabled := false

/-- Tile-data address computation of `PPU.render_background_line`
(src/ppu.py): `tile_data_base` selected by LCDC bit 4, `use_signed` when the
bit is clear, reinterpretation of map entries above 127 as negative, and
`tile_addr = tile_data_base + tile_index * 16`, computed in `Int` because the
signed index may be negative. -/
def bg_tile_addr (lcdc tile_index : Nat) : Int :=
  let tile_data_base : Int := if lcdc &&& 0x10 ≠ 0 then 0x8000 else 0x8800
  let use_signed : Bool := lcdc &&& 0x10 == 0
  if use_signed then
    let tile_index : Int :=
      if (tile_index : Int) > 127 then (tile_index : Int) - 256 else (tile_index : Int)
    tile_data_base + tile_index * 16
  else
    tile_data_base + (tile_index : Nat) * 16

/-- Concrete state used to exercise the joypad: as `init_state`, but with the
Start button held down. -/
def joypad_state : S :=
  { init_state with buttons := fun i => i == BUTTON_START }

/-- Concrete state used to exercise interrupt dispatch: IME on, Timer
interrupt requested and enabled. -/
def dispatch_state : S :=
  { init_state with
    ime := true
    interrupt_flag := 0x04
    interrupt_enable := 0x04 }

/-- Concrete state used to exercise the HALT wake-up path: halted, IME off,
with the V-Blank interrupt both requested and enabled. -/
def halted_state : S :=
  { init_state with
    halted := true
    ime := false
    interrupt_flag := 0x01
    interrupt_enable := 0x01 }

/-- Addresses whose bytes are stored in a plain RAM array of `Memory`:
VRAM, external RAM, work RAM, echo RAM and OAM (0x8000-0xFE9F) and high RAM
(0xFF80-0xFFFE).  This excludes ROM, the unusable region 0xFEA0-0xFEFF, the
I/O registers 0xFF00-0xFF7F and the IE register 0xFFFF. -/
def ramBacked (a : Nat) : Prop :=
  (0x8000 ≤ a ∧ a < 0xFEA0) ∨ (0xFF80 ≤ a ∧ a < 0xFFFF)

-- ======================================================================
-- Theorems
-- ======================================================================

/-- Bit-level reading of `ldiff`: a bit survives exactly when it is set in
the left operand and clear in the right one — Python's `x & ~y`. -/
theorem ldiff_bits (x y k : Nat) :
    Nat.testBit (ldiff x y) k = (Nat.testBit x k && !(Nat.testBit y k)) := by
  unfold ldiff
  rw [Nat.testBit_xor, Nat.testBit_and]
  cases hx : Nat.testBit x k
  · rfl
  · cases hy : Nat.testBit y k
    · rfl
    · rfl

/-- Mask identity used throughout: `a & 0xFFFF` is the identity below 2^16. -/
theorem and_ffff_eq (a : Nat) (h : a < 0x10000) : a &&& 0xFFFF = a := by
  rw [show (0xFFFF : Nat) = 2 ^ 16 - 1 from rfl]
  exact Nat.and_pow_two_sub_one_of_lt_two_pow h

/-- Effect of `write_byte` in the VRAM region. -/
theorem write_byte_vram (s : S) (v : Nat) {a : Nat}
    (h1 : 0x8000 ≤ a) (h2 : a < 0xA000) :
    write_byte s a v = { s with vram := upd s.vram (a - 0x8000) (v &&& 0xFF) } := by
  have hm : a &&& 0xFFFF = a := and_ffff_eq a (by omega)
  unfold write_byte
  simp only [hm]
  rw [if_neg (by omega)]
  rw [if_pos (by omega)]

/-- Effect of `write_byte` in the external-RAM region. -/
theorem write_byte_eram (s : S) (v : Nat) {a : Nat}
    (h1 : 0xA000 ≤ a) (h2 : a < 0xC000) :
    write_byte s a v = { s with eram := upd s.eram (a - 0xA000) (v &&& 0xFF) } := by
  have hm : a &&& 0xFFFF = a := and_ffff_eq a (by omega)
  unfold write_byte
  simp only [hm]
  rw [if_neg (by omega)]
  rw [if_neg (by omega)]
  rw [if_pos (by omega)]

/-- Effect of `write_byte` in the work-RAM region. -/
theorem write_byte_wram (s : S) (v : Nat) {a : Nat}
    (h1 : 0xC000 ≤ a) (h2 : a < 0xE000) :
    write_byte s a v = { s with wram := upd s.wram (a - 0xC000) (v &&& 0xFF) } := by
  have hm : a &&& 0xFFFF = a := and_ffff_eq a (by omega)
  unfold write_byte
  simp only [hm]
  rw [if_neg (by omega)]
  rw [if_neg (by omega)]
  rw [if_neg (by omega)]
  rw [if_pos (by omega)]

/-- Effect of `write_byte` in the echo-RAM region: it lands in work RAM. -/
theorem write_byte_echo (s : S) (v : Nat) {a : Nat}
    (h1 : 0xE000 ≤ a) (h2 : a < 0xFE00) :
    write_byte s a v = { s with wram := upd s.wram (a - 0xE000) (v &&& 0xFF) } := by
  have hm : a &&& 0xFFFF = a := and_ffff_eq a (by omega)
  unfold write_byte
  simp only [hm]
  rw [if_neg (by omega)]
  rw [if_neg (by omega)]
  rw [if_neg (by omega)]
  rw [if_neg (by omega)]
  rw [if_pos (by omega)]

/-- Effect of `write_byte` in the OAM region. -/
theorem write_byte_oam (s : S) (v : Nat) {a : Nat}
    (h1 : 0xFE00 ≤ a) (h2 : a < 0xFEA0) :
    write_byte s a v = { s with oam := upd s.oam (a - 0xFE00) (v &&& 0xFF) } := by
  have hm : a &&& 0xFFFF = a := and_ffff_eq a (by omega)
  unfold write_byte
  simp only [hm]
  rw [if_neg (by omega)]
  rw [if_neg (by omega)]
  rw [if_neg (by omega)]
  rw [if_neg (by omega)]
  rw [if_neg (by omega)]
  rw [if_pos (by omega)]

/-- Effect of `write_byte` in the high-RAM region. -/
theorem write_byte_hram (s : S) (v : Nat) {a : Nat}
    (h1 : 0xFF80 ≤ a) (h2 : a < 0xFFFF) :
    write_byte s a v = { s with hram := upd s.hram (a - 0xFF80) (v &&& 0xFF) } := by
  have hm : a &&& 0xFFFF = a := and_ffff_eq a (by omega)
  unfold write_byte
  simp only [hm]
  rw [if_neg (by omega)]
  rw [if_neg (by omega)]
  rw [if_neg (by omega)]
  rw [if_neg (by omega)]
  rw [if_neg (by omega)]
  rw [if_neg (by omega)]
  rw [if_neg (by omega)]
  rw [if_neg (by omega)]
  rw [if_pos (by omega)]

/-- Value of `read_byte` in the VRAM region. -/
theorem read_byte_vram (s : S) {a : Nat} (h1 : 0x8000 ≤ a) (h2 : a < 0xA000) :
    read_byte s a = s.vram (a - 0x8000) := by
  have hm : a &&& 0xFFFF = a := and_ffff_eq a (by omega)
  unfold read_byte
  simp only [hm]
  rw [if_neg (by omega)]
  rw [if_pos (by omega)]

/-- Value of `read_byte` in the external-RAM region. -/
theorem read_byte_eram (s : S) {a : Nat} (h1 : 0xA000 ≤ a) (h2 : a < 0xC000) :
    read_byte s a = s.eram (a - 0xA000) := by
  have hm : a &&& 0xFFFF = a := and_ffff_eq a (by omega)
  unfold read_byte
  simp only [hm]
  rw [if_neg (by omega)]
  rw [if_neg (by omega)]
  rw [if_neg (by omega)]
  rw [if_neg (by omega)]
  rw [if_neg (by omega)]
  rw [if_pos (by omega)]

/-- Value of `read_byte` in the work-RAM region. -/
theorem read_byte_wram (s : S) {a : Nat} (h1 : 0xC000 ≤ a) (h2 : a < 0xE000) :
    read_byte s a = s.wram (a - 0xC000) := by
  have hm : a &&& 0xFFFF = a := and_ffff_eq a (by omega)
  unfold read_byte
  simp only [hm]
  rw [if_neg (by omega)]
  rw [if_neg (by omega)]
  rw [if_pos (by omega)]

/-- Value of `read_byte` in the echo-RAM region: it reads work RAM. -/
theorem read_byte_echo (s : S) {a : Nat} (h1 : 0xE000 ≤ a) (h2 : a < 0xFE00) :
    read_byte s a = s.wram (a - 0xE000) := by
  have hm : a &&& 0xFFFF = a := and_ffff_eq a (by omega)
  unfold read_byte
  simp only [hm]
  rw [if_neg (by omega)]
  rw [if_neg (by omega)]
  rw [if_neg (by omega)]
  rw [if_neg (by omega)]
  rw [if_neg (by omega)]
  rw [if_neg (by omega)]
  rw [if_pos (by omega)]

/-- Value of `read_byte` in the OAM region. -/
theorem read_byte_oam (s : S) {a : Nat} (h1 : 0xFE00 ≤ a) (h2 : a < 0xFEA0) :
    read_byte s a = s.oam (a - 0xFE00) := by
  have hm : a &&& 0xFFFF = a := and_ffff_eq a (by omega)
  unfold read_byte
  simp only [hm]
  rw [if_neg (by omega)]
  rw [if_neg (by omega)]
  rw [if_neg (by omega)]
  rw [if_pos (by omega)]

/-- Value of `read_byte` in the high-RAM region. -/
theorem read_byte_hram (s : S) {a : Nat} (h1 : 0xFF80 ≤ a) (h2 : a < 0xFFFF) :
    read_byte s a = s.hram (a - 0xFF80) := by
  have hm : a &&& 0xFFFF = a := and_ffff_eq a (by omega)
  unfold read_byte
  simp only [hm]
  rw [if_neg (by omega)]
  rw [if_neg (by omega)]
  rw [if_neg (by omega)]
  rw [if_neg (by omega)]
  rw [if_pos (by omega)]

/-- Writing a byte at a RAM-backed address and reading the same address back
gives the written byte (masked to 8 bits). -/
theorem read_byte_write_byte_same (s : S) (a v : Nat) (h : ramBacked a) :
    read_byte (write_byte s a v) a = v &&& 0xFF := by
  unfold ramBacked at h
  rcases (by omega :
      (0x8000 ≤ a ∧ a < 0xA000) ∨ (0xA000 ≤ a ∧ a < 0xC000) ∨
      (0xC000 ≤ a ∧ a < 0xE000) ∨ (0xE000 ≤ a ∧ a < 0xFE00) ∨
      (0xFE00 ≤ a ∧ a < 0xFEA0) ∨ (0xFF80 ≤ a ∧ a < 0xFFFF)) with
    ⟨h1, h2⟩ | ⟨h1, h2⟩ | ⟨h1, h2⟩ | ⟨h1, h2⟩ | ⟨h1, h2⟩ | ⟨h1, h2⟩
  · rw [write_byte_vram _ _ h1 h2, read_byte_vram _ h1 h2]; simp [upd]
  · rw [write_byte_eram _ _ h1 h2, read_byte_eram _ h1 h2]; simp [upd]
  · rw [write_byte_wram _ _ h1 h2, read_byte_wram _ h1 h2]; simp [upd]
  · rw [write_byte_echo _ _ h1 h2, read_byte_echo _ h1 h2]; simp [upd]
  · rw [write_byte_oam _ _ h1 h2, read_byte_oam _ h1 h2]; simp [upd]
  · rw [write_byte_hram _ _ h1 h2, read_byte_hram _ h1 h2]; simp [upd]

/-- Writing a byte at the RAM-backed address `a + 1` does not change the byte
read at the RAM-backed address `a`. -/
theorem read_byte_write_byte_next (s : S) (a v : Nat)
    (h1 : ramBacked a) (h2 : ramBacked (a + 1)) :
    read_byte (write_byte s (a + 1) v) a = read_byte s a := by
  unfold ramBacked at h1 h2
  rcases (by omega :
      (0x8000 ≤ a ∧ a < 0xA000) ∨ (0xA000 ≤ a ∧ a < 0xC000) ∨
      (0xC000 ≤ a ∧ a < 0xE000) ∨ (0xE000 ≤ a ∧ a < 0xFE00) ∨
      (0xFE00 ≤ a ∧ a < 0xFEA0) ∨ (0xFF80 ≤ a ∧ a < 0xFFFF)) with
    ⟨ha1, ha2⟩ | ⟨ha1, ha2⟩ | ⟨ha1, ha2⟩ | ⟨ha1, ha2⟩ | ⟨ha1, ha2⟩ | ⟨ha1, ha2⟩
  · by_cases hb : a + 1 < 0xA000
    · rw [write_byte_vram _ _ (by omega) hb, read_byte_vram _ ha1 ha2,
        read_byte_vram _ ha1 ha2]
      simp [upd]
      omega
    · rw [write_byte_eram _ _ (by omega) (by omega), read_byte_vram _ ha1 ha2,
        read_byte_vram _ ha1 ha2]
  · by_cases hb : a + 1 < 0xC000
    · rw [write_byte_eram _ _ (by omega) hb, read_byte_eram _ ha1 ha2,
        read_byte_eram _ ha1 ha2]
      simp [upd]
      omega
    · rw [write_byte_wram _ _ (by omega) (by omega), read_byte_eram _ ha1 ha2,
        read_byte_eram _ ha1 ha2]
  · by_cases hb : a + 1 < 0xE000
    · rw [write_byte_wram _ _ (by omega) hb, read_byte_wram _ ha1 ha2,
        read_byte_wram _ ha1 ha2]
      simp [upd]
      omega
    · rw [write_byte_echo _ _ (by omega) (by omega), read_byte_wram _ ha1 ha2,
        read_byte_wram _ ha1 ha2]
      simp [upd]
      omega
  · by_cases hb : a + 1 < 0xFE00
    · rw [write_byte_echo _ _ (by omega) hb, read_byte_echo _ ha1 ha2,
        read_byte_echo _ ha1 ha2]
      simp [upd]
      omega
    · rw [write_byte_oam _ _ (by omega) (by omega), read_byte_echo _ ha1 ha2,
        read_byte_echo _ ha1 ha2]
  · by_cases hb : a + 1 < 0xFEA0
    · rw [write_byte_oam _ _ (by omega) hb, read_byte_oam _ ha1 ha2,
        read_byte_oam _ ha1 ha2]
      simp [upd]
      omega
    · omega
  · have hb : a + 1 < 0xFFFF := by omega
    rw [write_byte_hram _ _ (by omega) hb, read_byte_hram _ ha1 ha2,
      read_byte_hram _ ha1 ha2]
    simp [upd]
    omega

/-- Recombining the two bytes of a 16-bit value. -/
theorem word_recombine (v : Nat) (hv : v < 0x10000) :
    (((v >>> 8) &&& 0xFF) <<< 8) ||| (v &&& 0xFF) = v := by
  have h8 : ∀ x : Nat, x &&& 0xFF = x % 256 := by
    intro x
    rw [show (0xFF : Nat) = 2 ^ 8 - 1 from rfl]
    exact Nat.and_pow_two_sub_one_eq_mod x 8
  have hsr : v >>> 8 = v / 256 := Nat.shiftRight_eq_div_pow v 8
  have hdiv : v / 256 < 256 := by omega
  have hmod : v / 256 % 256 = v / 256 := Nat.mod_eq_of_lt hdiv
  rw [h8, h8, hsr, hmod, Nat.shiftLeft_eq, Nat.mul_comm]
  rw [← Nat.mul_add_lt_is_or (show v % 256 < 2 ^ 8 by omega) (v / 256)]
  omega

/-- C9: word round-trip through the bus.  For every 16-bit value `v` and even
address `a` such that both `a` and `a + 1` are RAM-backed (away from the
IO-register and ROM regions), `write_word` followed by `read_word` at `a`
returns `v`. -/
theorem word_roundtrip_ram (s : S) (a v : Nat)
    (h1 : ramBacked a) (h2 : ramBacked (a + 1))
    (heven : a % 2 = 0) (hv : v < 0x10000) :
    read_word (write_word s a v) a = v := by
  unfold write_word read_word
  rw [read_byte_write_byte_next _ _ _ h1 h2,
    read_byte_write_byte_same _ _ _ h1,
    read_byte_write_byte_same _ _ _ h2]
  have hdd : ∀ x : Nat, x &&& 0xFF &&& 0xFF = x &&& 0xFF := by
    intro x
    rw [Nat.and_assoc, show (0xFF &&& 0xFF : Nat) = 0xFF from rfl]
  rw [hdd, hdd]
  exact word_recombine v hv

/-- C9 witness: the round trip at the concrete work-RAM address 0xC000 with
value 0xABCD. -/
theorem word_roundtrip_ram_witness :
    read_word (write_word init_state 0xC000 0xABCD) 0xC000 = 0xABCD :=
  word_roundtrip_ram init_state 0xC000 0xABCD
    (Or.inl (by omega)) (Or.inl (by omega)) (by omega) (by omega)

/-- Writes at RAM-backed addresses leave the CPU control fields and the
interrupt registers unchanged. -/
theorem write_byte_ram_ctrl (s : S) (v : Nat) {a : Nat} (h : ramBacked a) :
    (write_byte s a v).ime = s.ime ∧ (write_byte s a v).halted = s.halted ∧
    (write_byte s a v).pc = s.pc ∧ (write_byte s a v).sp = s.sp ∧
    (write_byte s a v).cycles = s.cycles ∧
    (write_byte s a v).interrupt_flag = s.interrupt_flag ∧
    (write_byte s a v).interrupt_enable = s.interrupt_enable := by
  unfold ramBacked at h
  rcases (by omega :
      (0x8000 ≤ a ∧ a < 0xA000) ∨ (0xA000 ≤ a ∧ a < 0xC000) ∨
      (0xC000 ≤ a ∧ a < 0xE000) ∨ (0xE000 ≤ a ∧ a < 0xFE00) ∨
      (0xFE00 ≤ a ∧ a < 0xFEA0) ∨ (0xFF80 ≤ a ∧ a < 0xFFFF)) with
    ⟨h1, h2⟩ | ⟨h1, h2⟩ | ⟨h1, h2⟩ | ⟨h1, h2⟩ | ⟨h1, h2⟩ | ⟨h1, h2⟩
  · rw [write_byte_vram _ _ h1 h2]; repeat' constructor
  · rw [write_byte_eram _ _ h1 h2]; repeat' constructor
  · rw [write_byte_wram _ _ h1 h2]; repeat' constructor
  · rw [write_byte_echo _ _ h1 h2]; repeat' constructor
  · rw [write_byte_oam _ _ h1 h2]; repeat' constructor
  · rw [write_byte_hram _ _ h1 h2]; repeat' constructor

/-- Effect of `write_byte` at the interrupt-flag address 0xFF0F: the value is
masked into the controller and stored in the io-register array. -/
theorem write_byte_ff0f (s : S) (v : Nat) :
    write_byte s 0xFF0F v =
      { s with
        interrupt_flag := (v &&& 0xFF) &&& 0x1F
        ioregs := upd s.ioregs 0x0F (v &&& 0xFF) } := by
  rfl

/-- RAM writes leave IME unchanged. -/
theorem wb_ram_ime (s : S) (v a : Nat) (h : ramBacked a) :
    (write_byte s a v).ime = s.ime :=
  (write_byte_ram_ctrl s v h).1

/-- RAM writes leave the halted flag unchanged. -/
theorem wb_ram_halted (s : S) (v a : Nat) (h : ramBacked a) :
    (write_byte s a v).halted = s.halted :=
  (write_byte_ram_ctrl s v h).2.1

/-- RAM writes leave the program counter unchanged. -/
theorem wb_ram_pc (s : S) (v a : Nat) (h : ramBacked a) :
    (write_byte s a v).pc = s.pc :=
  (write_byte_ram_ctrl s v h).2.2.1

/-- RAM writes leave the stack pointer unchanged. -/
theorem wb_ram_sp (s : S) (v a : Nat) (h : ramBacked a) :
    (write_byte s a v).sp = s.sp :=
  (write_byte_ram_ctrl s v h).2.2.2.1

/-- RAM writes leave the cycle counter unchanged. -/
theorem wb_ram_cycles (s : S) (v a : Nat) (h : ramBacked a) :
    (write_byte s a v).cycles = s.cycles :=
  (write_byte_ram_ctrl s v h).2.2.2.2.1

/-- RAM writes leave the interrupt flag unchanged. -/
theorem wb_ram_iflag (s : S) (v a : Nat) (h : ramBacked a) :
    (write_byte s a v).interrupt_flag = s.interrupt_flag :=
  (write_byte_ram_ctrl s v h).2.2.2.2.2.1

/-- The joypad view of the P1 register depends only on the button and
group-select state. -/
theorem read_p1_congr (s t : S) (hb : s.buttons = t.buttons)
    (h1 : s.select_buttons = t.select_buttons)
    (h2 : s.select_dpad = t.select_dpad) :
    read_p1 s = read_p1 t := by
  unfold read_p1
  rw [hb, h1, h2]

/-- Reading a byte depends only on the memory arrays, the interrupt
registers and the joypad state, not on the CPU registers. -/
theorem read_byte_congr (s t : S) (a : Nat)
    (hrom : s.rom = t.rom) (hvram : s.vram = t.vram) (heram : s.eram = t.eram)
    (hwram : s.wram = t.wram) (hoam : s.oam = t.oam)
    (hioregs : s.ioregs = t.ioregs) (hhram : s.hram = t.hram)
    (hif : s.interrupt_flag = t.interrupt_flag)
    (hie : s.interrupt_enable = t.interrupt_enable)
    (hb : s.buttons = t.buttons)
    (hsb : s.select_buttons = t.select_buttons)
    (hsd : s.select_dpad = t.select_dpad) :
    read_byte s a = read_byte t a := by
  unfold read_byte get_interrupt_flag get_interrupt_enable
  rw [read_p1_congr s t hb hsb hsd,
    hrom, hvram, heram, hwram, hoam, hioregs, hhram, hif, hie]

/-- Setting the program counter does not change what the bus reads. -/
theorem read_byte_set_pc (s : S) (p x : Nat) :
    read_byte { s with pc := p } x = read_byte s x :=
  read_byte_congr _ _ _ rfl rfl rfl rfl rfl rfl rfl rfl rfl rfl rfl rfl

/-- Setting the program counter and charging cycles does not change what the
bus reads. -/
theorem read_byte_set_pc_cycles (s : S) (p cy x : Nat) :
    read_byte { s with pc := p, cycles := cy } x = read_byte s x :=
  read_byte_congr _ _ _ rfl rfl rfl rfl rfl rfl rfl rfl rfl rfl rfl rfl

/-- Full effect of `Interrupts.service_interrupt` when the two stack bytes
land in RAM-backed memory: IME cleared, IF bit cleared, HALT cleared, the old
PC pushed at `sp - 2`, PC set to the vector, and 20 cycles charged. -/
theorem service_interrupt_spec (s : S) (bit vector : Nat)
    (hsp1 : ramBacked (s.sp - 2)) (hsp2 : ramBacked (s.sp - 1))
    (hsp : 2 ≤ s.sp ∧ s.sp < 0x10000) (hpc : s.pc < 0x10000) :
    (service_interrupt s bit vector).ime = false ∧
    (service_interrupt s bit vector).halted = false ∧
    (service_interrupt s bit vector).interrupt_flag.testBit bit = false ∧
    (service_interrupt s bit vector).pc = vector ∧
    (service_interrupt s bit vector).cycles = s.cycles + 20 ∧
    (service_interrupt s bit vector).sp = s.sp - 2 ∧
    read_word (service_interrupt s bit vector) (s.sp - 2) = s.pc := by
  have e1 : (s.sp + 0x10000 - 2) % 0x10000 = s.sp - 2 := by omega
  have hsp2' : ramBacked (s.sp - 2 + 1) := by
    have e2 : s.sp - 2 + 1 = s.sp - 1 := by omega
    rw [e2]; exact hsp2
  simp only [service_interrupt, push_word, write_word, write_byte_ff0f, e1]
  refine ⟨?_, ?_, ?_, ?_, ?_, ?_, ?_⟩
  · simp only [wb_ram_ime _ _ _ hsp2', wb_ram_ime _ _ _ hsp1]
  · simp only [wb_ram_halted _ _ _ hsp2', wb_ram_halted _ _ _ hsp1]
  · simp only [wb_ram_iflag _ _ _ hsp2', wb_ram_iflag _ _ _ hsp1]
    simp [Nat.testBit_and, ldiff_bits, Nat.one_shiftLeft, Nat.testBit_two_pow_self]
  · simp only [wb_ram_pc _ _ _ hsp2', wb_ram_pc _ _ _ hsp1]
  · simp only [wb_ram_cycles _ _ _ hsp2', wb_ram_cycles _ _ _ hsp1]
  · simp only [wb_ram_sp _ _ _ hsp2', wb_ram_sp _ _ _ hsp1]
  · rw [read_word]
    simp only [read_byte_set_pc_cycles]
    rw [read_byte_write_byte_same _ _ _ hsp2',
      read_byte_write_byte_next _ _ _ hsp1 hsp2',
      read_byte_write_byte_same _ _ _ hsp1]
    have hdd : ∀ x : Nat, x &&& 0xFF &&& 0xFF = x &&& 0xFF := by
      intro x
      rw [Nat.and_assoc, show (0xFF &&& 0xFF : Nat) = 0xFF from rfl]
    rw [hdd, hdd]
    exact word_recombine s.pc hpc

/-- Unfolding of `set_flag` on the flag byte. -/
theorem set_flag_f (s : S) (k : Nat) (b : Bool) :
    (set_flag s k b).f = if b then s.f ||| (1 <<< k) else ldiff s.f (1 <<< k) := by
  unfold set_flag
  split <;> simp_all

/-- The accumulator is untouched by `set_flag`. -/
theorem set_flag_a (s : S) (k : Nat) (b : Bool) :
    (set_flag s k b).a = s.a := by
  unfold set_flag
  split <;> rfl

/-- The flag that was just set reads back as its Boolean value. -/
theorem testBit_set_flag_self (s : S) (k : Nat) (b : Bool) :
    ((set_flag s k b).f).testBit k = b := by
  rw [set_flag_f]
  cases b with
  | false =>
      simp [ldiff_bits, Nat.one_shiftLeft, Nat.testBit_two_pow_self]
  | true =>
      simp [Nat.testBit_or, Nat.one_shiftLeft, Nat.testBit_two_pow_self]

/-- Setting one flag leaves every other bit of the flag byte alone. -/
theorem testBit_set_flag_other (s : S) (j k : Nat) (b : Bool) (h : j ≠ k) :
    ((set_flag s k b).f).testBit j = s.f.testBit j := by
  rw [set_flag_f]
  cases b with
  | false =>
      simp [ldiff_bits, Nat.one_shiftLeft, Nat.testBit_two_pow_of_ne (Ne.symm h)]
  | true =>
      simp [Nat.testBit_or, Nat.one_shiftLeft, Nat.testBit_two_pow_of_ne (Ne.symm h)]

/-- The flag accessor is the corresponding bit of the flag byte. -/
theorem get_flag_eq_testBit (s : S) (k : Nat) :
    get_flag s k = (s.f.testBit k).toNat := by
  unfold get_flag
  rw [Nat.toNat_testBit, Nat.shiftRight_eq_div_pow, Nat.and_one_is_mod]

/-- Decide-to-number bridge for flag values. -/
theorem toNat_decide (p : Prop) [Decidable p] :
    (decide p).toNat = if p then 1 else 0 := by
  by_cases h : p <;> simp [h]

/-- Setting a flag never touches the cycle counter. -/
theorem set_flag_cycles (s : S) (k : Nat) (b : Bool) :
    (set_flag s k b).cycles = s.cycles := by
  unfold set_flag
  split <;> rfl















/-- Register-pair and fetch helpers never touch the cycle counter. -/
theorem set_bc_cycles (s : S) (v : Nat) : (set_bc s v).cycles = s.cycles := rfl

/-- DE updates never touch the cycle counter. -/
theorem set_de_cycles (s : S) (v : Nat) : (set_de s v).cycles = s.cycles := rfl

/-- HL updates never touch the cycle counter. -/
theorem set_hl_cycles (s : S) (v : Nat) : (set_hl s v).cycles = s.cycles := rfl

/-- AF updates never touch the cycle counter. -/
theorem set_af_cycles (s : S) (v : Nat) : (set_af s v).cycles = s.cycles := rfl

/-- Fetching a byte never touches the cycle counter. -/
theorem fetch_byte_cycles (s : S) : (fetch_byte s).1.cycles = s.cycles := rfl

/-- Fetching a word never touches the cycle counter. -/
theorem fetch_word_cycles (s : S) : (fetch_word s).1.cycles = s.cycles := rfl

/-- Popping a word never touches the cycle counter. -/
theorem pop_word_cycles (s : S) : (pop_word s).1.cycles = s.cycles := rfl

/-- BC updates never touch the flag byte. -/
theorem set_bc_f (s : S) (v : Nat) : (set_bc s v).f = s.f := rfl

/-- DE updates never touch the flag byte. -/
theorem set_de_f (s : S) (v : Nat) : (set_de s v).f = s.f := rfl

/-- HL updates never touch the flag byte. -/
theorem set_hl_f (s : S) (v : Nat) : (set_hl s v).f = s.f := rfl

/-- Fetching a byte never touches the flag byte. -/
theorem fetch_byte_f (s : S) : (fetch_byte s).1.f = s.f := rfl

/-- Fetching a word never touches the flag byte. -/
theorem fetch_word_f (s : S) : (fetch_word s).1.f = s.f := rfl

/-- Popping a word never touches the flag byte. -/
theorem pop_word_f (s : S) : (pop_word s).1.f = s.f := rfl

/-- Bus writes never touch the cycle counter. -/
theorem write_byte_cycles (s : S) (a v : Nat) :
    (write_byte s a v).cycles = s.cycles := by
  simp only [write_byte]
  by_cases h0 : a &&& 0xFFFF < 0x8000
  · rw [if_pos h0]
  · rw [if_neg h0]
    by_cases h1 : a &&& 0xFFFF < 0xA000
    · rw [if_pos h1]
    · rw [if_neg h1]
      by_cases h2 : a &&& 0xFFFF < 0xC000
      · rw [if_pos h2]
      · rw [if_neg h2]
        by_cases h3 : a &&& 0xFFFF < 0xE000
        · rw [if_pos h3]
        · rw [if_neg h3]
          by_cases h4 : a &&& 0xFFFF < 0xFE00
          · rw [if_pos h4]
          · rw [if_neg h4]
            by_cases h5 : a &&& 0xFFFF < 0xFEA0
            · rw [if_pos h5]
            · rw [if_neg h5]
              by_cases h6 : a &&& 0xFFFF < 0xFF00
              · rw [if_pos h6]
              · rw [if_neg h6]
                by_cases h7 : a &&& 0xFFFF < 0xFF80
                · rw [if_pos h7]
                  by_cases hjp : a &&& 0xFFFF = 0xFF00
                  · rw [if_pos hjp]
                    rfl
                  · rw [if_neg hjp]
                    by_cases hif : a &&& 0xFFFF = 0xFF0F
                    · rw [if_pos hif]
                      rfl
                    · rw [if_neg hif]
                · rw [if_neg h7]
                  by_cases h8 : a &&& 0xFFFF < 0xFFFF
                  · rw [if_pos h8]
                  · rw [if_neg h8]
                    rfl

/-- Bus writes never touch the flag byte. -/
theorem write_byte_f (s : S) (a v : Nat) :
    (write_byte s a v).f = s.f := by
  simp only [write_byte]
  by_cases h0 : a &&& 0xFFFF < 0x8000
  · rw [if_pos h0]
  · rw [if_neg h0]
    by_cases h1 : a &&& 0xFFFF < 0xA000
    · rw [if_pos h1]
    · rw [if_neg h1]
      by_cases h2 : a &&& 0xFFFF < 0xC000
      · rw [if_pos h2]
      · rw [if_neg h2]
        by_cases h3 : a &&& 0xFFFF < 0xE000
        · rw [if_pos h3]
        · rw [if_neg h3]
          by_cases h4 : a &&& 0xFFFF < 0xFE00
          · rw [if_pos h4]
          · rw [if_neg h4]
            by_cases h5 : a &&& 0xFFFF < 0xFEA0
            · rw [if_pos h5]
            · rw [if_neg h5]
              by_cases h6 : a &&& 0xFFFF < 0xFF00
              · rw [if_pos h6]
              · rw [if_neg h6]
                by_cases h7 : a &&& 0xFFFF < 0xFF80
                · rw [if_pos h7]
                  by_cases hjp : a &&& 0xFFFF = 0xFF00
                  · rw [if_pos hjp]
                    rfl
                  · rw [if_neg hjp]
                    by_cases hif : a &&& 0xFFFF = 0xFF0F
                    · rw [if_pos hif]
                      rfl
                    · rw [if_neg hif]
                · rw [if_neg h7]
                  by_cases h8 : a &&& 0xFFFF < 0xFFFF
                  · rw [if_pos h8]
                  · rw [if_neg h8]
                    rfl

/-- Word writes never touch the cycle counter. -/
theorem write_word_cycles (s : S) (a v : Nat) :
    (write_word s a v).cycles = s.cycles := by
  unfold write_word
  rw [write_byte_cycles, write_byte_cycles]

/-- Word writes never touch the flag byte. -/
theorem write_word_f (s : S) (a v : Nat) :
    (write_word s a v).f = s.f := by
  unfold write_word
  rw [write_byte_f, write_byte_f]

/-- Pushing a word never touches the cycle counter. -/
theorem push_word_cycles (s : S) (v : Nat) :
    (push_word s v).cycles = s.cycles := by
  unfold push_word
  rw [write_word_cycles]

/-- Pushing a word never touches the flag byte. -/
theorem push_word_f (s : S) (v : Nat) :
    (push_word s v).f = s.f := by
  unfold push_word
  rw [write_word_f]

/-- Writing a register by index never touches the cycle counter. -/
theorem set_reg8_cycles (s : S) (index value : Nat) :
    (set_reg8 s index value).cycles = s.cycles := by
  simp only [set_reg8]
  by_cases h0 : index = 0
  · rw [if_pos h0]
  · rw [if_neg h0]
    by_cases h1 : index = 1
    · rw [if_pos h1]
    · rw [if_neg h1]
      by_cases h2 : index = 2
      · rw [if_pos h2]
      · rw [if_neg h2]
        by_cases h3 : index = 3
        · rw [if_pos h3]
        · rw [if_neg h3]
          by_cases h4 : index = 4
          · rw [if_pos h4]
          · rw [if_neg h4]
            by_cases h5 : index = 5
            · rw [if_pos h5]
            · rw [if_neg h5]
              by_cases h6 : index = 6
              · rw [if_pos h6, write_byte_cycles]
              · rw [if_neg h6]
                by_cases h7 : index = 7
                · rw [if_pos h7]
                · rw [if_neg h7]

/-- Writing a register by index never touches the flag byte. -/
theorem set_reg8_f (s : S) (index value : Nat) :
    (set_reg8 s index value).f = s.f := by
  simp only [set_reg8]
  by_cases h0 : index = 0
  · rw [if_pos h0]
  · rw [if_neg h0]
    by_cases h1 : index = 1
    · rw [if_pos h1]
    · rw [if_neg h1]
      by_cases h2 : index = 2
      · rw [if_pos h2]
      · rw [if_neg h2]
        by_cases h3 : index = 3
        · rw [if_pos h3]
        · rw [if_neg h3]
          by_cases h4 : index = 4
          · rw [if_pos h4]
          · rw [if_neg h4]
            by_cases h5 : index = 5
            · rw [if_pos h5]
            · rw [if_neg h5]
              by_cases h6 : index = 6
              · rw [if_pos h6, write_byte_f]
              · rw [if_neg h6]
                by_cases h7 : index = 7
                · rw [if_pos h7]
                · rw [if_neg h7]

/-- Setting a flag bit at position 4 or above preserves the low nibble of
the flag byte. -/
theorem set_flag_fnib (s : S) (k : Nat) (b : Bool) (hk : 4 ≤ k) :
    (set_flag s k b).f &&& 0xF = s.f &&& 0xF := by
  apply Nat.eq_of_testBit_eq
  intro i
  rw [show (0xF : Nat) = 2 ^ 4 - 1 from rfl]
  simp only [Nat.testBit_and, Nat.testBit_two_pow_sub_one]
  by_cases hi : i < 4
  · have hk2 : k ≠ i := by omega
    cases b <;>
      simp [set_flag_f, ldiff_bits, Nat.testBit_or, Nat.one_shiftLeft,
        Nat.testBit_two_pow_of_ne hk2, hi]
  · simp [hi]

/-- The Z flag sits in the high nibble. -/
theorem set_flag_fnib_z (s : S) (b : Bool) :
    (set_flag s FLAG_Z b).f &&& 0xF = s.f &&& 0xF :=
  set_flag_fnib s FLAG_Z b (by decide)

/-- The N flag sits in the high nibble. -/
theorem set_flag_fnib_n (s : S) (b : Bool) :
    (set_flag s FLAG_N b).f &&& 0xF = s.f &&& 0xF :=
  set_flag_fnib s FLAG_N b (by decide)

/-- The H flag sits in the high nibble. -/
theorem set_flag_fnib_h (s : S) (b : Bool) :
    (set_flag s FLAG_H b).f &&& 0xF = s.f &&& 0xF :=
  set_flag_fnib s FLAG_H b (by decide)

/-- The C flag sits in the high nibble. -/
theorem set_flag_fnib_c (s : S) (b : Bool) :
    (set_flag s FLAG_C b).f &&& 0xF = s.f &&& 0xF :=
  set_flag_fnib s FLAG_C b (by decide)

/-- Writing AF forces the low flag nibble to zero. -/
theorem set_af_fnib (s : S) (v : Nat) : (set_af s v).f &&& 0xF = 0 := by
  show (v &&& 0xF0) &&& 0xF = 0
  rw [Nat.and_assoc, show (0xF0 &&& 0xF : Nat) = 0 from rfl, Nat.and_zero]

/-- The inc_8bit helper never touches the cycle counter. -/
theorem inc_8bit_cycles (s : S) (v : Nat) : (inc_8bit s v).1.cycles = s.cycles := by
  simp only [inc_8bit, set_flag_cycles]

/-- The inc_8bit helper preserves the low flag nibble. -/
theorem inc_8bit_f (s : S) (v : Nat) : (inc_8bit s v).1.f &&& 0xF = s.f &&& 0xF := by
  simp only [inc_8bit, set_flag_fnib_z, set_flag_fnib_n, set_flag_fnib_h]

/-- The dec_8bit helper never touches the cycle counter. -/
theorem dec_8bit_cycles (s : S) (v : Nat) : (dec_8bit s v).1.cycles = s.cycles := by
  simp only [dec_8bit, set_flag_cycles]

/-- The dec_8bit helper preserves the low flag nibble. -/
theorem dec_8bit_f (s : S) (v : Nat) : (dec_8bit s v).1.f &&& 0xF = s.f &&& 0xF := by
  simp only [dec_8bit, set_flag_fnib_z, set_flag_fnib_n, set_flag_fnib_h]

/-- The add_a helper never touches the cycle counter. -/
theorem add_a_cycles (s : S) (v : Nat) : (add_a s v).cycles = s.cycles := by
  simp only [add_a, set_flag_cycles]

/-- The add_a helper preserves the low flag nibble. -/
theorem add_a_f (s : S) (v : Nat) : (add_a s v).f &&& 0xF = s.f &&& 0xF := by
  simp only [add_a, set_flag_fnib_z, set_flag_fnib_n, set_flag_fnib_h, set_flag_fnib_c]

/-- The adc_a helper never touches the cycle counter. -/
theorem adc_a_cycles (s : S) (v : Nat) : (adc_a s v).cycles = s.cycles := by
  simp only [adc_a, set_flag_cycles]

/-- The adc_a helper preserves the low flag nibble. -/
theorem adc_a_f (s : S) (v : Nat) : (adc_a s v).f &&& 0xF = s.f &&& 0xF := by
  simp only [adc_a, set_flag_fnib_z, set_flag_fnib_n, set_flag_fnib_h, set_flag_fnib_c]

/-- The sub_a helper never touches the cycle counter. -/
theorem sub_a_cycles (s : S) (v : Nat) : (sub_a s v).cycles = s.cycles := by
  simp only [sub_a, set_flag_cycles]

/-- The sub_a helper preserves the low flag nibble. -/
theorem sub_a_f (s : S) (v : Nat) : (sub_a s v).f &&& 0xF = s.f &&& 0xF := by
  simp only [sub_a, set_flag_fnib_z, set_flag_fnib_n, set_flag_fnib_h, set_flag_fnib_c]

/-- The sbc_a helper never touches the cycle counter. -/
theorem sbc_a_cycles (s : S) (v : Nat) : (sbc_a s v).cycles = s.cycles := by
  simp only [sbc_a, set_flag_cycles]

/-- The sbc_a helper preserves the low flag nibble. -/
theorem sbc_a_f (s : S) (v : Nat) : (sbc_a s v).f &&& 0xF = s.f &&& 0xF := by
  simp only [sbc_a, set_flag_fnib_z, set_flag_fnib_n, set_flag_fnib_h, set_flag_fnib_c]

/-- The and_a helper never touches the cycle counter. -/
theorem and_a_cycles (s : S) (v : Nat) : (and_a s v).cycles = s.cycles := by
  simp only [and_a, set_flag_cycles]

/-- The and_a helper preserves the low flag nibble. -/
theorem and_a_f (s : S) (v : Nat) : (and_a s v).f &&& 0xF = s.f &&& 0xF := by
  simp only [and_a, set_flag_fnib_z, set_flag_fnib_n, set_flag_fnib_h, set_flag_fnib_c]

/-- The xor_a helper never touches the cycle counter. -/
theorem xor_a_cycles (s : S) (v : Nat) : (xor_a s v).cycles = s.cycles := by
  simp only [xor_a, set_flag_cycles]

/-- The xor_a helper preserves the low flag nibble. -/
theorem xor_a_f (s : S) (v : Nat) : (xor_a s v).f &&& 0xF = s.f &&& 0xF := by
  simp only [xor_a, set_flag_fnib_z, set_flag_fnib_n, set_flag_fnib_h, set_flag_fnib_c]

/-- The or_a helper never touches the cycle counter. -/
theorem or_a_cycles (s : S) (v : Nat) : (or_a s v).cycles = s.cycles := by
  simp only [or_a, set_flag_cycles]

/-- The or_a helper preserves the low flag nibble. -/
theorem or_a_f (s : S) (v : Nat) : (or_a s v).f &&& 0xF = s.f &&& 0xF := by
  simp only [or_a, set_flag_fnib_z, set_flag_fnib_n, set_flag_fnib_h, set_flag_fnib_c]

/-- The cp_a helper never touches the cycle counter. -/
theorem cp_a_cycles (s : S) (v : Nat) : (cp_a s v).cycles = s.cycles := by
  simp only [cp_a, set_flag_cycles]

/-- The cp_a helper preserves the low flag nibble. -/
theorem cp_a_f (s : S) (v : Nat) : (cp_a s v).f &&& 0xF = s.f &&& 0xF := by
  simp only [cp_a, set_flag_fnib_z, set_flag_fnib_n, set_flag_fnib_h, set_flag_fnib_c]

/-- The ADD-HL helper never touches the cycle counter. -/
theorem add_hl_cycles (s : S) (v : Nat) : (add_hl s v).cycles = s.cycles := by
  simp only [add_hl, set_hl_cycles, set_flag_cycles]

/-- The ADD-HL helper preserves the low flag nibble. -/
theorem add_hl_f (s : S) (v : Nat) : (add_hl s v).f &&& 0xF = s.f &&& 0xF := by
  simp only [add_hl, set_hl_f, set_flag_fnib_n, set_flag_fnib_h, set_flag_fnib_c]

/-- LD r,r charges 4 or 8 cycles, so at least 4. -/
theorem ld_r_r_cycles (s : S) (opcode : Nat) :
    s.cycles + 4 ≤ (ld_r_r s opcode).cycles := by
  simp only [ld_r_r]
  by_cases hc : opcode &&& 0x07 = 6 ∨ (opcode >>> 3) &&& 0x07 = 6
  · rw [if_pos hc]
    simp only [set_reg8_cycles]
    omega
  · rw [if_neg hc]
    simp only [set_reg8_cycles]
    omega

/-- LD r,r never touches the flag byte. -/
theorem ld_r_r_f (s : S) (opcode : Nat) : (ld_r_r s opcode).f = s.f := by
  simp only [ld_r_r]
  by_cases hc : opcode &&& 0x07 = 6 ∨ (opcode >>> 3) &&& 0x07 = 6
  · rw [if_pos hc]
    simp only [set_reg8_f]
  · rw [if_neg hc]
    simp only [set_reg8_f]

/-- Every CB-prefixed opcode charges at least 8 cycles. -/
theorem execute_cb_opcode_cycles (s : S) (opcode : Nat) :
    s.cycles + 8 ≤ (execute_cb_opcode s opcode).cycles := by
  simp only [execute_cb_opcode]
  by_cases h0 : opcode ≤ 0x07
  · rw [if_pos h0]
    by_cases h6 : opcode &&& 0x07 ≠ 6
    · rw [if_pos h6]
      try simp only [set_reg8_cycles, set_flag_cycles]
      try omega
    · rw [if_neg h6]
      try simp only [set_reg8_cycles, set_flag_cycles]
      try omega
  · rw [if_neg h0]
    by_cases h1 : 0x08 ≤ opcode ∧ opcode ≤ 0x0F
    · rw [if_pos h1]
      by_cases h6 : opcode &&& 0x07 ≠ 6
      · rw [if_pos h6]
        try simp only [set_reg8_cycles, set_flag_cycles]
        try omega
      · rw [if_neg h6]
        try simp only [set_reg8_cycles, set_flag_cycles]
        try omega
    · rw [if_neg h1]
      by_cases h2 : 0x10 ≤ opcode ∧ opcode ≤ 0x17
      · rw [if_pos h2]
        by_cases h6 : opcode &&& 0x07 ≠ 6
        · rw [if_pos h6]
          try simp only [set_reg8_cycles, set_flag_cycles]
          try omega
        · rw [if_neg h6]
          try simp only [set_reg8_cycles, set_flag_cycles]
          try omega
      · rw [if_neg h2]
        by_cases h3 : 0x18 ≤ opcode ∧ opcode ≤ 0x1F
        · rw [if_pos h3]
          by_cases h6 : opcode &&& 0x07 ≠ 6
          · rw [if_pos h6]
            try simp only [set_reg8_cycles, set_flag_cycles]
            try omega
          · rw [if_neg h6]
            try simp only [set_reg8_cycles, set_flag_cycles]
            try omega
        · rw [if_neg h3]
          by_cases h4 : 0x20 ≤ opcode ∧ opcode ≤ 0x27
          · rw [if_pos h4]
            by_cases h6 : opcode &&& 0x07 ≠ 6
            · rw [if_pos h6]
              try simp only [set_reg8_cycles, set_flag_cycles]
              try omega
            · rw [if_neg h6]
              try simp only [set_reg8_cycles, set_flag_cycles]
              try omega
          · rw [if_neg h4]
            by_cases h5 : 0x28 ≤ opcode ∧ opcode ≤ 0x2F
            · rw [if_pos h5]
              by_cases h6 : opcode &&& 0x07 ≠ 6
              · rw [if_pos h6]
                try simp only [set_reg8_cycles, set_flag_cycles]
                try omega
              · rw [if_neg h6]
                try simp only [set_reg8_cycles, set_flag_cycles]
                try omega
            · rw [if_neg h5]
              by_cases h6 : 0x30 ≤ opcode ∧ opcode ≤ 0x37
              · rw [if_pos h6]
                by_cases h6 : opcode &&& 0x07 ≠ 6
                · rw [if_pos h6]
                  try simp only [set_reg8_cycles, set_flag_cycles]
                  try omega
                · rw [if_neg h6]
                  try simp only [set_reg8_cycles, set_flag_cycles]
                  try omega
              · rw [if_neg h6]
                by_cases h7 : 0x38 ≤ opcode ∧ opcode ≤ 0x3F
                · rw [if_pos h7]
                  by_cases h6 : opcode &&& 0x07 ≠ 6
                  · rw [if_pos h6]
                    try simp only [set_reg8_cycles, set_flag_cycles]
                    try omega
                  · rw [if_neg h6]
                    try simp only [set_reg8_cycles, set_flag_cycles]
                    try omega
                · rw [if_neg h7]
                  by_cases h8 : 0x40 ≤ opcode ∧ opcode ≤ 0x7F
                  · rw [if_pos h8]
                    by_cases h6 : opcode &&& 0x07 ≠ 6
                    · rw [if_pos h6]
                      try simp only [set_reg8_cycles, set_flag_cycles]
                      try omega
                    · rw [if_neg h6]
                      try simp only [set_reg8_cycles, set_flag_cycles]
                      try omega
                  · rw [if_neg h8]
                    by_cases h9 : 0x80 ≤ opcode ∧ opcode ≤ 0xBF
                    · rw [if_pos h9]
                      by_cases h6 : opcode &&& 0x07 ≠ 6
                      · rw [if_pos h6]
                        try simp only [set_reg8_cycles, set_flag_cycles]
                        try omega
                      · rw [if_neg h6]
                        try simp only [set_reg8_cycles, set_flag_cycles]
                        try omega
                    · rw [if_neg h9]
                      by_cases h10 : 0xC0 ≤ opcode ∧ opcode ≤ 0xFF
                      · rw [if_pos h10]
                        by_cases h6 : opcode &&& 0x07 ≠ 6
                        · rw [if_pos h6]
                          try simp only [set_reg8_cycles, set_flag_cycles]
                          try omega
                        · rw [if_neg h6]
                          try simp only [set_reg8_cycles, set_flag_cycles]
                          try omega
                      · rw [if_neg h10]
                        try simp only []
                        try omega

/-- CB-prefixed opcodes preserve the low flag nibble exactly. -/
theorem execute_cb_f (s : S) (opcode : Nat) :
    (execute_cb_opcode s opcode).f &&& 0xF = s.f &&& 0xF := by
  simp only [execute_cb_opcode]
  by_cases h0 : opcode ≤ 0x07
  · rw [if_pos h0]
    try simp only [set_reg8_f, set_flag_fnib_z, set_flag_fnib_n, set_flag_fnib_h, set_flag_fnib_c]
    try rfl
  · rw [if_neg h0]
    by_cases h1 : 0x08 ≤ opcode ∧ opcode ≤ 0x0F
    · rw [if_pos h1]
      try simp only [set_reg8_f, set_flag_fnib_z, set_flag_fnib_n, set_flag_fnib_h, set_flag_fnib_c]
      try rfl
    · rw [if_neg h1]
      by_cases h2 : 0x10 ≤ opcode ∧ opcode ≤ 0x17
      · rw [if_pos h2]
        try simp only [set_reg8_f, set_flag_fnib_z, set_flag_fnib_n, set_flag_fnib_h, set_flag_fnib_c]
        try rfl
      · rw [if_neg h2]
        by_cases h3 : 0x18 ≤ opcode ∧ opcode ≤ 0x1F
        · rw [if_pos h3]
          try simp only [set_reg8_f, set_flag_fnib_z, set_flag_fnib_n, set_flag_fnib_h, set_flag_fnib_c]
          try rfl
        · rw [if_neg h3]
          by_cases h4 : 0x20 ≤ opcode ∧ opcode ≤ 0x27
          · rw [if_pos h4]
            try simp only [set_reg8_f, set_flag_fnib_z, set_flag_fnib_n, set_flag_fnib_h, set_flag_fnib_c]
            try rfl
          · rw [if_neg h4]
            by_cases h5 : 0x28 ≤ opcode ∧ opcode ≤ 0x2F
            · rw [if_pos h5]
              try simp only [set_reg8_f, set_flag_fnib_z, set_flag_fnib_n, set_flag_fnib_h, set_flag_fnib_c]
              try rfl
            · rw [if_neg h5]
              by_cases h6 : 0x30 ≤ opcode ∧ opcode ≤ 0x37
              · rw [if_pos h6]
                try simp only [set_reg8_f, set_flag_fnib_z, set_flag_fnib_n, set_flag_fnib_h, set_flag_fnib_c]
                try rfl
              · rw [if_neg h6]
                by_cases h7 : 0x38 ≤ opcode ∧ opcode ≤ 0x3F
                · rw [if_pos h7]
                  try simp only [set_reg8_f, set_flag_fnib_z, set_flag_fnib_n, set_flag_fnib_h, set_flag_fnib_c]
                  try rfl
                · rw [if_neg h7]
                  by_cases h8 : 0x40 ≤ opcode ∧ opcode ≤ 0x7F
                  · rw [if_pos h8]
                    try simp only [set_reg8_f, set_flag_fnib_z, set_flag_fnib_n, set_flag_fnib_h, set_flag_fnib_c]
                    try rfl
                  · rw [if_neg h8]
                    by_cases h9 : 0x80 ≤ opcode ∧ opcode ≤ 0xBF
                    · rw [if_pos h9]
                      try simp only [set_reg8_f, set_flag_fnib_z, set_flag_fnib_n, set_flag_fnib_h, set_flag_fnib_c]
                      try rfl
                    · rw [if_neg h9]
                      by_cases h10 : 0xC0 ≤ opcode ∧ opcode ≤ 0xFF
                      · rw [if_pos h10]
                        try simp only [set_reg8_f, set_flag_fnib_z, set_flag_fnib_n, set_flag_fnib_h, set_flag_fnib_c]
                        try rfl
                      · rw [if_neg h10]
                        try simp only []
                        try rfl

/-- Every opcode in the upper dispatch half charges at least 4 cycles. -/
theorem execute_opcode_hi_cycles (s : S) (opcode : Nat) :
    s.cycles + 4 ≤ (execute_opcode_hi s opcode).cycles := by
  unfold execute_opcode_hi
  by_cases h0 : 0x80 ≤ opcode ∧ opcode ≤ 0x87
  · rw [if_pos h0]
    by_cases h6 : opcode &&& 0x07 ≠ 6
    · rw [if_pos h6]
      try simp only [set_flag_cycles, set_bc_cycles, set_de_cycles, set_hl_cycles, set_af_cycles,
        write_byte_cycles, write_word_cycles, push_word_cycles, pop_word_cycles,
        fetch_byte_cycles, fetch_word_cycles, inc_8bit_cycles, dec_8bit_cycles,
        add_a_cycles, adc_a_cycles, sub_a_cycles, sbc_a_cycles, and_a_cycles,
        xor_a_cycles, or_a_cycles, cp_a_cycles, add_hl_cycles, set_reg8_cycles]
      try omega
    · rw [if_neg h6]
      try simp only [set_flag_cycles, set_bc_cycles, set_de_cycles, set_hl_cycles, set_af_cycles,
        write_byte_cycles, write_word_cycles, push_word_cycles, pop_word_cycles,
        fetch_byte_cycles, fetch_word_cycles, inc_8bit_cycles, dec_8bit_cycles,
        add_a_cycles, adc_a_cycles, sub_a_cycles, sbc_a_cycles, and_a_cycles,
        xor_a_cycles, or_a_cycles, cp_a_cycles, add_hl_cycles, set_reg8_cycles]
      try omega
  · rw [if_neg h0]
    by_cases h1 : 0x88 ≤ opcode ∧ opcode ≤ 0x8F
    · rw [if_pos h1]
      by_cases h6 : opcode &&& 0x07 ≠ 6
      · rw [if_pos h6]
        try simp only [set_flag_cycles, set_bc_cycles, set_de_cycles, set_hl_cycles, set_af_cycles,
        write_byte_cycles, write_word_cycles, push_word_cycles, pop_word_cycles,
        fetch_byte_cycles, fetch_word_cycles, inc_8bit_cycles, dec_8bit_cycles,
        add_a_cycles, adc_a_cycles, sub_a_cycles, sbc_a_cycles, and_a_cycles,
        xor_a_cycles, or_a_cycles, cp_a_cycles, add_hl_cycles, set_reg8_cycles]
        try omega
      · rw [if_neg h6]
        try simp only [set_flag_cycles, set_bc_cycles, set_de_cycles, set_hl_cycles, set_af_cycles,
        write_byte_cycles, write_word_cycles, push_word_cycles, pop_word_cycles,
        fetch_byte_cycles, fetch_word_cycles, inc_8bit_cycles, dec_8bit_cycles,
        add_a_cycles, adc_a_cycles, sub_a_cycles, sbc_a_cycles, and_a_cycles,
        xor_a_cycles, or_a_cycles, cp_a_cycles, add_hl_cycles, set_reg8_cycles]
        try omega
    · rw [if_neg h1]
      by_cases h2 : 0x90 ≤ opcode ∧ opcode ≤ 0x97
      · rw [if_pos h2]
        by_cases h6 : opcode &&& 0x07 ≠ 6
        · rw [if_pos h6]
          try simp only [set_flag_cycles, set_bc_cycles, set_de_cycles, set_hl_cycles, set_af_cycles,
        write_byte_cycles, write_word_cycles, push_word_cycles, pop_word_cycles,
        fetch_byte_cycles, fetch_word_cycles, inc_8bit_cycles, dec_8bit_cycles,
        add_a_cycles, adc_a_cycles, sub_a_cycles, sbc_a_cycles, and_a_cycles,
        xor_a_cycles, or_a_cycles, cp_a_cycles, add_hl_cycles, set_reg8_cycles]
          try omega
        · rw [if_neg h6]
          try simp only [set_flag_cycles, set_bc_cycles, set_de_cycles, set_hl_cycles, set_af_cycles,
        write_byte_cycles, write_word_cycles, push_word_cycles, pop_word_cycles,
        fetch_byte_cycles, fetch_word_cycles, inc_8bit_cycles, dec_8bit_cycles,
        add_a_cycles, adc_a_cycles, sub_a_cycles, sbc_a_cycles, and_a_cycles,
        xor_a_cycles, or_a_cycles, cp_a_cycles, add_hl_cycles, set_reg8_cycles]
          try omega
      · rw [if_neg h2]
        by_cases h3 : 0x98 ≤ opcode ∧ opcode ≤ 0x9F
        · rw [if_pos h3]
          by_cases h6 : opcode &&& 0x07 ≠ 6
          · rw [if_pos h6]
            try simp only [set_flag_cycles, set_bc_cycles, set_de_cycles, set_hl_cycles, set_af_cycles,
        write_byte_cycles, write_word_cycles, push_word_cycles, pop_word_cycles,
        fetch_byte_cycles, fetch_word_cycles, inc_8bit_cycles, dec_8bit_cycles,
        add_a_cycles, adc_a_cycles, sub_a_cycles, sbc_a_cycles, and_a_cycles,
        xor_a_cycles, or_a_cycles, cp_a_cycles, add_hl_cycles, set_reg8_cycles]
            try omega
          · rw [if_neg h6]
            try simp only [set_flag_cycles, set_bc_cycles, set_de_cycles, set_hl_cycles, set_af_cycles,
        write_byte_cycles, write_word_cycles, push_word_cycles, pop_word_cycles,
        fetch_byte_cycles, fetch_word_cycles, inc_8bit_cycles, dec_8bit_cycles,
        add_a_cycles, adc_a_cycles, sub_a_cycles, sbc_a_cycles, and_a_cycles,
        xor_a_cycles, or_a_cycles, cp_a_cycles, add_hl_cycles, set_reg8_cycles]
            try omega
        · rw [if_neg h3]
          by_cases h4 : 0xA0 ≤ opcode ∧ opcode ≤ 0xA7
          · rw [if_pos h4]
            by_cases h6 : opcode &&& 0x07 ≠ 6
            · rw [if_pos h6]
              try simp only [set_flag_cycles, set_bc_cycles, set_de_cycles, set_hl_cycles, set_af_cycles,
        write_byte_cycles, write_word_cycles, push_word_cycles, pop_word_cycles,
        fetch_byte_cycles, fetch_word_cycles, inc_8bit_cycles, dec_8bit_cycles,
        add_a_cycles, adc_a_cycles, sub_a_cycles, sbc_a_cycles, and_a_cycles,
        xor_a_cycles, or_a_cycles, cp_a_cycles, add_hl_cycles, set_reg8_cycles]
              try omega
            · rw [if_neg h6]
              try simp only [set_flag_cycles, set_bc_cycles, set_de_cycles, set_hl_cycles, set_af_cycles,
        write_byte_cycles, write_word_cycles, push_word_cycles, pop_word_cycles,
        fetch_byte_cycles, fetch_word_cycles, inc_8bit_cycles, dec_8bit_cycles,
        add_a_cycles, adc_a_cycles, sub_a_cycles, sbc_a_cycles, and_a_cycles,
        xor_a_cycles, or_a_cycles, cp_a_cycles, add_hl_cycles, set_reg8_cycles]
              try omega
          · rw [if_neg h4]
            by_cases h5 : 0xA8 ≤ opcode ∧ opcode ≤ 0xAF
            · rw [if_pos h5]
              by_cases h6 : opcode &&& 0x07 ≠ 6
              · rw [if_pos h6]
                try simp only [set_flag_cycles, set_bc_cycles, set_de_cycles, set_hl_cycles, set_af_cycles,
        write_byte_cycles, write_word_cycles, push_word_cycles, pop_word_cycles,
        fetch_byte_cycles, fetch_word_cycles, inc_8bit_cycles, dec_8bit_cycles,
        add_a_cycles, adc_a_cycles, sub_a_cycles, sbc_a_cycles, and_a_cycles,
        xor_a_cycles, or_a_cycles, cp_a_cycles, add_hl_cycles, set_reg8_cycles]
                try omega
              · rw [if_neg h6]
                try simp only [set_flag_cycles, set_bc_cycles, set_de_cycles, set_hl_cycles, set_af_cycles,
        write_byte_cycles, write_word_cycles, push_word_cycles, pop_word_cycles,
        fetch_byte_cycles, fetch_word_cycles, inc_8bit_cycles, dec_8bit_cycles,
        add_a_cycles, adc_a_cycles, sub_a_cycles, sbc_a_cycles, and_a_cycles,
        xor_a_cycles, or_a_cycles, cp_a_cycles, add_hl_cycles, set_reg8_cycles]
                try omega
            · rw [if_neg h5]
              by_cases h6 : 0xB0 ≤ opcode ∧ opcode ≤ 0xB7
              · rw [if_pos h6]
                by_cases h6 : opcode &&& 0x07 ≠ 6
                · rw [if_pos h6]
                  try simp only [set_flag_cycles, set_bc_cycles, set_de_cycles, set_hl_cycles, set_af_cycles,
        write_byte_cycles, write_word_cycles, push_word_cycles, pop_word_cycles,
        fetch_byte_cycles, fetch_word_cycles, inc_8bit_cycles, dec_8bit_cycles,
        add_a_cycles, adc_a_cycles, sub_a_cycles, sbc_a_cycles, and_a_cycles,
        xor_a_cycles, or_a_cycles, cp_a_cycles, add_hl_cycles, set_reg8_cycles]
                  try omega
                · rw [if_neg h6]
                  try simp only [set_flag_cycles, set_bc_cycles, set_de_cycles, set_hl_cycles, set_af_cycles,
        write_byte_cycles, write_word_cycles, push_word_cycles, pop_word_cycles,
        fetch_byte_cycles, fetch_word_cycles, inc_8bit_cycles, dec_8bit_cycles,
        add_a_cycles, adc_a_cycles, sub_a_cycles, sbc_a_cycles, and_a_cycles,
        xor_a_cycles, or_a_cycles, cp_a_cycles, add_hl_cycles, set_reg8_cycles]
                  try omega
              · rw [if_neg h6]
                by_cases h7 : 0xB8 ≤ opcode ∧ opcode ≤ 0xBF
                · rw [if_pos h7]
                  by_cases h6 : opcode &&& 0x07 ≠ 6
                  · rw [if_pos h6]
                    try simp only [set_flag_cycles, set_bc_cycles, set_de_cycles, set_hl_cycles, set_af_cycles,
        write_byte_cycles, write_word_cycles, push_word_cycles, pop_word_cycles,
        fetch_byte_cycles, fetch_word_cycles, inc_8bit_cycles, dec_8bit_cycles,
        add_a_cycles, adc_a_cycles, sub_a_cycles, sbc_a_cycles, and_a_cycles,
        xor_a_cycles, or_a_cycles, cp_a_cycles, add_hl_cycles, set_reg8_cycles]
                    try omega
                  · rw [if_neg h6]
                    try simp only [set_flag_cycles, set_bc_cycles, set_de_cycles, set_hl_cycles, set_af_cycles,
        write_byte_cycles, write_word_cycles, push_word_cycles, pop_word_cycles,
        fetch_byte_cycles, fetch_word_cycles, inc_8bit_cycles, dec_8bit_cycles,
        add_a_cycles, adc_a_cycles, sub_a_cycles, sbc_a_cycles, and_a_cycles,
        xor_a_cycles, or_a_cycles, cp_a_cycles, add_hl_cycles, set_reg8_cycles]
                    try omega
                · rw [if_neg h7]
                  by_cases h8 : opcode = 0xC0
                  · rw [if_pos h8]
                    try simp only [set_flag_cycles, set_bc_cycles, set_de_cycles, set_hl_cycles, set_af_cycles,
        write_byte_cycles, write_word_cycles, push_word_cycles, pop_word_cycles,
        fetch_byte_cycles, fetch_word_cycles, inc_8bit_cycles, dec_8bit_cycles,
        add_a_cycles, adc_a_cycles, sub_a_cycles, sbc_a_cycles, and_a_cycles,
        xor_a_cycles, or_a_cycles, cp_a_cycles, add_hl_cycles, set_reg8_cycles]
                    by_cases hcnd : get_flag s FLAG_Z = 0
                    · rw [if_pos hcnd]
                      try simp only [set_flag_cycles, set_bc_cycles, set_de_cycles, set_hl_cycles, set_af_cycles,
        write_byte_cycles, write_word_cycles, push_word_cycles, pop_word_cycles,
        fetch_byte_cycles, fetch_word_cycles, inc_8bit_cycles, dec_8bit_cycles,
        add_a_cycles, adc_a_cycles, sub_a_cycles, sbc_a_cycles, and_a_cycles,
        xor_a_cycles, or_a_cycles, cp_a_cycles, add_hl_cycles, set_reg8_cycles]
                      try omega
                    · rw [if_neg hcnd]
                      try simp only [set_flag_cycles, set_bc_cycles, set_de_cycles, set_hl_cycles, set_af_cycles,
        write_byte_cycles, write_word_cycles, push_word_cycles, pop_word_cycles,
        fetch_byte_cycles, fetch_word_cycles, inc_8bit_cycles, dec_8bit_cycles,
        add_a_cycles, adc_a_cycles, sub_a_cycles, sbc_a_cycles, and_a_cycles,
        xor_a_cycles, or_a_cycles, cp_a_cycles, add_hl_cycles, set_reg8_cycles]
                      try omega
                  · rw [if_neg h8]
                    by_cases h9 : opcode = 0xC1
                    · rw [if_pos h9]
                      try simp only [set_flag_cycles, set_bc_cycles, set_de_cycles, set_hl_cycles, set_af_cycles,
        write_byte_cycles, write_word_cycles, push_word_cycles, pop_word_cycles,
        fetch_byte_cycles, fetch_word_cycles, inc_8bit_cycles, dec_8bit_cycles,
        add_a_cycles, adc_a_cycles, sub_a_cycles, sbc_a_cycles, and_a_cycles,
        xor_a_cycles, or_a_cycles, cp_a_cycles, add_hl_cycles, set_reg8_cycles]
                      try omega
                    · rw [if_neg h9]
                      by_cases h10 : opcode = 0xC2
                      · rw [if_pos h10]
                        try simp only [set_flag_cycles, set_bc_cycles, set_de_cycles, set_hl_cycles, set_af_cycles,
        write_byte_cycles, write_word_cycles, push_word_cycles, pop_word_cycles,
        fetch_byte_cycles, fetch_word_cycles, inc_8bit_cycles, dec_8bit_cycles,
        add_a_cycles, adc_a_cycles, sub_a_cycles, sbc_a_cycles, and_a_cycles,
        xor_a_cycles, or_a_cycles, cp_a_cycles, add_hl_cycles, set_reg8_cycles]
                        by_cases hcnd : get_flag (fetch_word s).1 FLAG_Z = 0
                        · rw [if_pos hcnd]
                          try simp only [set_flag_cycles, set_bc_cycles, set_de_cycles, set_hl_cycles, set_af_cycles,
        write_byte_cycles, write_word_cycles, push_word_cycles, pop_word_cycles,
        fetch_byte_cycles, fetch_word_cycles, inc_8bit_cycles, dec_8bit_cycles,
        add_a_cycles, adc_a_cycles, sub_a_cycles, sbc_a_cycles, and_a_cycles,
        xor_a_cycles, or_a_cycles, cp_a_cycles, add_hl_cycles, set_reg8_cycles]
                          try omega
                        · rw [if_neg hcnd]
                          try simp only [set_flag_cycles, set_bc_cycles, set_de_cycles, set_hl_cycles, set_af_cycles,
        write_byte_cycles, write_word_cycles, push_word_cycles, pop_word_cycles,
        fetch_byte_cycles, fetch_word_cycles, inc_8bit_cycles, dec_8bit_cycles,
        add_a_cycles, adc_a_cycles, sub_a_cycles, sbc_a_cycles, and_a_cycles,
        xor_a_cycles, or_a_cycles, cp_a_cycles, add_hl_cycles, set_reg8_cycles]
                          try omega
                      · rw [if_neg h10]
                        by_cases h11 : opcode = 0xC3
                        · rw [if_pos h11]
                          try simp only [set_flag_cycles, set_bc_cycles, set_de_cycles, set_hl_cycles, set_af_cycles,
        write_byte_cycles, write_word_cycles, push_word_cycles, pop_word_cycles,
        fetch_byte_cycles, fetch_word_cycles, inc_8bit_cycles, dec_8bit_cycles,
        add_a_cycles, adc_a_cycles, sub_a_cycles, sbc_a_cycles, and_a_cycles,
        xor_a_cycles, or_a_cycles, cp_a_cycles, add_hl_cycles, set_reg8_cycles]
                          try omega
                        · rw [if_neg h11]
                          by_cases h12 : opcode = 0xC4
                          · rw [if_pos h12]
                            try simp only [set_flag_cycles, set_bc_cycles, set_de_cycles, set_hl_cycles, set_af_cycles,
        write_byte_cycles, write_word_cycles, push_word_cycles, pop_word_cycles,
        fetch_byte_cycles, fetch_word_cycles, inc_8bit_cycles, dec_8bit_cycles,
        add_a_cycles, adc_a_cycles, sub_a_cycles, sbc_a_cycles, and_a_cycles,
        xor_a_cycles, or_a_cycles, cp_a_cycles, add_hl_cycles, set_reg8_cycles]
                            by_cases hcnd : get_flag (fetch_word s).1 FLAG_Z = 0
                            · rw [if_pos hcnd]
                              try simp only [set_flag_cycles, set_bc_cycles, set_de_cycles, set_hl_cycles, set_af_cycles,
        write_byte_cycles, write_word_cycles, push_word_cycles, pop_word_cycles,
        fetch_byte_cycles, fetch_word_cycles, inc_8bit_cycles, dec_8bit_cycles,
        add_a_cycles, adc_a_cycles, sub_a_cycles, sbc_a_cycles, and_a_cycles,
        xor_a_cycles, or_a_cycles, cp_a_cycles, add_hl_cycles, set_reg8_cycles]
                              try omega
                            · rw [if_neg hcnd]
                              try simp only [set_flag_cycles, set_bc_cycles, set_de_cycles, set_hl_cycles, set_af_cycles,
        write_byte_cycles, write_word_cycles, push_word_cycles, pop_word_cycles,
        fetch_byte_cycles, fetch_word_cycles, inc_8bit_cycles, dec_8bit_cycles,
        add_a_cycles, adc_a_cycles, sub_a_cycles, sbc_a_cycles, and_a_cycles,
        xor_a_cycles, or_a_cycles, cp_a_cycles, add_hl_cycles, set_reg8_cycles]
                              try omega
                          · rw [if_neg h12]
                            by_cases h13 : opcode = 0xC5
                            · rw [if_pos h13]
                              try simp only [set_flag_cycles, set_bc_cycles, set_de_cycles, set_hl_cycles, set_af_cycles,
        write_byte_cycles, write_word_cycles, push_word_cycles, pop_word_cycles,
        fetch_byte_cycles, fetch_word_cycles, inc_8bit_cycles, dec_8bit_cycles,
        add_a_cycles, adc_a_cycles, sub_a_cycles, sbc_a_cycles, and_a_cycles,
        xor_a_cycles, or_a_cycles, cp_a_cycles, add_hl_cycles, set_reg8_cycles]
                              try omega
                            · rw [if_neg h13]
                              by_cases h14 : opcode = 0xC6
                              · rw [if_pos h14]
                                try simp only [set_flag_cycles, set_bc_cycles, set_de_cycles, set_hl_cycles, set_af_cycles,
        write_byte_cycles, write_word_cycles, push_word_cycles, pop_word_cycles,
        fetch_byte_cycles, fetch_word_cycles, inc_8bit_cycles, dec_8bit_cycles,
        add_a_cycles, adc_a_cycles, sub_a_cycles, sbc_a_cycles, and_a_cycles,
        xor_a_cycles, or_a_cycles, cp_a_cycles, add_hl_cycles, set_reg8_cycles]
                                try omega
                              · rw [if_neg h14]
                                by_cases h15 : opcode = 0xC8
                                · rw [if_pos h15]
                                  try simp only [set_flag_cycles, set_bc_cycles, set_de_cycles, set_hl_cycles, set_af_cycles,
        write_byte_cycles, write_word_cycles, push_word_cycles, pop_word_cycles,
        fetch_byte_cycles, fetch_word_cycles, inc_8bit_cycles, dec_8bit_cycles,
        add_a_cycles, adc_a_cycles, sub_a_cycles, sbc_a_cycles, and_a_cycles,
        xor_a_cycles, or_a_cycles, cp_a_cycles, add_hl_cycles, set_reg8_cycles]
                                  by_cases hcnd : get_flag s FLAG_Z ≠ 0
                                  · rw [if_pos hcnd]
                                    try simp only [set_flag_cycles, set_bc_cycles, set_de_cycles, set_hl_cycles, set_af_cycles,
        write_byte_cycles, write_word_cycles, push_word_cycles, pop_word_cycles,
        fetch_byte_cycles, fetch_word_cycles, inc_8bit_cycles, dec_8bit_cycles,
        add_a_cycles, adc_a_cycles, sub_a_cycles, sbc_a_cycles, and_a_cycles,
        xor_a_cycles, or_a_cycles, cp_a_cycles, add_hl_cycles, set_reg8_cycles]
                                    try omega
                                  · rw [if_neg hcnd]
                                    try simp only [set_flag_cycles, set_bc_cycles, set_de_cycles, set_hl_cycles, set_af_cycles,
        write_byte_cycles, write_word_cycles, push_word_cycles, pop_word_cycles,
        fetch_byte_cycles, fetch_word_cycles, inc_8bit_cycles, dec_8bit_cycles,
        add_a_cycles, adc_a_cycles, sub_a_cycles, sbc_a_cycles, and_a_cycles,
        xor_a_cycles, or_a_cycles, cp_a_cycles, add_hl_cycles, set_reg8_cycles]
                                    try omega
                                · rw [if_neg h15]
                                  by_cases h16 : opcode = 0xC9
                                  · rw [if_pos h16]
                                    try simp only [set_flag_cycles, set_bc_cycles, set_de_cycles, set_hl_cycles, set_af_cycles,
        write_byte_cycles, write_word_cycles, push_word_cycles, pop_word_cycles,
        fetch_byte_cycles, fetch_word_cycles, inc_8bit_cycles, dec_8bit_cycles,
        add_a_cycles, adc_a_cycles, sub_a_cycles, sbc_a_cycles, and_a_cycles,
        xor_a_cycles, or_a_cycles, cp_a_cycles, add_hl_cycles, set_reg8_cycles]
                                    try omega
                                  · rw [if_neg h16]
                                    by_cases h17 : opcode = 0xCA
                                    · rw [if_pos h17]
                                      try simp only [set_flag_cycles, set_bc_cycles, set_de_cycles, set_hl_cycles, set_af_cycles,
        write_byte_cycles, write_word_cycles, push_word_cycles, pop_word_cycles,
        fetch_byte_cycles, fetch_word_cycles, inc_8bit_cycles, dec_8bit_cycles,
        add_a_cycles, adc_a_cycles, sub_a_cycles, sbc_a_cycles, and_a_cycles,
        xor_a_cycles, or_a_cycles, cp_a_cycles, add_hl_cycles, set_reg8_cycles]
                                      by_cases hcnd : get_flag (fetch_word s).1 FLAG_Z ≠ 0
                                      · rw [if_pos hcnd]
                                        try simp only [set_flag_cycles, set_bc_cycles, set_de_cycles, set_hl_cycles, set_af_cycles,
        write_byte_cycles, write_word_cycles, push_word_cycles, pop_word_cycles,
        fetch_byte_cycles, fetch_word_cycles, inc_8bit_cycles, dec_8bit_cycles,
        add_a_cycles, adc_a_cycles, sub_a_cycles, sbc_a_cycles, and_a_cycles,
        xor_a_cycles, or_a_cycles, cp_a_cycles, add_hl_cycles, set_reg8_cycles]
                                        try omega
                                      · rw [if_neg hcnd]
                                        try simp only [set_flag_cycles, set_bc_cycles, set_de_cycles, set_hl_cycles, set_af_cycles,
        write_byte_cycles, write_word_cycles, push_word_cycles, pop_word_cycles,
        fetch_byte_cycles, fetch_word_cycles, inc_8bit_cycles, dec_8bit_cycles,
        add_a_cycles, adc_a_cycles, sub_a_cycles, sbc_a_cycles, and_a_cycles,
        xor_a_cycles, or_a_cycles, cp_a_cycles, add_hl_cycles, set_reg8_cycles]
                                        try omega
                                    · rw [if_neg h17]
                                      by_cases h18 : opcode = 0xCB
                                      · rw [if_pos h18]
                                        have hcb := execute_cb_opcode_cycles (fetch_byte s).1 (fetch_byte s).2
                                        rw [fetch_byte_cycles] at hcb
                                        try simp only []
                                        try omega
                                      · rw [if_neg h18]
                                        by_cases h19 : opcode = 0xCC
                                        · rw [if_pos h19]
                                          try simp only [set_flag_cycles, set_bc_cycles, set_de_cycles, set_hl_cycles, set_af_cycles,
        write_byte_cycles, write_word_cycles, push_word_cycles, pop_word_cycles,
        fetch_byte_cycles, fetch_word_cycles, inc_8bit_cycles, dec_8bit_cycles,
        add_a_cycles, adc_a_cycles, sub_a_cycles, sbc_a_cycles, and_a_cycles,
        xor_a_cycles, or_a_cycles, cp_a_cycles, add_hl_cycles, set_reg8_cycles]
                                          by_cases hcnd : get_flag (fetch_word s).1 FLAG_Z ≠ 0
                                          · rw [if_pos hcnd]
                                            try simp only [set_flag_cycles, set_bc_cycles, set_de_cycles, set_hl_cycles, set_af_cycles,
        write_byte_cycles, write_word_cycles, push_word_cycles, pop_word_cycles,
        fetch_byte_cycles, fetch_word_cycles, inc_8bit_cycles, dec_8bit_cycles,
        add_a_cycles, adc_a_cycles, sub_a_cycles, sbc_a_cycles, and_a_cycles,
        xor_a_cycles, or_a_cycles, cp_a_cycles, add_hl_cycles, set_reg8_cycles]
                                            try omega
                                          · rw [if_neg hcnd]
                                            try simp only [set_flag_cycles, set_bc_cycles, set_de_cycles, set_hl_cycles, set_af_cycles,
        write_byte_cycles, write_word_cycles, push_word_cycles, pop_word_cycles,
        fetch_byte_cycles, fetch_word_cycles, inc_8bit_cycles, dec_8bit_cycles,
        add_a_cycles, adc_a_cycles, sub_a_cycles, sbc_a_cycles, and_a_cycles,
        xor_a_cycles, or_a_cycles, cp_a_cycles, add_hl_cycles, set_reg8_cycles]
                                            try omega
                                        · rw [if_neg h19]
                                          by_cases h20 : opcode = 0xCD
                                          · rw [if_pos h20]
                                            try simp only [set_flag_cycles, set_bc_cycles, set_de_cycles, set_hl_cycles, set_af_cycles,
        write_byte_cycles, write_word_cycles, push_word_cycles, pop_word_cycles,
        fetch_byte_cycles, fetch_word_cycles, inc_8bit_cycles, dec_8bit_cycles,
        add_a_cycles, adc_a_cycles, sub_a_cycles, sbc_a_cycles, and_a_cycles,
        xor_a_cycles, or_a_cycles, cp_a_cycles, add_hl_cycles, set_reg8_cycles]
                                            try omega
                                          · rw [if_neg h20]
                                            by_cases h21 : opcode = 0xCE
                                            · rw [if_pos h21]
                                              try simp only [set_flag_cycles, set_bc_cycles, set_de_cycles, set_hl_cycles, set_af_cycles,
        write_byte_cycles, write_word_cycles, push_word_cycles, pop_word_cycles,
        fetch_byte_cycles, fetch_word_cycles, inc_8bit_cycles, dec_8bit_cycles,
        add_a_cycles, adc_a_cycles, sub_a_cycles, sbc_a_cycles, and_a_cycles,
        xor_a_cycles, or_a_cycles, cp_a_cycles, add_hl_cycles, set_reg8_cycles]
                                              try omega
                                            · rw [if_neg h21]
                                              by_cases h22 : opcode = 0xD0
                                              · rw [if_pos h22]
                                                try simp only [set_flag_cycles, set_bc_cycles, set_de_cycles, set_hl_cycles, set_af_cycles,
        write_byte_cycles, write_word_cycles, push_word_cycles, pop_word_cycles,
        fetch_byte_cycles, fetch_word_cycles, inc_8bit_cycles, dec_8bit_cycles,
        add_a_cycles, adc_a_cycles, sub_a_cycles, sbc_a_cycles, and_a_cycles,
        xor_a_cycles, or_a_cycles, cp_a_cycles, add_hl_cycles, set_reg8_cycles]
                                                by_cases hcnd : get_flag s FLAG_C = 0
                                                · rw [if_pos hcnd]
                                                  try simp only [set_flag_cycles, set_bc_cycles, set_de_cycles, set_hl_cycles, set_af_cycles,
        write_byte_cycles, write_word_cycles, push_word_cycles, pop_word_cycles,
        fetch_byte_cycles, fetch_word_cycles, inc_8bit_cycles, dec_8bit_cycles,
        add_a_cycles, adc_a_cycles, sub_a_cycles, sbc_a_cycles, and_a_cycles,
        xor_a_cycles, or_a_cycles, cp_a_cycles, add_hl_cycles, set_reg8_cycles]
                                                  try omega
                                                · rw [if_neg hcnd]
                                                  try simp only [set_flag_cycles, set_bc_cycles, set_de_cycles, set_hl_cycles, set_af_cycles,
        write_byte_cycles, write_word_cycles, push_word_cycles, pop_word_cycles,
        fetch_byte_cycles, fetch_word_cycles, inc_8bit_cycles, dec_8bit_cycles,
        add_a_cycles, adc_a_cycles, sub_a_cycles, sbc_a_cycles, and_a_cycles,
        xor_a_cycles, or_a_cycles, cp_a_cycles, add_hl_cycles, set_reg8_cycles]
                                                  try omega
                                              · rw [if_neg h22]
                                                by_cases h23 : opcode = 0xD1
                                                · rw [if_pos h23]
                                                  try simp only [set_flag_cycles, set_bc_cycles, set_de_cycles, set_hl_cycles, set_af_cycles,
        write_byte_cycles, write_word_cycles, push_word_cycles, pop_word_cycles,
        fetch_byte_cycles, fetch_word_cycles, inc_8bit_cycles, dec_8bit_cycles,
        add_a_cycles, adc_a_cycles, sub_a_cycles, sbc_a_cycles, and_a_cycles,
        xor_a_cycles, or_a_cycles, cp_a_cycles, add_hl_cycles, set_reg8_cycles]
                                                  try omega
                                                · rw [if_neg h23]
                                                  by_cases h24 : opcode = 0xD2
                                                  · rw [if_pos h24]
                                                    try simp only [set_flag_cycles, set_bc_cycles, set_de_cycles, set_hl_cycles, set_af_cycles,
        write_byte_cycles, write_word_cycles, push_word_cycles, pop_word_cycles,
        fetch_byte_cycles, fetch_word_cycles, inc_8bit_cycles, dec_8bit_cycles,
        add_a_cycles, adc_a_cycles, sub_a_cycles, sbc_a_cycles, and_a_cycles,
        xor_a_cycles, or_a_cycles, cp_a_cycles, add_hl_cycles, set_reg8_cycles]
                                                    by_cases hcnd : get_flag (fetch_word s).1 FLAG_C = 0
                                                    · rw [if_pos hcnd]
                                                      try simp only [set_flag_cycles, set_bc_cycles, set_de_cycles, set_hl_cycles, set_af_cycles,
        write_byte_cycles, write_word_cycles, push_word_cycles, pop_word_cycles,
        fetch_byte_cycles, fetch_word_cycles, inc_8bit_cycles, dec_8bit_cycles,
        add_a_cycles, adc_a_cycles, sub_a_cycles, sbc_a_cycles, and_a_cycles,
        xor_a_cycles, or_a_cycles, cp_a_cycles, add_hl_cycles, set_reg8_cycles]
                                                      try omega
                                                    · rw [if_neg hcnd]
                                                      try simp only [set_flag_cycles, set_bc_cycles, set_de_cycles, set_hl_cycles, set_af_cycles,
        write_byte_cycles, write_word_cycles, push_word_cycles, pop_word_cycles,
        fetch_byte_cycles, fetch_word_cycles, inc_8bit_cycles, dec_8bit_cycles,
        add_a_cycles, adc_a_cycles, sub_a_cycles, sbc_a_cycles, and_a_cycles,
        xor_a_cycles, or_a_cycles, cp_a_cycles, add_hl_cycles, set_reg8_cycles]
                                                      try omega
                                                  · rw [if_neg h24]
                                                    by_cases h25 : opcode = 0xD4
                                                    · rw [if_pos h25]
                                                      try simp only [set_flag_cycles, set_bc_cycles, set_de_cycles, set_hl_cycles, set_af_cycles,
        write_byte_cycles, write_word_cycles, push_word_cycles, pop_word_cycles,
        fetch_byte_cycles, fetch_word_cycles, inc_8bit_cycles, dec_8bit_cycles,
        add_a_cycles, adc_a_cycles, sub_a_cycles, sbc_a_cycles, and_a_cycles,
        xor_a_cycles, or_a_cycles, cp_a_cycles, add_hl_cycles, set_reg8_cycles]
                                                      by_cases hcnd : get_flag (fetch_word s).1 FLAG_C = 0
                                                      · rw [if_pos hcnd]
                                                        try simp only [set_flag_cycles, set_bc_cycles, set_de_cycles, set_hl_cycles, set_af_cycles,
        write_byte_cycles, write_word_cycles, push_word_cycles, pop_word_cycles,
        fetch_byte_cycles, fetch_word_cycles, inc_8bit_cycles, dec_8bit_cycles,
        add_a_cycles, adc_a_cycles, sub_a_cycles, sbc_a_cycles, and_a_cycles,
        xor_a_cycles, or_a_cycles, cp_a_cycles, add_hl_cycles, set_reg8_cycles]
                                                        try omega
                                                      · rw [if_neg hcnd]
                                                        try simp only [set_flag_cycles, set_bc_cycles, set_de_cycles, set_hl_cycles, set_af_cycles,
        write_byte_cycles, write_word_cycles, push_word_cycles, pop_word_cycles,
        fetch_byte_cycles, fetch_word_cycles, inc_8bit_cycles, dec_8bit_cycles,
        add_a_cycles, adc_a_cycles, sub_a_cycles, sbc_a_cycles, and_a_cycles,
        xor_a_cycles, or_a_cycles, cp_a_cycles, add_hl_cycles, set_reg8_cycles]
                                                        try omega
                                                    · rw [if_neg h25]
                                                      by_cases h26 : opcode = 0xD5
                                                      · rw [if_pos h26]
                                                        try simp only [set_flag_cycles, set_bc_cycles, set_de_cycles, set_hl_cycles, set_af_cycles,
        write_byte_cycles, write_word_cycles, push_word_cycles, pop_word_cycles,
        fetch_byte_cycles, fetch_word_cycles, inc_8bit_cycles, dec_8bit_cycles,
        add_a_cycles, adc_a_cycles, sub_a_cycles, sbc_a_cycles, and_a_cycles,
        xor_a_cycles, or_a_cycles, cp_a_cycles, add_hl_cycles, set_reg8_cycles]
                                                        try omega
                                                      · rw [if_neg h26]
                                                        by_cases h27 : opcode = 0xD6
                                                        · rw [if_pos h27]
                                                          try simp only [set_flag_cycles, set_bc_cycles, set_de_cycles, set_hl_cycles, set_af_cycles,
        write_byte_cycles, write_word_cycles, push_word_cycles, pop_word_cycles,
        fetch_byte_cycles, fetch_word_cycles, inc_8bit_cycles, dec_8bit_cycles,
        add_a_cycles, adc_a_cycles, sub_a_cycles, sbc_a_cycles, and_a_cycles,
        xor_a_cycles, or_a_cycles, cp_a_cycles, add_hl_cycles, set_reg8_cycles]
                                                          try omega
                                                        · rw [if_neg h27]
                                                          by_cases h28 : opcode = 0xD8
                                                          · rw [if_pos h28]
                                                            try simp only [set_flag_cycles, set_bc_cycles, set_de_cycles, set_hl_cycles, set_af_cycles,
        write_byte_cycles, write_word_cycles, push_word_cycles, pop_word_cycles,
        fetch_byte_cycles, fetch_word_cycles, inc_8bit_cycles, dec_8bit_cycles,
        add_a_cycles, adc_a_cycles, sub_a_cycles, sbc_a_cycles, and_a_cycles,
        xor_a_cycles, or_a_cycles, cp_a_cycles, add_hl_cycles, set_reg8_cycles]
                                                            by_cases hcnd : get_flag s FLAG_C ≠ 0
                                                            · rw [if_pos hcnd]
                                                              try simp only [set_flag_cycles, set_bc_cycles, set_de_cycles, set_hl_cycles, set_af_cycles,
        write_byte_cycles, write_word_cycles, push_word_cycles, pop_word_cycles,
        fetch_byte_cycles, fetch_word_cycles, inc_8bit_cycles, dec_8bit_cycles,
        add_a_cycles, adc_a_cycles, sub_a_cycles, sbc_a_cycles, and_a_cycles,
        xor_a_cycles, or_a_cycles, cp_a_cycles, add_hl_cycles, set_reg8_cycles]
                                                              try omega
                                                            · rw [if_neg hcnd]
                                                              try simp only [set_flag_cycles, set_bc_cycles, set_de_cycles, set_hl_cycles, set_af_cycles,
        write_byte_cycles, write_word_cycles, push_word_cycles, pop_word_cycles,
        fetch_byte_cycles, fetch_word_cycles, inc_8bit_cycles, dec_8bit_cycles,
        add_a_cycles, adc_a_cycles, sub_a_cycles, sbc_a_cycles, and_a_cycles,
        xor_a_cycles, or_a_cycles, cp_a_cycles, add_hl_cycles, set_reg8_cycles]
                                                              try omega
                                                          · rw [if_neg h28]
                                                            by_cases h29 : opcode = 0xD9
                                                            · rw [if_pos h29]
                                                              try simp only [set_flag_cycles, set_bc_cycles, set_de_cycles, set_hl_cycles, set_af_cycles,
        write_byte_cycles, write_word_cycles, push_word_cycles, pop_word_cycles,
        fetch_byte_cycles, fetch_word_cycles, inc_8bit_cycles, dec_8bit_cycles,
        add_a_cycles, adc_a_cycles, sub_a_cycles, sbc_a_cycles, and_a_cycles,
        xor_a_cycles, or_a_cycles, cp_a_cycles, add_hl_cycles, set_reg8_cycles]
                                                              try omega
                                                            · rw [if_neg h29]
                                                              by_cases h30 : opcode = 0xDA
                                                              · rw [if_pos h30]
                                                                try simp only [set_flag_cycles, set_bc_cycles, set_de_cycles, set_hl_cycles, set_af_cycles,
        write_byte_cycles, write_word_cycles, push_word_cycles, pop_word_cycles,
        fetch_byte_cycles, fetch_word_cycles, inc_8bit_cycles, dec_8bit_cycles,
        add_a_cycles, adc_a_cycles, sub_a_cycles, sbc_a_cycles, and_a_cycles,
        xor_a_cycles, or_a_cycles, cp_a_cycles, add_hl_cycles, set_reg8_cycles]
                                                                by_cases hcnd : get_flag (fetch_word s).1 FLAG_C ≠ 0
                                                                · rw [if_pos hcnd]
                                                                  try simp only [set_flag_cycles, set_bc_cycles, set_de_cycles, set_hl_cycles, set_af_cycles,
        write_byte_cycles, write_word_cycles, push_word_cycles, pop_word_cycles,
        fetch_byte_cycles, fetch_word_cycles, inc_8bit_cycles, dec_8bit_cycles,
        add_a_cycles, adc_a_cycles, sub_a_cycles, sbc_a_cycles, and_a_cycles,
        xor_a_cycles, or_a_cycles, cp_a_cycles, add_hl_cycles, set_reg8_cycles]
                                                                  try omega
                                                                · rw [if_neg hcnd]
                                                                  try simp only [set_flag_cycles, set_bc_cycles, set_de_cycles, set_hl_cycles, set_af_cycles,
        write_byte_cycles, write_word_cycles, push_word_cycles, pop_word_cycles,
        fetch_byte_cycles, fetch_word_cycles, inc_8bit_cycles, dec_8bit_cycles,
        add_a_cycles, adc_a_cycles, sub_a_cycles, sbc_a_cycles, and_a_cycles,
        xor_a_cycles, or_a_cycles, cp_a_cycles, add_hl_cycles, set_reg8_cycles]
                                                                  try omega
                                                              · rw [if_neg h30]
                                                                by_cases h31 : opcode = 0xDC
                                                                · rw [if_pos h31]
                                                                  try simp only [set_flag_cycles, set_bc_cycles, set_de_cycles, set_hl_cycles, set_af_cycles,
        write_byte_cycles, write_word_cycles, push_word_cycles, pop_word_cycles,
        fetch_byte_cycles, fetch_word_cycles, inc_8bit_cycles, dec_8bit_cycles,
        add_a_cycles, adc_a_cycles, sub_a_cycles, sbc_a_cycles, and_a_cycles,
        xor_a_cycles, or_a_cycles, cp_a_cycles, add_hl_cycles, set_reg8_cycles]
                                                                  by_cases hcnd : get_flag (fetch_word s).1 FLAG_C ≠ 0
                                                                  · rw [if_pos hcnd]
                                                                    try simp only [set_flag_cycles, set_bc_cycles, set_de_cycles, set_hl_cycles, set_af_cycles,
        write_byte_cycles, write_word_cycles, push_word_cycles, pop_word_cycles,
        fetch_byte_cycles, fetch_word_cycles, inc_8bit_cycles, dec_8bit_cycles,
        add_a_cycles, adc_a_cycles, sub_a_cycles, sbc_a_cycles, and_a_cycles,
        xor_a_cycles, or_a_cycles, cp_a_cycles, add_hl_cycles, set_reg8_cycles]
                                                                    try omega
                                                                  · rw [if_neg hcnd]
                                                                    try simp only [set_flag_cycles, set_bc_cycles, set_de_cycles, set_hl_cycles, set_af_cycles,
        write_byte_cycles, write_word_cycles, push_word_cycles, pop_word_cycles,
        fetch_byte_cycles, fetch_word_cycles, inc_8bit_cycles, dec_8bit_cycles,
        add_a_cycles, adc_a_cycles, sub_a_cycles, sbc_a_cycles, and_a_cycles,
        xor_a_cycles, or_a_cycles, cp_a_cycles, add_hl_cycles, set_reg8_cycles]
                                                                    try omega
                                                                · rw [if_neg h31]
                                                                  by_cases h32 : opcode = 0xDE
                                                                  · rw [if_pos h32]
                                                                    try simp only [set_flag_cycles, set_bc_cycles, set_de_cycles, set_hl_cycles, set_af_cycles,
        write_byte_cycles, write_word_cycles, push_word_cycles, pop_word_cycles,
        fetch_byte_cycles, fetch_word_cycles, inc_8bit_cycles, dec_8bit_cycles,
        add_a_cycles, adc_a_cycles, sub_a_cycles, sbc_a_cycles, and_a_cycles,
        xor_a_cycles, or_a_cycles, cp_a_cycles, add_hl_cycles, set_reg8_cycles]
                                                                    try omega
                                                                  · rw [if_neg h32]
                                                                    by_cases h33 : opcode = 0xE0
                                                                    · rw [if_pos h33]
                                                                      try simp only [set_flag_cycles, set_bc_cycles, set_de_cycles, set_hl_cycles, set_af_cycles,
        write_byte_cycles, write_word_cycles, push_word_cycles, pop_word_cycles,
        fetch_byte_cycles, fetch_word_cycles, inc_8bit_cycles, dec_8bit_cycles,
        add_a_cycles, adc_a_cycles, sub_a_cycles, sbc_a_cycles, and_a_cycles,
        xor_a_cycles, or_a_cycles, cp_a_cycles, add_hl_cycles, set_reg8_cycles]
                                                                      try omega
                                                                    · rw [if_neg h33]
                                                                      by_cases h34 : opcode = 0xE1
                                                                      · rw [if_pos h34]
                                                                        try simp only [set_flag_cycles, set_bc_cycles, set_de_cycles, set_hl_cycles, set_af_cycles,
        write_byte_cycles, write_word_cycles, push_word_cycles, pop_word_cycles,
        fetch_byte_cycles, fetch_word_cycles, inc_8bit_cycles, dec_8bit_cycles,
        add_a_cycles, adc_a_cycles, sub_a_cycles, sbc_a_cycles, and_a_cycles,
        xor_a_cycles, or_a_cycles, cp_a_cycles, add_hl_cycles, set_reg8_cycles]
                                                                        try omega
                                                                      · rw [if_neg h34]
                                                                        by_cases h35 : opcode = 0xE2
                                                                        · rw [if_pos h35]
                                                                          try simp only [set_flag_cycles, set_bc_cycles, set_de_cycles, set_hl_cycles, set_af_cycles,
        write_byte_cycles, write_word_cycles, push_word_cycles, pop_word_cycles,
        fetch_byte_cycles, fetch_word_cycles, inc_8bit_cycles, dec_8bit_cycles,
        add_a_cycles, adc_a_cycles, sub_a_cycles, sbc_a_cycles, and_a_cycles,
        xor_a_cycles, or_a_cycles, cp_a_cycles, add_hl_cycles, set_reg8_cycles]
                                                                          try omega
                                                                        · rw [if_neg h35]
                                                                          by_cases h36 : opcode = 0xE5
                                                                          · rw [if_pos h36]
                                                                            try simp only [set_flag_cycles, set_bc_cycles, set_de_cycles, set_hl_cycles, set_af_cycles,
        write_byte_cycles, write_word_cycles, push_word_cycles, pop_word_cycles,
        fetch_byte_cycles, fetch_word_cycles, inc_8bit_cycles, dec_8bit_cycles,
        add_a_cycles, adc_a_cycles, sub_a_cycles, sbc_a_cycles, and_a_cycles,
        xor_a_cycles, or_a_cycles, cp_a_cycles, add_hl_cycles, set_reg8_cycles]
                                                                            try omega
                                                                          · rw [if_neg h36]
                                                                            by_cases h37 : opcode = 0xE6
                                                                            · rw [if_pos h37]
                                                                              try simp only [set_flag_cycles, set_bc_cycles, set_de_cycles, set_hl_cycles, set_af_cycles,
        write_byte_cycles, write_word_cycles, push_word_cycles, pop_word_cycles,
        fetch_byte_cycles, fetch_word_cycles, inc_8bit_cycles, dec_8bit_cycles,
        add_a_cycles, adc_a_cycles, sub_a_cycles, sbc_a_cycles, and_a_cycles,
        xor_a_cycles, or_a_cycles, cp_a_cycles, add_hl_cycles, set_reg8_cycles]
                                                                              try omega
                                                                            · rw [if_neg h37]
                                                                              by_cases h38 : opcode = 0xE9
                                                                              · rw [if_pos h38]
                                                                                try simp only [set_flag_cycles, set_bc_cycles, set_de_cycles, set_hl_cycles, set_af_cycles,
        write_byte_cycles, write_word_cycles, push_word_cycles, pop_word_cycles,
        fetch_byte_cycles, fetch_word_cycles, inc_8bit_cycles, dec_8bit_cycles,
        add_a_cycles, adc_a_cycles, sub_a_cycles, sbc_a_cycles, and_a_cycles,
        xor_a_cycles, or_a_cycles, cp_a_cycles, add_hl_cycles, set_reg8_cycles]
                                                                                try omega
                                                                              · rw [if_neg h38]
                                                                                by_cases h39 : opcode = 0xEA
                                                                                · rw [if_pos h39]
                                                                                  try simp only [set_flag_cycles, set_bc_cycles, set_de_cycles, set_hl_cycles, set_af_cycles,
        write_byte_cycles, write_word_cycles, push_word_cycles, pop_word_cycles,
        fetch_byte_cycles, fetch_word_cycles, inc_8bit_cycles, dec_8bit_cycles,
        add_a_cycles, adc_a_cycles, sub_a_cycles, sbc_a_cycles, and_a_cycles,
        xor_a_cycles, or_a_cycles, cp_a_cycles, add_hl_cycles, set_reg8_cycles]
                                                                                  try omega
                                                                                · rw [if_neg h39]
                                                                                  by_cases h40 : opcode = 0xEE
                                                                                  · rw [if_pos h40]
                                                                                    try simp only [set_flag_cycles, set_bc_cycles, set_de_cycles, set_hl_cycles, set_af_cycles,
        write_byte_cycles, write_word_cycles, push_word_cycles, pop_word_cycles,
        fetch_byte_cycles, fetch_word_cycles, inc_8bit_cycles, dec_8bit_cycles,
        add_a_cycles, adc_a_cycles, sub_a_cycles, sbc_a_cycles, and_a_cycles,
        xor_a_cycles, or_a_cycles, cp_a_cycles, add_hl_cycles, set_reg8_cycles]
                                                                                    try omega
                                                                                  · rw [if_neg h40]
                                                                                    by_cases h41 : opcode = 0xF0
                                                                                    · rw [if_pos h41]
                                                                                      try simp only [set_flag_cycles, set_bc_cycles, set_de_cycles, set_hl_cycles, set_af_cycles,
        write_byte_cycles, write_word_cycles, push_word_cycles, pop_word_cycles,
        fetch_byte_cycles, fetch_word_cycles, inc_8bit_cycles, dec_8bit_cycles,
        add_a_cycles, adc_a_cycles, sub_a_cycles, sbc_a_cycles, and_a_cycles,
        xor_a_cycles, or_a_cycles, cp_a_cycles, add_hl_cycles, set_reg8_cycles]
                                                                                      try omega
                                                                                    · rw [if_neg h41]
                                                                                      by_cases h42 : opcode = 0xF1
                                                                                      · rw [if_pos h42]
                                                                                        try simp only [set_flag_cycles, set_bc_cycles, set_de_cycles, set_hl_cycles, set_af_cycles,
        write_byte_cycles, write_word_cycles, push_word_cycles, pop_word_cycles,
        fetch_byte_cycles, fetch_word_cycles, inc_8bit_cycles, dec_8bit_cycles,
        add_a_cycles, adc_a_cycles, sub_a_cycles, sbc_a_cycles, and_a_cycles,
        xor_a_cycles, or_a_cycles, cp_a_cycles, add_hl_cycles, set_reg8_cycles]
                                                                                        try omega
                                                                                      · rw [if_neg h42]
                                                                                        by_cases h43 : opcode = 0xF2
                                                                                        · rw [if_pos h43]
                                                                                          try simp only [set_flag_cycles, set_bc_cycles, set_de_cycles, set_hl_cycles, set_af_cycles,
        write_byte_cycles, write_word_cycles, push_word_cycles, pop_word_cycles,
        fetch_byte_cycles, fetch_word_cycles, inc_8bit_cycles, dec_8bit_cycles,
        add_a_cycles, adc_a_cycles, sub_a_cycles, sbc_a_cycles, and_a_cycles,
        xor_a_cycles, or_a_cycles, cp_a_cycles, add_hl_cycles, set_reg8_cycles]
                                                                                          try omega
                                                                                        · rw [if_neg h43]
                                                                                          by_cases h44 : opcode = 0xF3
                                                                                          · rw [if_pos h44]
                                                                                            try simp only [set_flag_cycles, set_bc_cycles, set_de_cycles, set_hl_cycles, set_af_cycles,
        write_byte_cycles, write_word_cycles, push_word_cycles, pop_word_cycles,
        fetch_byte_cycles, fetch_word_cycles, inc_8bit_cycles, dec_8bit_cycles,
        add_a_cycles, adc_a_cycles, sub_a_cycles, sbc_a_cycles, and_a_cycles,
        xor_a_cycles, or_a_cycles, cp_a_cycles, add_hl_cycles, set_reg8_cycles]
                                                                                            try omega
                                                                                          · rw [if_neg h44]
                                                                                            by_cases h45 : opcode = 0xF5
                                                                                            · rw [if_pos h45]
                                                                                              try simp only [set_flag_cycles, set_bc_cycles, set_de_cycles, set_hl_cycles, set_af_cycles,
        write_byte_cycles, write_word_cycles, push_word_cycles, pop_word_cycles,
        fetch_byte_cycles, fetch_word_cycles, inc_8bit_cycles, dec_8bit_cycles,
        add_a_cycles, adc_a_cycles, sub_a_cycles, sbc_a_cycles, and_a_cycles,
        xor_a_cycles, or_a_cycles, cp_a_cycles, add_hl_cycles, set_reg8_cycles]
                                                                                              try omega
                                                                                            · rw [if_neg h45]
                                                                                              by_cases h46 : opcode = 0xF6
                                                                                              · rw [if_pos h46]
                                                                                                try simp only [set_flag_cycles, set_bc_cycles, set_de_cycles, set_hl_cycles, set_af_cycles,
        write_byte_cycles, write_word_cycles, push_word_cycles, pop_word_cycles,
        fetch_byte_cycles, fetch_word_cycles, inc_8bit_cycles, dec_8bit_cycles,
        add_a_cycles, adc_a_cycles, sub_a_cycles, sbc_a_cycles, and_a_cycles,
        xor_a_cycles, or_a_cycles, cp_a_cycles, add_hl_cycles, set_reg8_cycles]
                                                                                                try omega
                                                                                              · rw [if_neg h46]
                                                                                                by_cases h47 : opcode = 0xFA
                                                                                                · rw [if_pos h47]
                                                                                                  try simp only [set_flag_cycles, set_bc_cycles, set_de_cycles, set_hl_cycles, set_af_cycles,
        write_byte_cycles, write_word_cycles, push_word_cycles, pop_word_cycles,
        fetch_byte_cycles, fetch_word_cycles, inc_8bit_cycles, dec_8bit_cycles,
        add_a_cycles, adc_a_cycles, sub_a_cycles, sbc_a_cycles, and_a_cycles,
        xor_a_cycles, or_a_cycles, cp_a_cycles, add_hl_cycles, set_reg8_cycles]
                                                                                                  try omega
                                                                                                · rw [if_neg h47]
                                                                                                  by_cases h48 : opcode = 0xFB
                                                                                                  · rw [if_pos h48]
                                                                                                    try simp only [set_flag_cycles, set_bc_cycles, set_de_cycles, set_hl_cycles, set_af_cycles,
        write_byte_cycles, write_word_cycles, push_word_cycles, pop_word_cycles,
        fetch_byte_cycles, fetch_word_cycles, inc_8bit_cycles, dec_8bit_cycles,
        add_a_cycles, adc_a_cycles, sub_a_cycles, sbc_a_cycles, and_a_cycles,
        xor_a_cycles, or_a_cycles, cp_a_cycles, add_hl_cycles, set_reg8_cycles]
                                                                                                    try omega
                                                                                                  · rw [if_neg h48]
                                                                                                    by_cases h49 : opcode = 0xFE
                                                                                                    · rw [if_pos h49]
                                                                                                      try simp only [set_flag_cycles, set_bc_cycles, set_de_cycles, set_hl_cycles, set_af_cycles,
        write_byte_cycles, write_word_cycles, push_word_cycles, pop_word_cycles,
        fetch_byte_cycles, fetch_word_cycles, inc_8bit_cycles, dec_8bit_cycles,
        add_a_cycles, adc_a_cycles, sub_a_cycles, sbc_a_cycles, and_a_cycles,
        xor_a_cycles, or_a_cycles, cp_a_cycles, add_hl_cycles, set_reg8_cycles]
                                                                                                      try omega
                                                                                                    · rw [if_neg h49]
                                                                                                      try simp only []
                                                                                                      try omega

/-- The upper dispatch half preserves a zero low flag nibble. -/
theorem execute_opcode_hi_fnib (s : S) (opcode : Nat) (h : s.f &&& 0xF = 0) :
    (execute_opcode_hi s opcode).f &&& 0xF = 0 := by
  unfold execute_opcode_hi
  by_cases h0 : 0x80 ≤ opcode ∧ opcode ≤ 0x87
  · rw [if_pos h0]
    try simp only [set_flag_fnib_z, set_flag_fnib_n, set_flag_fnib_h, set_flag_fnib_c,
        set_af_fnib, write_byte_f, write_word_f, push_word_f, pop_word_f,
        fetch_byte_f, fetch_word_f, set_bc_f, set_de_f, set_hl_f, inc_8bit_f,
        dec_8bit_f, add_a_f, adc_a_f, sub_a_f, sbc_a_f, and_a_f, xor_a_f,
        or_a_f, cp_a_f, add_hl_f, set_reg8_f, ld_r_r_f, execute_cb_f]
    try first | exact h | rfl | omega
  · rw [if_neg h0]
    by_cases h1 : 0x88 ≤ opcode ∧ opcode ≤ 0x8F
    · rw [if_pos h1]
      try simp only [set_flag_fnib_z, set_flag_fnib_n, set_flag_fnib_h, set_flag_fnib_c,
        set_af_fnib, write_byte_f, write_word_f, push_word_f, pop_word_f,
        fetch_byte_f, fetch_word_f, set_bc_f, set_de_f, set_hl_f, inc_8bit_f,
        dec_8bit_f, add_a_f, adc_a_f, sub_a_f, sbc_a_f, and_a_f, xor_a_f,
        or_a_f, cp_a_f, add_hl_f, set_reg8_f, ld_r_r_f, execute_cb_f]
      try first | exact h | rfl | omega
    · rw [if_neg h1]
      by_cases h2 : 0x90 ≤ opcode ∧ opcode ≤ 0x97
      · rw [if_pos h2]
        try simp only [set_flag_fnib_z, set_flag_fnib_n, set_flag_fnib_h, set_flag_fnib_c,
        set_af_fnib, write_byte_f, write_word_f, push_word_f, pop_word_f,
        fetch_byte_f, fetch_word_f, set_bc_f, set_de_f, set_hl_f, inc_8bit_f,
        dec_8bit_f, add_a_f, adc_a_f, sub_a_f, sbc_a_f, and_a_f, xor_a_f,
        or_a_f, cp_a_f, add_hl_f, set_reg8_f, ld_r_r_f, execute_cb_f]
        try first | exact h | rfl | omega
      · rw [if_neg h2]
        by_cases h3 : 0x98 ≤ opcode ∧ opcode ≤ 0x9F
        · rw [if_pos h3]
          try simp only [set_flag_fnib_z, set_flag_fnib_n, set_flag_fnib_h, set_flag_fnib_c,
        set_af_fnib, write_byte_f, write_word_f, push_word_f, pop_word_f,
        fetch_byte_f, fetch_word_f, set_bc_f, set_de_f, set_hl_f, inc_8bit_f,
        dec_8bit_f, add_a_f, adc_a_f, sub_a_f, sbc_a_f, and_a_f, xor_a_f,
        or_a_f, cp_a_f, add_hl_f, set_reg8_f, ld_r_r_f, execute_cb_f]
          try first | exact h | rfl | omega
        · rw [if_neg h3]
          by_cases h4 : 0xA0 ≤ opcode ∧ opcode ≤ 0xA7
          · rw [if_pos h4]
            try simp only [set_flag_fnib_z, set_flag_fnib_n, set_flag_fnib_h, set_flag_fnib_c,
        set_af_fnib, write_byte_f, write_word_f, push_word_f, pop_word_f,
        fetch_byte_f, fetch_word_f, set_bc_f, set_de_f, set_hl_f, inc_8bit_f,
        dec_8bit_f, add_a_f, adc_a_f, sub_a_f, sbc_a_f, and_a_f, xor_a_f,
        or_a_f, cp_a_f, add_hl_f, set_reg8_f, ld_r_r_f, execute_cb_f]
            try first | exact h | rfl | omega
          · rw [if_neg h4]
            by_cases h5 : 0xA8 ≤ opcode ∧ opcode ≤ 0xAF
            · rw [if_pos h5]
              try simp only [set_flag_fnib_z, set_flag_fnib_n, set_flag_fnib_h, set_flag_fnib_c,
        set_af_fnib, write_byte_f, write_word_f, push_word_f, pop_word_f,
        fetch_byte_f, fetch_word_f, set_bc_f, set_de_f, set_hl_f, inc_8bit_f,
        dec_8bit_f, add_a_f, adc_a_f, sub_a_f, sbc_a_f, and_a_f, xor_a_f,
        or_a_f, cp_a_f, add_hl_f, set_reg8_f, ld_r_r_f, execute_cb_f]
              try first | exact h | rfl | omega
            · rw [if_neg h5]
              by_cases h6 : 0xB0 ≤ opcode ∧ opcode ≤ 0xB7
              · rw [if_pos h6]
                try simp only [set_flag_fnib_z, set_flag_fnib_n, set_flag_fnib_h, set_flag_fnib_c,
        set_af_fnib, write_byte_f, write_word_f, push_word_f, pop_word_f,
        fetch_byte_f, fetch_word_f, set_bc_f, set_de_f, set_hl_f, inc_8bit_f,
        dec_8bit_f, add_a_f, adc_a_f, sub_a_f, sbc_a_f, and_a_f, xor_a_f,
        or_a_f, cp_a_f, add_hl_f, set_reg8_f, ld_r_r_f, execute_cb_f]
                try first | exact h | rfl | omega
              · rw [if_neg h6]
                by_cases h7 : 0xB8 ≤ opcode ∧ opcode ≤ 0xBF
                · rw [if_pos h7]
                  try simp only [set_flag_fnib_z, set_flag_fnib_n, set_flag_fnib_h, set_flag_fnib_c,
        set_af_fnib, write_byte_f, write_word_f, push_word_f, pop_word_f,
        fetch_byte_f, fetch_word_f, set_bc_f, set_de_f, set_hl_f, inc_8bit_f,
        dec_8bit_f, add_a_f, adc_a_f, sub_a_f, sbc_a_f, and_a_f, xor_a_f,
        or_a_f, cp_a_f, add_hl_f, set_reg8_f, ld_r_r_f, execute_cb_f]
                  try first | exact h | rfl | omega
                · rw [if_neg h7]
                  by_cases h8 : opcode = 0xC0
                  · rw [if_pos h8]
                    try simp only [set_flag_fnib_z, set_flag_fnib_n, set_flag_fnib_h, set_flag_fnib_c,
        set_af_fnib, write_byte_f, write_word_f, push_word_f, pop_word_f,
        fetch_byte_f, fetch_word_f, set_bc_f, set_de_f, set_hl_f, inc_8bit_f,
        dec_8bit_f, add_a_f, adc_a_f, sub_a_f, sbc_a_f, and_a_f, xor_a_f,
        or_a_f, cp_a_f, add_hl_f, set_reg8_f, ld_r_r_f, execute_cb_f]
                    by_cases hcnd : get_flag s FLAG_Z = 0
                    · rw [if_pos hcnd]
                      try simp only [set_flag_fnib_z, set_flag_fnib_n, set_flag_fnib_h, set_flag_fnib_c,
        set_af_fnib, write_byte_f, write_word_f, push_word_f, pop_word_f,
        fetch_byte_f, fetch_word_f, set_bc_f, set_de_f, set_hl_f, inc_8bit_f,
        dec_8bit_f, add_a_f, adc_a_f, sub_a_f, sbc_a_f, and_a_f, xor_a_f,
        or_a_f, cp_a_f, add_hl_f, set_reg8_f, ld_r_r_f, execute_cb_f]
                      try first | exact h | rfl | omega
                    · rw [if_neg hcnd]
                      try simp only [set_flag_fnib_z, set_flag_fnib_n, set_flag_fnib_h, set_flag_fnib_c,
        set_af_fnib, write_byte_f, write_word_f, push_word_f, pop_word_f,
        fetch_byte_f, fetch_word_f, set_bc_f, set_de_f, set_hl_f, inc_8bit_f,
        dec_8bit_f, add_a_f, adc_a_f, sub_a_f, sbc_a_f, and_a_f, xor_a_f,
        or_a_f, cp_a_f, add_hl_f, set_reg8_f, ld_r_r_f, execute_cb_f]
                      try first | exact h | rfl | omega
                  · rw [if_neg h8]
                    by_cases h9 : opcode = 0xC1
                    · rw [if_pos h9]
                      try simp only [set_flag_fnib_z, set_flag_fnib_n, set_flag_fnib_h, set_flag_fnib_c,
        set_af_fnib, write_byte_f, write_word_f, push_word_f, pop_word_f,
        fetch_byte_f, fetch_word_f, set_bc_f, set_de_f, set_hl_f, inc_8bit_f,
        dec_8bit_f, add_a_f, adc_a_f, sub_a_f, sbc_a_f, and_a_f, xor_a_f,
        or_a_f, cp_a_f, add_hl_f, set_reg8_f, ld_r_r_f, execute_cb_f]
                      try first | exact h | rfl | omega
                    · rw [if_neg h9]
                      by_cases h10 : opcode = 0xC2
                      · rw [if_pos h10]
                        try simp only [set_flag_fnib_z, set_flag_fnib_n, set_flag_fnib_h, set_flag_fnib_c,
        set_af_fnib, write_byte_f, write_word_f, push_word_f, pop_word_f,
        fetch_byte_f, fetch_word_f, set_bc_f, set_de_f, set_hl_f, inc_8bit_f,
        dec_8bit_f, add_a_f, adc_a_f, sub_a_f, sbc_a_f, and_a_f, xor_a_f,
        or_a_f, cp_a_f, add_hl_f, set_reg8_f, ld_r_r_f, execute_cb_f]
                        by_cases hcnd : get_flag (fetch_word s).1 FLAG_Z = 0
                        · rw [if_pos hcnd]
                          try simp only [set_flag_fnib_z, set_flag_fnib_n, set_flag_fnib_h, set_flag_fnib_c,
        set_af_fnib, write_byte_f, write_word_f, push_word_f, pop_word_f,
        fetch_byte_f, fetch_word_f, set_bc_f, set_de_f, set_hl_f, inc_8bit_f,
        dec_8bit_f, add_a_f, adc_a_f, sub_a_f, sbc_a_f, and_a_f, xor_a_f,
        or_a_f, cp_a_f, add_hl_f, set_reg8_f, ld_r_r_f, execute_cb_f]
                          try first | exact h | rfl | omega
                        · rw [if_neg hcnd]
                          try simp only [set_flag_fnib_z, set_flag_fnib_n, set_flag_fnib_h, set_flag_fnib_c,
        set_af_fnib, write_byte_f, write_word_f, push_word_f, pop_word_f,
        fetch_byte_f, fetch_word_f, set_bc_f, set_de_f, set_hl_f, inc_8bit_f,
        dec_8bit_f, add_a_f, adc_a_f, sub_a_f, sbc_a_f, and_a_f, xor_a_f,
        or_a_f, cp_a_f, add_hl_f, set_reg8_f, ld_r_r_f, execute_cb_f]
                          try first | exact h | rfl | omega
                      · rw [if_neg h10]
                        by_cases h11 : opcode = 0xC3
                        · rw [if_pos h11]
                          try simp only [set_flag_fnib_z, set_flag_fnib_n, set_flag_fnib_h, set_flag_fnib_c,
        set_af_fnib, write_byte_f, write_word_f, push_word_f, pop_word_f,
        fetch_byte_f, fetch_word_f, set_bc_f, set_de_f, set_hl_f, inc_8bit_f,
        dec_8bit_f, add_a_f, adc_a_f, sub_a_f, sbc_a_f, and_a_f, xor_a_f,
        or_a_f, cp_a_f, add_hl_f, set_reg8_f, ld_r_r_f, execute_cb_f]
                          try first | exact h | rfl | omega
                        · rw [if_neg h11]
                          by_cases h12 : opcode = 0xC4
                          · rw [if_pos h12]
                            try simp only [set_flag_fnib_z, set_flag_fnib_n, set_flag_fnib_h, set_flag_fnib_c,
        set_af_fnib, write_byte_f, write_word_f, push_word_f, pop_word_f,
        fetch_byte_f, fetch_word_f, set_bc_f, set_de_f, set_hl_f, inc_8bit_f,
        dec_8bit_f, add_a_f, adc_a_f, sub_a_f, sbc_a_f, and_a_f, xor_a_f,
        or_a_f, cp_a_f, add_hl_f, set_reg8_f, ld_r_r_f, execute_cb_f]
                            by_cases hcnd : get_flag (fetch_word s).1 FLAG_Z = 0
                            · rw [if_pos hcnd]
                              try simp only [set_flag_fnib_z, set_flag_fnib_n, set_flag_fnib_h, set_flag_fnib_c,
        set_af_fnib, write_byte_f, write_word_f, push_word_f, pop_word_f,
        fetch_byte_f, fetch_word_f, set_bc_f, set_de_f, set_hl_f, inc_8bit_f,
        dec_8bit_f, add_a_f, adc_a_f, sub_a_f, sbc_a_f, and_a_f, xor_a_f,
        or_a_f, cp_a_f, add_hl_f, set_reg8_f, ld_r_r_f, execute_cb_f]
                              try first | exact h | rfl | omega
                            · rw [if_neg hcnd]
                              try simp only [set_flag_fnib_z, set_flag_fnib_n, set_flag_fnib_h, set_flag_fnib_c,
        set_af_fnib, write_byte_f, write_word_f, push_word_f, pop_word_f,
        fetch_byte_f, fetch_word_f, set_bc_f, set_de_f, set_hl_f, inc_8bit_f,
        dec_8bit_f, add_a_f, adc_a_f, sub_a_f, sbc_a_f, and_a_f, xor_a_f,
        or_a_f, cp_a_f, add_hl_f, set_reg8_f, ld_r_r_f, execute_cb_f]
                              try first | exact h | rfl | omega
                          · rw [if_neg h12]
                            by_cases h13 : opcode = 0xC5
                            · rw [if_pos h13]
                              try simp only [set_flag_fnib_z, set_flag_fnib_n, set_flag_fnib_h, set_flag_fnib_c,
        set_af_fnib, write_byte_f, write_word_f, push_word_f, pop_word_f,
        fetch_byte_f, fetch_word_f, set_bc_f, set_de_f, set_hl_f, inc_8bit_f,
        dec_8bit_f, add_a_f, adc_a_f, sub_a_f, sbc_a_f, and_a_f, xor_a_f,
        or_a_f, cp_a_f, add_hl_f, set_reg8_f, ld_r_r_f, execute_cb_f]
                              try first | exact h | rfl | omega
                            · rw [if_neg h13]
                              by_cases h14 : opcode = 0xC6
                              · rw [if_pos h14]
                                try simp only [set_flag_fnib_z, set_flag_fnib_n, set_flag_fnib_h, set_flag_fnib_c,
        set_af_fnib, write_byte_f, write_word_f, push_word_f, pop_word_f,
        fetch_byte_f, fetch_word_f, set_bc_f, set_de_f, set_hl_f, inc_8bit_f,
        dec_8bit_f, add_a_f, adc_a_f, sub_a_f, sbc_a_f, and_a_f, xor_a_f,
        or_a_f, cp_a_f, add_hl_f, set_reg8_f, ld_r_r_f, execute_cb_f]
                                try first | exact h | rfl | omega
                              · rw [if_neg h14]
                                by_cases h15 : opcode = 0xC8
                                · rw [if_pos h15]
                                  try simp only [set_flag_fnib_z, set_flag_fnib_n, set_flag_fnib_h, set_flag_fnib_c,
        set_af_fnib, write_byte_f, write_word_f, push_word_f, pop_word_f,
        fetch_byte_f, fetch_word_f, set_bc_f, set_de_f, set_hl_f, inc_8bit_f,
        dec_8bit_f, add_a_f, adc_a_f, sub_a_f, sbc_a_f, and_a_f, xor_a_f,
        or_a_f, cp_a_f, add_hl_f, set_reg8_f, ld_r_r_f, execute_cb_f]
                                  by_cases hcnd : get_flag s FLAG_Z ≠ 0
                                  · rw [if_pos hcnd]
                                    try simp only [set_flag_fnib_z, set_flag_fnib_n, set_flag_fnib_h, set_flag_fnib_c,
        set_af_fnib, write_byte_f, write_word_f, push_word_f, pop_word_f,
        fetch_byte_f, fetch_word_f, set_bc_f, set_de_f, set_hl_f, inc_8bit_f,
        dec_8bit_f, add_a_f, adc_a_f, sub_a_f, sbc_a_f, and_a_f, xor_a_f,
        or_a_f, cp_a_f, add_hl_f, set_reg8_f, ld_r_r_f, execute_cb_f]
                                    try first | exact h | rfl | omega
                                  · rw [if_neg hcnd]
                                    try simp only [set_flag_fnib_z, set_flag_fnib_n, set_flag_fnib_h, set_flag_fnib_c,
        set_af_fnib, write_byte_f, write_word_f, push_word_f, pop_word_f,
        fetch_byte_f, fetch_word_f, set_bc_f, set_de_f, set_hl_f, inc_8bit_f,
        dec_8bit_f, add_a_f, adc_a_f, sub_a_f, sbc_a_f, and_a_f, xor_a_f,
        or_a_f, cp_a_f, add_hl_f, set_reg8_f, ld_r_r_f, execute_cb_f]
                                    try first | exact h | rfl | omega
                                · rw [if_neg h15]
                                  by_cases h16 : opcode = 0xC9
                                  · rw [if_pos h16]
                                    try simp only [set_flag_fnib_z, set_flag_fnib_n, set_flag_fnib_h, set_flag_fnib_c,
        set_af_fnib, write_byte_f, write_word_f, push_word_f, pop_word_f,
        fetch_byte_f, fetch_word_f, set_bc_f, set_de_f, set_hl_f, inc_8bit_f,
        dec_8bit_f, add_a_f, adc_a_f, sub_a_f, sbc_a_f, and_a_f, xor_a_f,
        or_a_f, cp_a_f, add_hl_f, set_reg8_f, ld_r_r_f, execute_cb_f]
                                    try first | exact h | rfl | omega
                                  · rw [if_neg h16]
                                    by_cases h17 : opcode = 0xCA
                                    · rw [if_pos h17]
                                      try simp only [set_flag_fnib_z, set_flag_fnib_n, set_flag_fnib_h, set_flag_fnib_c,
        set_af_fnib, write_byte_f, write_word_f, push_word_f, pop_word_f,
        fetch_byte_f, fetch_word_f, set_bc_f, set_de_f, set_hl_f, inc_8bit_f,
        dec_8bit_f, add_a_f, adc_a_f, sub_a_f, sbc_a_f, and_a_f, xor_a_f,
        or_a_f, cp_a_f, add_hl_f, set_reg8_f, ld_r_r_f, execute_cb_f]
                                      by_cases hcnd : get_flag (fetch_word s).1 FLAG_Z ≠ 0
                                      · rw [if_pos hcnd]
                                        try simp only [set_flag_fnib_z, set_flag_fnib_n, set_flag_fnib_h, set_flag_fnib_c,
        set_af_fnib, write_byte_f, write_word_f, push_word_f, pop_word_f,
        fetch_byte_f, fetch_word_f, set_bc_f, set_de_f, set_hl_f, inc_8bit_f,
        dec_8bit_f, add_a_f, adc_a_f, sub_a_f, sbc_a_f, and_a_f, xor_a_f,
        or_a_f, cp_a_f, add_hl_f, set_reg8_f, ld_r_r_f, execute_cb_f]
                                        try first | exact h | rfl | omega
                                      · rw [if_neg hcnd]
                                        try simp only [set_flag_fnib_z, set_flag_fnib_n, set_flag_fnib_h, set_flag_fnib_c,
        set_af_fnib, write_byte_f, write_word_f, push_word_f, pop_word_f,
        fetch_byte_f, fetch_word_f, set_bc_f, set_de_f, set_hl_f, inc_8bit_f,
        dec_8bit_f, add_a_f, adc_a_f, sub_a_f, sbc_a_f, and_a_f, xor_a_f,
        or_a_f, cp_a_f, add_hl_f, set_reg8_f, ld_r_r_f, execute_cb_f]
                                        try first | exact h | rfl | omega
                                    · rw [if_neg h17]
                                      by_cases h18 : opcode = 0xCB
                                      · rw [if_pos h18]
                                        try simp only [set_flag_fnib_z, set_flag_fnib_n, set_flag_fnib_h, set_flag_fnib_c,
        set_af_fnib, write_byte_f, write_word_f, push_word_f, pop_word_f,
        fetch_byte_f, fetch_word_f, set_bc_f, set_de_f, set_hl_f, inc_8bit_f,
        dec_8bit_f, add_a_f, adc_a_f, sub_a_f, sbc_a_f, and_a_f, xor_a_f,
        or_a_f, cp_a_f, add_hl_f, set_reg8_f, ld_r_r_f, execute_cb_f]
                                        try first | exact h | rfl | omega
                                      · rw [if_neg h18]
                                        by_cases h19 : opcode = 0xCC
                                        · rw [if_pos h19]
                                          try simp only [set_flag_fnib_z, set_flag_fnib_n, set_flag_fnib_h, set_flag_fnib_c,
        set_af_fnib, write_byte_f, write_word_f, push_word_f, pop_word_f,
        fetch_byte_f, fetch_word_f, set_bc_f, set_de_f, set_hl_f, inc_8bit_f,
        dec_8bit_f, add_a_f, adc_a_f, sub_a_f, sbc_a_f, and_a_f, xor_a_f,
        or_a_f, cp_a_f, add_hl_f, set_reg8_f, ld_r_r_f, execute_cb_f]
                                          by_cases hcnd : get_flag (fetch_word s).1 FLAG_Z ≠ 0
                                          · rw [if_pos hcnd]
                                            try simp only [set_flag_fnib_z, set_flag_fnib_n, set_flag_fnib_h, set_flag_fnib_c,
        set_af_fnib, write_byte_f, write_word_f, push_word_f, pop_word_f,
        fetch_byte_f, fetch_word_f, set_bc_f, set_de_f, set_hl_f, inc_8bit_f,
        dec_8bit_f, add_a_f, adc_a_f, sub_a_f, sbc_a_f, and_a_f, xor_a_f,
        or_a_f, cp_a_f, add_hl_f, set_reg8_f, ld_r_r_f, execute_cb_f]
                                            try first | exact h | rfl | omega
                                          · rw [if_neg hcnd]
                                            try simp only [set_flag_fnib_z, set_flag_fnib_n, set_flag_fnib_h, set_flag_fnib_c,
        set_af_fnib, write_byte_f, write_word_f, push_word_f, pop_word_f,
        fetch_byte_f, fetch_word_f, set_bc_f, set_de_f, set_hl_f, inc_8bit_f,
        dec_8bit_f, add_a_f, adc_a_f, sub_a_f, sbc_a_f, and_a_f, xor_a_f,
        or_a_f, cp_a_f, add_hl_f, set_reg8_f, ld_r_r_f, execute_cb_f]
                                            try first | exact h | rfl | omega
                                        · rw [if_neg h19]
                                          by_cases h20 : opcode = 0xCD
                                          · rw [if_pos h20]
                                            try simp only [set_flag_fnib_z, set_flag_fnib_n, set_flag_fnib_h, set_flag_fnib_c,
        set_af_fnib, write_byte_f, write_word_f, push_word_f, pop_word_f,
        fetch_byte_f, fetch_word_f, set_bc_f, set_de_f, set_hl_f, inc_8bit_f,
        dec_8bit_f, add_a_f, adc_a_f, sub_a_f, sbc_a_f, and_a_f, xor_a_f,
        or_a_f, cp_a_f, add_hl_f, set_reg8_f, ld_r_r_f, execute_cb_f]
                                            try first | exact h | rfl | omega
                                          · rw [if_neg h20]
                                            by_cases h21 : opcode = 0xCE
                                            · rw [if_pos h21]
                                              try simp only [set_flag_fnib_z, set_flag_fnib_n, set_flag_fnib_h, set_flag_fnib_c,
        set_af_fnib, write_byte_f, write_word_f, push_word_f, pop_word_f,
        fetch_byte_f, fetch_word_f, set_bc_f, set_de_f, set_hl_f, inc_8bit_f,
        dec_8bit_f, add_a_f, adc_a_f, sub_a_f, sbc_a_f, and_a_f, xor_a_f,
        or_a_f, cp_a_f, add_hl_f, set_reg8_f, ld_r_r_f, execute_cb_f]
                                              try first | exact h | rfl | omega
                                            · rw [if_neg h21]
                                              by_cases h22 : opcode = 0xD0
                                              · rw [if_pos h22]
                                                try simp only [set_flag_fnib_z, set_flag_fnib_n, set_flag_fnib_h, set_flag_fnib_c,
        set_af_fnib, write_byte_f, write_word_f, push_word_f, pop_word_f,
        fetch_byte_f, fetch_word_f, set_bc_f, set_de_f, set_hl_f, inc_8bit_f,
        dec_8bit_f, add_a_f, adc_a_f, sub_a_f, sbc_a_f, and_a_f, xor_a_f,
        or_a_f, cp_a_f, add_hl_f, set_reg8_f, ld_r_r_f, execute_cb_f]
                                                by_cases hcnd : get_flag s FLAG_C = 0
                                                · rw [if_pos hcnd]
                                                  try simp only [set_flag_fnib_z, set_flag_fnib_n, set_flag_fnib_h, set_flag_fnib_c,
        set_af_fnib, write_byte_f, write_word_f, push_word_f, pop_word_f,
        fetch_byte_f, fetch_word_f, set_bc_f, set_de_f, set_hl_f, inc_8bit_f,
        dec_8bit_f, add_a_f, adc_a_f, sub_a_f, sbc_a_f, and_a_f, xor_a_f,
        or_a_f, cp_a_f, add_hl_f, set_reg8_f, ld_r_r_f, execute_cb_f]
                                                  try first | exact h | rfl | omega
                                                · rw [if_neg hcnd]
                                                  try simp only [set_flag_fnib_z, set_flag_fnib_n, set_flag_fnib_h, set_flag_fnib_c,
        set_af_fnib, write_byte_f, write_word_f, push_word_f, pop_word_f,
        fetch_byte_f, fetch_word_f, set_bc_f, set_de_f, set_hl_f, inc_8bit_f,
        dec_8bit_f, add_a_f, adc_a_f, sub_a_f, sbc_a_f, and_a_f, xor_a_f,
        or_a_f, cp_a_f, add_hl_f, set_reg8_f, ld_r_r_f, execute_cb_f]
                                                  try first | exact h | rfl | omega
                                              · rw [if_neg h22]
                                                by_cases h23 : opcode = 0xD1
                                                · rw [if_pos h23]
                                                  try simp only [set_flag_fnib_z, set_flag_fnib_n, set_flag_fnib_h, set_flag_fnib_c,
        set_af_fnib, write_byte_f, write_word_f, push_word_f, pop_word_f,
        fetch_byte_f, fetch_word_f, set_bc_f, set_de_f, set_hl_f, inc_8bit_f,
        dec_8bit_f, add_a_f, adc_a_f, sub_a_f, sbc_a_f, and_a_f, xor_a_f,
        or_a_f, cp_a_f, add_hl_f, set_reg8_f, ld_r_r_f, execute_cb_f]
                                                  try first | exact h | rfl | omega
                                                · rw [if_neg h23]
                                                  by_cases h24 : opcode = 0xD2
                                                  · rw [if_pos h24]
                                                    try simp only [set_flag_fnib_z, set_flag_fnib_n, set_flag_fnib_h, set_flag_fnib_c,
        set_af_fnib, write_byte_f, write_word_f, push_word_f, pop_word_f,
        fetch_byte_f, fetch_word_f, set_bc_f, set_de_f, set_hl_f, inc_8bit_f,
        dec_8bit_f, add_a_f, adc_a_f, sub_a_f, sbc_a_f, and_a_f, xor_a_f,
        or_a_f, cp_a_f, add_hl_f, set_reg8_f, ld_r_r_f, execute_cb_f]
                                                    by_cases hcnd : get_flag (fetch_word s).1 FLAG_C = 0
                                                    · rw [if_pos hcnd]
                                                      try simp only [set_flag_fnib_z, set_flag_fnib_n, set_flag_fnib_h, set_flag_fnib_c,
        set_af_fnib, write_byte_f, write_word_f, push_word_f, pop_word_f,
        fetch_byte_f, fetch_word_f, set_bc_f, set_de_f, set_hl_f, inc_8bit_f,
        dec_8bit_f, add_a_f, adc_a_f, sub_a_f, sbc_a_f, and_a_f, xor_a_f,
        or_a_f, cp_a_f, add_hl_f, set_reg8_f, ld_r_r_f, execute_cb_f]
                                                      try first | exact h | rfl | omega
                                                    · rw [if_neg hcnd]
                                                      try simp only [set_flag_fnib_z, set_flag_fnib_n, set_flag_fnib_h, set_flag_fnib_c,
        set_af_fnib, write_byte_f, write_word_f, push_word_f, pop_word_f,
        fetch_byte_f, fetch_word_f, set_bc_f, set_de_f, set_hl_f, inc_8bit_f,
        dec_8bit_f, add_a_f, adc_a_f, sub_a_f, sbc_a_f, and_a_f, xor_a_f,
        or_a_f, cp_a_f, add_hl_f, set_reg8_f, ld_r_r_f, execute_cb_f]
                                                      try first | exact h | rfl | omega
                                                  · rw [if_neg h24]
                                                    by_cases h25 : opcode = 0xD4
                                                    · rw [if_pos h25]
                                                      try simp only [set_flag_fnib_z, set_flag_fnib_n, set_flag_fnib_h, set_flag_fnib_c,
        set_af_fnib, write_byte_f, write_word_f, push_word_f, pop_word_f,
        fetch_byte_f, fetch_word_f, set_bc_f, set_de_f, set_hl_f, inc_8bit_f,
        dec_8bit_f, add_a_f, adc_a_f, sub_a_f, sbc_a_f, and_a_f, xor_a_f,
        or_a_f, cp_a_f, add_hl_f, set_reg8_f, ld_r_r_f, execute_cb_f]
                                                      by_cases hcnd : get_flag (fetch_word s).1 FLAG_C = 0
                                                      · rw [if_pos hcnd]
                                                        try simp only [set_flag_fnib_z, set_flag_fnib_n, set_flag_fnib_h, set_flag_fnib_c,
        set_af_fnib, write_byte_f, write_word_f, push_word_f, pop_word_f,
        fetch_byte_f, fetch_word_f, set_bc_f, set_de_f, set_hl_f, inc_8bit_f,
        dec_8bit_f, add_a_f, adc_a_f, sub_a_f, sbc_a_f, and_a_f, xor_a_f,
        or_a_f, cp_a_f, add_hl_f, set_reg8_f, ld_r_r_f, execute_cb_f]
                                                        try first | exact h | rfl | omega
                                                      · rw [if_neg hcnd]
                                                        try simp only [set_flag_fnib_z, set_flag_fnib_n, set_flag_fnib_h, set_flag_fnib_c,
        set_af_fnib, write_byte_f, write_word_f, push_word_f, pop_word_f,
        fetch_byte_f, fetch_word_f, set_bc_f, set_de_f, set_hl_f, inc_8bit_f,
        dec_8bit_f, add_a_f, adc_a_f, sub_a_f, sbc_a_f, and_a_f, xor_a_f,
        or_a_f, cp_a_f, add_hl_f, set_reg8_f, ld_r_r_f, execute_cb_f]
                                                        try first | exact h | rfl | omega
                                                    · rw [if_neg h25]
                                                      by_cases h26 : opcode = 0xD5
                                                      · rw [if_pos h26]
                                                        try simp only [set_flag_fnib_z, set_flag_fnib_n, set_flag_fnib_h, set_flag_fnib_c,
        set_af_fnib, write_byte_f, write_word_f, push_word_f, pop_word_f,
        fetch_byte_f, fetch_word_f, set_bc_f, set_de_f, set_hl_f, inc_8bit_f,
        dec_8bit_f, add_a_f, adc_a_f, sub_a_f, sbc_a_f, and_a_f, xor_a_f,
        or_a_f, cp_a_f, add_hl_f, set_reg8_f, ld_r_r_f, execute_cb_f]
                                                        try first | exact h | rfl | omega
                                                      · rw [if_neg h26]
                                                        by_cases h27 : opcode = 0xD6
                                                        · rw [if_pos h27]
                                                          try simp only [set_flag_fnib_z, set_flag_fnib_n, set_flag_fnib_h, set_flag_fnib_c,
        set_af_fnib, write_byte_f, write_word_f, push_word_f, pop_word_f,
        fetch_byte_f, fetch_word_f, set_bc_f, set_de_f, set_hl_f, inc_8bit_f,
        dec_8bit_f, add_a_f, adc_a_f, sub_a_f, sbc_a_f, and_a_f, xor_a_f,
        or_a_f, cp_a_f, add_hl_f, set_reg8_f, ld_r_r_f, execute_cb_f]
                                                          try first | exact h | rfl | omega
                                                        · rw [if_neg h27]
                                                          by_cases h28 : opcode = 0xD8
                                                          · rw [if_pos h28]
                                                            try simp only [set_flag_fnib_z, set_flag_fnib_n, set_flag_fnib_h, set_flag_fnib_c,
        set_af_fnib, write_byte_f, write_word_f, push_word_f, pop_word_f,
        fetch_byte_f, fetch_word_f, set_bc_f, set_de_f, set_hl_f, inc_8bit_f,
        dec_8bit_f, add_a_f, adc_a_f, sub_a_f, sbc_a_f, and_a_f, xor_a_f,
        or_a_f, cp_a_f, add_hl_f, set_reg8_f, ld_r_r_f, execute_cb_f]
                                                            by_cases hcnd : get_flag s FLAG_C ≠ 0
                                                            · rw [if_pos hcnd]
                                                              try simp only [set_flag_fnib_z, set_flag_fnib_n, set_flag_fnib_h, set_flag_fnib_c,
        set_af_fnib, write_byte_f, write_word_f, push_word_f, pop_word_f,
        fetch_byte_f, fetch_word_f, set_bc_f, set_de_f, set_hl_f, inc_8bit_f,
        dec_8bit_f, add_a_f, adc_a_f, sub_a_f, sbc_a_f, and_a_f, xor_a_f,
        or_a_f, cp_a_f, add_hl_f, set_reg8_f, ld_r_r_f, execute_cb_f]
                                                              try first | exact h | rfl | omega
                                                            · rw [if_neg hcnd]
                                                              try simp only [set_flag_fnib_z, set_flag_fnib_n, set_flag_fnib_h, set_flag_fnib_c,
        set_af_fnib, write_byte_f, write_word_f, push_word_f, pop_word_f,
        fetch_byte_f, fetch_word_f, set_bc_f, set_de_f, set_hl_f, inc_8bit_f,
        dec_8bit_f, add_a_f, adc_a_f, sub_a_f, sbc_a_f, and_a_f, xor_a_f,
        or_a_f, cp_a_f, add_hl_f, set_reg8_f, ld_r_r_f, execute_cb_f]
                                                              try first | exact h | rfl | omega
                                                          · rw [if_neg h28]
                                                            by_cases h29 : opcode = 0xD9
                                                            · rw [if_pos h29]
                                                              try simp only [set_flag_fnib_z, set_flag_fnib_n, set_flag_fnib_h, set_flag_fnib_c,
        set_af_fnib, write_byte_f, write_word_f, push_word_f, pop_word_f,
        fetch_byte_f, fetch_word_f, set_bc_f, set_de_f, set_hl_f, inc_8bit_f,
        dec_8bit_f, add_a_f, adc_a_f, sub_a_f, sbc_a_f, and_a_f, xor_a_f,
        or_a_f, cp_a_f, add_hl_f, set_reg8_f, ld_r_r_f, execute_cb_f]
                                                              try first | exact h | rfl | omega
                                                            · rw [if_neg h29]
                                                              by_cases h30 : opcode = 0xDA
                                                              · rw [if_pos h30]
                                                                try simp only [set_flag_fnib_z, set_flag_fnib_n, set_flag_fnib_h, set_flag_fnib_c,
        set_af_fnib, write_byte_f, write_word_f, push_word_f, pop_word_f,
        fetch_byte_f, fetch_word_f, set_bc_f, set_de_f, set_hl_f, inc_8bit_f,
        dec_8bit_f, add_a_f, adc_a_f, sub_a_f, sbc_a_f, and_a_f, xor_a_f,
        or_a_f, cp_a_f, add_hl_f, set_reg8_f, ld_r_r_f, execute_cb_f]
                                                                by_cases hcnd : get_flag (fetch_word s).1 FLAG_C ≠ 0
                                                                · rw [if_pos hcnd]
                                                                  try simp only [set_flag_fnib_z, set_flag_fnib_n, set_flag_fnib_h, set_flag_fnib_c,
        set_af_fnib, write_byte_f, write_word_f, push_word_f, pop_word_f,
        fetch_byte_f, fetch_word_f, set_bc_f, set_de_f, set_hl_f, inc_8bit_f,
        dec_8bit_f, add_a_f, adc_a_f, sub_a_f, sbc_a_f, and_a_f, xor_a_f,
        or_a_f, cp_a_f, add_hl_f, set_reg8_f, ld_r_r_f, execute_cb_f]
                                                                  try first | exact h | rfl | omega
                                                                · rw [if_neg hcnd]
                                                                  try simp only [set_flag_fnib_z, set_flag_fnib_n, set_flag_fnib_h, set_flag_fnib_c,
        set_af_fnib, write_byte_f, write_word_f, push_word_f, pop_word_f,
        fetch_byte_f, fetch_word_f, set_bc_f, set_de_f, set_hl_f, inc_8bit_f,
        dec_8bit_f, add_a_f, adc_a_f, sub_a_f, sbc_a_f, and_a_f, xor_a_f,
        or_a_f, cp_a_f, add_hl_f, set_reg8_f, ld_r_r_f, execute_cb_f]
                                                                  try first | exact h | rfl | omega
                                                              · rw [if_neg h30]
                                                                by_cases h31 : opcode = 0xDC
                                                                · rw [if_pos h31]
                                                                  try simp only [set_flag_fnib_z, set_flag_fnib_n, set_flag_fnib_h, set_flag_fnib_c,
        set_af_fnib, write_byte_f, write_word_f, push_word_f, pop_word_f,
        fetch_byte_f, fetch_word_f, set_bc_f, set_de_f, set_hl_f, inc_8bit_f,
        dec_8bit_f, add_a_f, adc_a_f, sub_a_f, sbc_a_f, and_a_f, xor_a_f,
        or_a_f, cp_a_f, add_hl_f, set_reg8_f, ld_r_r_f, execute_cb_f]
                                                                  by_cases hcnd : get_flag (fetch_word s).1 FLAG_C ≠ 0
                                                                  · rw [if_pos hcnd]
                                                                    try simp only [set_flag_fnib_z, set_flag_fnib_n, set_flag_fnib_h, set_flag_fnib_c,
        set_af_fnib, write_byte_f, write_word_f, push_word_f, pop_word_f,
        fetch_byte_f, fetch_word_f, set_bc_f, set_de_f, set_hl_f, inc_8bit_f,
        dec_8bit_f, add_a_f, adc_a_f, sub_a_f, sbc_a_f, and_a_f, xor_a_f,
        or_a_f, cp_a_f, add_hl_f, set_reg8_f, ld_r_r_f, execute_cb_f]
                                                                    try first | exact h | rfl | omega
                                                                  · rw [if_neg hcnd]
                                                                    try simp only [set_flag_fnib_z, set_flag_fnib_n, set_flag_fnib_h, set_flag_fnib_c,
        set_af_fnib, write_byte_f, write_word_f, push_word_f, pop_word_f,
        fetch_byte_f, fetch_word_f, set_bc_f, set_de_f, set_hl_f, inc_8bit_f,
        dec_8bit_f, add_a_f, adc_a_f, sub_a_f, sbc_a_f, and_a_f, xor_a_f,
        or_a_f, cp_a_f, add_hl_f, set_reg8_f, ld_r_r_f, execute_cb_f]
                                                                    try first | exact h | rfl | omega
                                                                · rw [if_neg h31]
                                                                  by_cases h32 : opcode = 0xDE
                                                                  · rw [if_pos h32]
                                                                    try simp only [set_flag_fnib_z, set_flag_fnib_n, set_flag_fnib_h, set_flag_fnib_c,
        set_af_fnib, write_byte_f, write_word_f, push_word_f, pop_word_f,
        fetch_byte_f, fetch_word_f, set_bc_f, set_de_f, set_hl_f, inc_8bit_f,
        dec_8bit_f, add_a_f, adc_a_f, sub_a_f, sbc_a_f, and_a_f, xor_a_f,
        or_a_f, cp_a_f, add_hl_f, set_reg8_f, ld_r_r_f, execute_cb_f]
                                                                    try first | exact h | rfl | omega
                                                                  · rw [if_neg h32]
                                                                    by_cases h33 : opcode = 0xE0
                                                                    · rw [if_pos h33]
                                                                      try simp only [set_flag_fnib_z, set_flag_fnib_n, set_flag_fnib_h, set_flag_fnib_c,
        set_af_fnib, write_byte_f, write_word_f, push_word_f, pop_word_f,
        fetch_byte_f, fetch_word_f, set_bc_f, set_de_f, set_hl_f, inc_8bit_f,
        dec_8bit_f, add_a_f, adc_a_f, sub_a_f, sbc_a_f, and_a_f, xor_a_f,
        or_a_f, cp_a_f, add_hl_f, set_reg8_f, ld_r_r_f, execute_cb_f]
                                                                      try first | exact h | rfl | omega
                                                                    · rw [if_neg h33]
                                                                      by_cases h34 : opcode = 0xE1
                                                                      · rw [if_pos h34]
                                                                        try simp only [set_flag_fnib_z, set_flag_fnib_n, set_flag_fnib_h, set_flag_fnib_c,
        set_af_fnib, write_byte_f, write_word_f, push_word_f, pop_word_f,
        fetch_byte_f, fetch_word_f, set_bc_f, set_de_f, set_hl_f, inc_8bit_f,
        dec_8bit_f, add_a_f, adc_a_f, sub_a_f, sbc_a_f, and_a_f, xor_a_f,
        or_a_f, cp_a_f, add_hl_f, set_reg8_f, ld_r_r_f, execute_cb_f]
                                                                        try first | exact h | rfl | omega
                                                                      · rw [if_neg h34]
                                                                        by_cases h35 : opcode = 0xE2
                                                                        · rw [if_pos h35]
                                                                          try simp only [set_flag_fnib_z, set_flag_fnib_n, set_flag_fnib_h, set_flag_fnib_c,
        set_af_fnib, write_byte_f, write_word_f, push_word_f, pop_word_f,
        fetch_byte_f, fetch_word_f, set_bc_f, set_de_f, set_hl_f, inc_8bit_f,
        dec_8bit_f, add_a_f, adc_a_f, sub_a_f, sbc_a_f, and_a_f, xor_a_f,
        or_a_f, cp_a_f, add_hl_f, set_reg8_f, ld_r_r_f, execute_cb_f]
                                                                          try first | exact h | rfl | omega
                                                                        · rw [if_neg h35]
                                                                          by_cases h36 : opcode = 0xE5
                                                                          · rw [if_pos h36]
                                                                            try simp only [set_flag_fnib_z, set_flag_fnib_n, set_flag_fnib_h, set_flag_fnib_c,
        set_af_fnib, write_byte_f, write_word_f, push_word_f, pop_word_f,
        fetch_byte_f, fetch_word_f, set_bc_f, set_de_f, set_hl_f, inc_8bit_f,
        dec_8bit_f, add_a_f, adc_a_f, sub_a_f, sbc_a_f, and_a_f, xor_a_f,
        or_a_f, cp_a_f, add_hl_f, set_reg8_f, ld_r_r_f, execute_cb_f]
                                                                            try first | exact h | rfl | omega
                                                                          · rw [if_neg h36]
                                                                            by_cases h37 : opcode = 0xE6
                                                                            · rw [if_pos h37]
                                                                              try simp only [set_flag_fnib_z, set_flag_fnib_n, set_flag_fnib_h, set_flag_fnib_c,
        set_af_fnib, write_byte_f, write_word_f, push_word_f, pop_word_f,
        fetch_byte_f, fetch_word_f, set_bc_f, set_de_f, set_hl_f, inc_8bit_f,
        dec_8bit_f, add_a_f, adc_a_f, sub_a_f, sbc_a_f, and_a_f, xor_a_f,
        or_a_f, cp_a_f, add_hl_f, set_reg8_f, ld_r_r_f, execute_cb_f]
                                                                              try first | exact h | rfl | omega
                                                                            · rw [if_neg h37]
                                                                              by_cases h38 : opcode = 0xE9
                                                                              · rw [if_pos h38]
                                                                                try simp only [set_flag_fnib_z, set_flag_fnib_n, set_flag_fnib_h, set_flag_fnib_c,
        set_af_fnib, write_byte_f, write_word_f, push_word_f, pop_word_f,
        fetch_byte_f, fetch_word_f, set_bc_f, set_de_f, set_hl_f, inc_8bit_f,
        dec_8bit_f, add_a_f, adc_a_f, sub_a_f, sbc_a_f, and_a_f, xor_a_f,
        or_a_f, cp_a_f, add_hl_f, set_reg8_f, ld_r_r_f, execute_cb_f]
                                                                                try first | exact h | rfl | omega
                                                                              · rw [if_neg h38]
                                                                                by_cases h39 : opcode = 0xEA
                                                                                · rw [if_pos h39]
                                                                                  try simp only [set_flag_fnib_z, set_flag_fnib_n, set_flag_fnib_h, set_flag_fnib_c,
        set_af_fnib, write_byte_f, write_word_f, push_word_f, pop_word_f,
        fetch_byte_f, fetch_word_f, set_bc_f, set_de_f, set_hl_f, inc_8bit_f,
        dec_8bit_f, add_a_f, adc_a_f, sub_a_f, sbc_a_f, and_a_f, xor_a_f,
        or_a_f, cp_a_f, add_hl_f, set_reg8_f, ld_r_r_f, execute_cb_f]
                                                                                  try first | exact h | rfl | omega
                                                                                · rw [if_neg h39]
                                                                                  by_cases h40 : opcode = 0xEE
                                                                                  · rw [if_pos h40]
                                                                                    try simp only [set_flag_fnib_z, set_flag_fnib_n, set_flag_fnib_h, set_flag_fnib_c,
        set_af_fnib, write_byte_f, write_word_f, push_word_f, pop_word_f,
        fetch_byte_f, fetch_word_f, set_bc_f, set_de_f, set_hl_f, inc_8bit_f,
        dec_8bit_f, add_a_f, adc_a_f, sub_a_f, sbc_a_f, and_a_f, xor_a_f,
        or_a_f, cp_a_f, add_hl_f, set_reg8_f, ld_r_r_f, execute_cb_f]
                                                                                    try first | exact h | rfl | omega
                                                                                  · rw [if_neg h40]
                                                                                    by_cases h41 : opcode = 0xF0
                                                                                    · rw [if_pos h41]
                                                                                      try simp only [set_flag_fnib_z, set_flag_fnib_n, set_flag_fnib_h, set_flag_fnib_c,
        set_af_fnib, write_byte_f, write_word_f, push_word_f, pop_word_f,
        fetch_byte_f, fetch_word_f, set_bc_f, set_de_f, set_hl_f, inc_8bit_f,
        dec_8bit_f, add_a_f, adc_a_f, sub_a_f, sbc_a_f, and_a_f, xor_a_f,
        or_a_f, cp_a_f, add_hl_f, set_reg8_f, ld_r_r_f, execute_cb_f]
                                                                                      try first | exact h | rfl | omega
                                                                                    · rw [if_neg h41]
                                                                                      by_cases h42 : opcode = 0xF1
                                                                                      · rw [if_pos h42]
                                                                                        try simp only [set_flag_fnib_z, set_flag_fnib_n, set_flag_fnib_h, set_flag_fnib_c,
        set_af_fnib, write_byte_f, write_word_f, push_word_f, pop_word_f,
        fetch_byte_f, fetch_word_f, set_bc_f, set_de_f, set_hl_f, inc_8bit_f,
        dec_8bit_f, add_a_f, adc_a_f, sub_a_f, sbc_a_f, and_a_f, xor_a_f,
        or_a_f, cp_a_f, add_hl_f, set_reg8_f, ld_r_r_f, execute_cb_f]
                                                                                        try first | exact h | rfl | omega
                                                                                      · rw [if_neg h42]
                                                                                        by_cases h43 : opcode = 0xF2
                                                                                        · rw [if_pos h43]
                                                                                          try simp only [set_flag_fnib_z, set_flag_fnib_n, set_flag_fnib_h, set_flag_fnib_c,
        set_af_fnib, write_byte_f, write_word_f, push_word_f, pop_word_f,
        fetch_byte_f, fetch_word_f, set_bc_f, set_de_f, set_hl_f, inc_8bit_f,
        dec_8bit_f, add_a_f, adc_a_f, sub_a_f, sbc_a_f, and_a_f, xor_a_f,
        or_a_f, cp_a_f, add_hl_f, set_reg8_f, ld_r_r_f, execute_cb_f]
                                                                                          try first | exact h | rfl | omega
                                                                                        · rw [if_neg h43]
                                                                                          by_cases h44 : opcode = 0xF3
                                                                                          · rw [if_pos h44]
                                                                                            try simp only [set_flag_fnib_z, set_flag_fnib_n, set_flag_fnib_h, set_flag_fnib_c,
        set_af_fnib, write_byte_f, write_word_f, push_word_f, pop_word_f,
        fetch_byte_f, fetch_word_f, set_bc_f, set_de_f, set_hl_f, inc_8bit_f,
        dec_8bit_f, add_a_f, adc_a_f, sub_a_f, sbc_a_f, and_a_f, xor_a_f,
        or_a_f, cp_a_f, add_hl_f, set_reg8_f, ld_r_r_f, execute_cb_f]
                                                                                            try first | exact h | rfl | omega
                                                                                          · rw [if_neg h44]
                                                                                            by_cases h45 : opcode = 0xF5
                                                                                            · rw [if_pos h45]
                                                                                              try simp only [set_flag_fnib_z, set_flag_fnib_n, set_flag_fnib_h, set_flag_fnib_c,
        set_af_fnib, write_byte_f, write_word_f, push_word_f, pop_word_f,
        fetch_byte_f, fetch_word_f, set_bc_f, set_de_f, set_hl_f, inc_8bit_f,
        dec_8bit_f, add_a_f, adc_a_f, sub_a_f, sbc_a_f, and_a_f, xor_a_f,
        or_a_f, cp_a_f, add_hl_f, set_reg8_f, ld_r_r_f, execute_cb_f]
                                                                                              try first | exact h | rfl | omega
                                                                                            · rw [if_neg h45]
                                                                                              by_cases h46 : opcode = 0xF6
                                                                                              · rw [if_pos h46]
                                                                                                try simp only [set_flag_fnib_z, set_flag_fnib_n, set_flag_fnib_h, set_flag_fnib_c,
        set_af_fnib, write_byte_f, write_word_f, push_word_f, pop_word_f,
        fetch_byte_f, fetch_word_f, set_bc_f, set_de_f, set_hl_f, inc_8bit_f,
        dec_8bit_f, add_a_f, adc_a_f, sub_a_f, sbc_a_f, and_a_f, xor_a_f,
        or_a_f, cp_a_f, add_hl_f, set_reg8_f, ld_r_r_f, execute_cb_f]
                                                                                                try first | exact h | rfl | omega
                                                                                              · rw [if_neg h46]
                                                                                                by_cases h47 : opcode = 0xFA
                                                                                                · rw [if_pos h47]
                                                                                                  try simp only [set_flag_fnib_z, set_flag_fnib_n, set_flag_fnib_h, set_flag_fnib_c,
        set_af_fnib, write_byte_f, write_word_f, push_word_f, pop_word_f,
        fetch_byte_f, fetch_word_f, set_bc_f, set_de_f, set_hl_f, inc_8bit_f,
        dec_8bit_f, add_a_f, adc_a_f, sub_a_f, sbc_a_f, and_a_f, xor_a_f,
        or_a_f, cp_a_f, add_hl_f, set_reg8_f, ld_r_r_f, execute_cb_f]
                                                                                                  try first | exact h | rfl | omega
                                                                                                · rw [if_neg h47]
                                                                                                  by_cases h48 : opcode = 0xFB
                                                                                                  · rw [if_pos h48]
                                                                                                    try simp only [set_flag_fnib_z, set_flag_fnib_n, set_flag_fnib_h, set_flag_fnib_c,
        set_af_fnib, write_byte_f, write_word_f, push_word_f, pop_word_f,
        fetch_byte_f, fetch_word_f, set_bc_f, set_de_f, set_hl_f, inc_8bit_f,
        dec_8bit_f, add_a_f, adc_a_f, sub_a_f, sbc_a_f, and_a_f, xor_a_f,
        or_a_f, cp_a_f, add_hl_f, set_reg8_f, ld_r_r_f, execute_cb_f]
                                                                                                    try first | exact h | rfl | omega
                                                                                                  · rw [if_neg h48]
                                                                                                    by_cases h49 : opcode = 0xFE
                                                                                                    · rw [if_pos h49]
                                                                                                      try simp only [set_flag_fnib_z, set_flag_fnib_n, set_flag_fnib_h, set_flag_fnib_c,
        set_af_fnib, write_byte_f, write_word_f, push_word_f, pop_word_f,
        fetch_byte_f, fetch_word_f, set_bc_f, set_de_f, set_hl_f, inc_8bit_f,
        dec_8bit_f, add_a_f, adc_a_f, sub_a_f, sbc_a_f, and_a_f, xor_a_f,
        or_a_f, cp_a_f, add_hl_f, set_reg8_f, ld_r_r_f, execute_cb_f]
                                                                                                      try first | exact h | rfl | omega
                                                                                                    · rw [if_neg h49]
                                                                                                      try simp only []
                                                                                                      try first | exact h | omega

/-- C10: every call to `CPU.execute_opcode` — conditional branches taken or
not, CB-prefixed opcodes, and the unimplemented default branch included —
increases the CPU cycle counter by at least 4, so each iteration of the
per-frame loop strictly advances `frame_cycles`. -/
theorem execute_opcode_cycles (s : S) (opcode : Nat) :
    s.cycles + 4 ≤ (execute_opcode s opcode).cycles := by
  unfold execute_opcode
  by_cases h0 : opcode = 0x00
  · rw [if_pos h0]
    try simp only [set_flag_cycles, set_bc_cycles, set_de_cycles, set_hl_cycles, set_af_cycles,
        write_byte_cycles, write_word_cycles, push_word_cycles, pop_word_cycles,
        fetch_byte_cycles, fetch_word_cycles, inc_8bit_cycles, dec_8bit_cycles,
        add_a_cycles, adc_a_cycles, sub_a_cycles, sbc_a_cycles, and_a_cycles,
        xor_a_cycles, or_a_cycles, cp_a_cycles, add_hl_cycles, set_reg8_cycles]
    try omega
  · rw [if_neg h0]
    by_cases h1 : opcode = 0x01
    · rw [if_pos h1]
      try simp only [set_flag_cycles, set_bc_cycles, set_de_cycles, set_hl_cycles, set_af_cycles,
        write_byte_cycles, write_word_cycles, push_word_cycles, pop_word_cycles,
        fetch_byte_cycles, fetch_word_cycles, inc_8bit_cycles, dec_8bit_cycles,
        add_a_cycles, adc_a_cycles, sub_a_cycles, sbc_a_cycles, and_a_cycles,
        xor_a_cycles, or_a_cycles, cp_a_cycles, add_hl_cycles, set_reg8_cycles]
      try omega
    · rw [if_neg h1]
      by_cases h2 : opcode = 0x02
      · rw [if_pos h2]
        try simp only [set_flag_cycles, set_bc_cycles, set_de_cycles, set_hl_cycles, set_af_cycles,
        write_byte_cycles, write_word_cycles, push_word_cycles, pop_word_cycles,
        fetch_byte_cycles, fetch_word_cycles, inc_8bit_cycles, dec_8bit_cycles,
        add_a_cycles, adc_a_cycles, sub_a_cycles, sbc_a_cycles, and_a_cycles,
        xor_a_cycles, or_a_cycles, cp_a_cycles, add_hl_cycles, set_reg8_cycles]
        try omega
      · rw [if_neg h2]
        by_cases h3 : opcode = 0x03
        · rw [if_pos h3]
          try simp only [set_flag_cycles, set_bc_cycles, set_de_cycles, set_hl_cycles, set_af_cycles,
        write_byte_cycles, write_word_cycles, push_word_cycles, pop_word_cycles,
        fetch_byte_cycles, fetch_word_cycles, inc_8bit_cycles, dec_8bit_cycles,
        add_a_cycles, adc_a_cycles, sub_a_cycles, sbc_a_cycles, and_a_cycles,
        xor_a_cycles, or_a_cycles, cp_a_cycles, add_hl_cycles, set_reg8_cycles]
          try omega
        · rw [if_neg h3]
          by_cases h4 : opcode = 0x04
          · rw [if_pos h4]
            try simp only [set_flag_cycles, set_bc_cycles, set_de_cycles, set_hl_cycles, set_af_cycles,
        write_byte_cycles, write_word_cycles, push_word_cycles, pop_word_cycles,
        fetch_byte_cycles, fetch_word_cycles, inc_8bit_cycles, dec_8bit_cycles,
        add_a_cycles, adc_a_cycles, sub_a_cycles, sbc_a_cycles, and_a_cycles,
        xor_a_cycles, or_a_cycles, cp_a_cycles, add_hl_cycles, set_reg8_cycles]
            try omega
          · rw [if_neg h4]
            by_cases h5 : opcode = 0x05
            · rw [if_pos h5]
              try simp only [set_flag_cycles, set_bc_cycles, set_de_cycles, set_hl_cycles, set_af_cycles,
        write_byte_cycles, write_word_cycles, push_word_cycles, pop_word_cycles,
        fetch_byte_cycles, fetch_word_cycles, inc_8bit_cycles, dec_8bit_cycles,
        add_a_cycles, adc_a_cycles, sub_a_cycles, sbc_a_cycles, and_a_cycles,
        xor_a_cycles, or_a_cycles, cp_a_cycles, add_hl_cycles, set_reg8_cycles]
              try omega
            · rw [if_neg h5]
              by_cases h6 : opcode = 0x06
              · rw [if_pos h6]
                try simp only [set_flag_cycles, set_bc_cycles, set_de_cycles, set_hl_cycles, set_af_cycles,
        write_byte_cycles, write_word_cycles, push_word_cycles, pop_word_cycles,
        fetch_byte_cycles, fetch_word_cycles, inc_8bit_cycles, dec_8bit_cycles,
        add_a_cycles, adc_a_cycles, sub_a_cycles, sbc_a_cycles, and_a_cycles,
        xor_a_cycles, or_a_cycles, cp_a_cycles, add_hl_cycles, set_reg8_cycles]
                try omega
              · rw [if_neg h6]
                by_cases h7 : opcode = 0x07
                · rw [if_pos h7]
                  try simp only [set_flag_cycles, set_bc_cycles, set_de_cycles, set_hl_cycles, set_af_cycles,
        write_byte_cycles, write_word_cycles, push_word_cycles, pop_word_cycles,
        fetch_byte_cycles, fetch_word_cycles, inc_8bit_cycles, dec_8bit_cycles,
        add_a_cycles, adc_a_cycles, sub_a_cycles, sbc_a_cycles, and_a_cycles,
        xor_a_cycles, or_a_cycles, cp_a_cycles, add_hl_cycles, set_reg8_cycles]
                  try omega
                · rw [if_neg h7]
                  by_cases h8 : opcode = 0x08
                  · rw [if_pos h8]
                    try simp only [set_flag_cycles, set_bc_cycles, set_de_cycles, set_hl_cycles, set_af_cycles,
        write_byte_cycles, write_word_cycles, push_word_cycles, pop_word_cycles,
        fetch_byte_cycles, fetch_word_cycles, inc_8bit_cycles, dec_8bit_cycles,
        add_a_cycles, adc_a_cycles, sub_a_cycles, sbc_a_cycles, and_a_cycles,
        xor_a_cycles, or_a_cycles, cp_a_cycles, add_hl_cycles, set_reg8_cycles]
                    try omega
                  · rw [if_neg h8]
                    by_cases h9 : opcode = 0x09
                    · rw [if_pos h9]
                      try simp only [set_flag_cycles, set_bc_cycles, set_de_cycles, set_hl_cycles, set_af_cycles,
        write_byte_cycles, write_word_cycles, push_word_cycles, pop_word_cycles,
        fetch_byte_cycles, fetch_word_cycles, inc_8bit_cycles, dec_8bit_cycles,
        add_a_cycles, adc_a_cycles, sub_a_cycles, sbc_a_cycles, and_a_cycles,
        xor_a_cycles, or_a_cycles, cp_a_cycles, add_hl_cycles, set_reg8_cycles]
                      try omega
                    · rw [if_neg h9]
                      by_cases h10 : opcode = 0x0A
                      · rw [if_pos h10]
                        try simp only [set_flag_cycles, set_bc_cycles, set_de_cycles, set_hl_cycles, set_af_cycles,
        write_byte_cycles, write_word_cycles, push_word_cycles, pop_word_cycles,
        fetch_byte_cycles, fetch_word_cycles, inc_8bit_cycles, dec_8bit_cycles,
        add_a_cycles, adc_a_cycles, sub_a_cycles, sbc_a_cycles, and_a_cycles,
        xor_a_cycles, or_a_cycles, cp_a_cycles, add_hl_cycles, set_reg8_cycles]
                        try omega
                      · rw [if_neg h10]
                        by_cases h11 : opcode = 0x0B
                        · rw [if_pos h11]
                          try simp only [set_flag_cycles, set_bc_cycles, set_de_cycles, set_hl_cycles, set_af_cycles,
        write_byte_cycles, write_word_cycles, push_word_cycles, pop_word_cycles,
        fetch_byte_cycles, fetch_word_cycles, inc_8bit_cycles, dec_8bit_cycles,
        add_a_cycles, adc_a_cycles, sub_a_cycles, sbc_a_cycles, and_a_cycles,
        xor_a_cycles, or_a_cycles, cp_a_cycles, add_hl_cycles, set_reg8_cycles]
                          try omega
                        · rw [if_neg h11]
                          by_cases h12 : opcode = 0x0C
                          · rw [if_pos h12]
                            try simp only [set_flag_cycles, set_bc_cycles, set_de_cycles, set_hl_cycles, set_af_cycles,
        write_byte_cycles, write_word_cycles, push_word_cycles, pop_word_cycles,
        fetch_byte_cycles, fetch_word_cycles, inc_8bit_cycles, dec_8bit_cycles,
        add_a_cycles, adc_a_cycles, sub_a_cycles, sbc_a_cycles, and_a_cycles,
        xor_a_cycles, or_a_cycles, cp_a_cycles, add_hl_cycles, set_reg8_cycles]
                            try omega
                          · rw [if_neg h12]
                            by_cases h13 : opcode = 0x0D
                            · rw [if_pos h13]
                              try simp only [set_flag_cycles, set_bc_cycles, set_de_cycles, set_hl_cycles, set_af_cycles,
        write_byte_cycles, write_word_cycles, push_word_cycles, pop_word_cycles,
        fetch_byte_cycles, fetch_word_cycles, inc_8bit_cycles, dec_8bit_cycles,
        add_a_cycles, adc_a_cycles, sub_a_cycles, sbc_a_cycles, and_a_cycles,
        xor_a_cycles, or_a_cycles, cp_a_cycles, add_hl_cycles, set_reg8_cycles]
                              try omega
                            · rw [if_neg h13]
                              by_cases h14 : opcode = 0x0E
                              · rw [if_pos h14]
                                try simp only [set_flag_cycles, set_bc_cycles, set_de_cycles, set_hl_cycles, set_af_cycles,
        write_byte_cycles, write_word_cycles, push_word_cycles, pop_word_cycles,
        fetch_byte_cycles, fetch_word_cycles, inc_8bit_cycles, dec_8bit_cycles,
        add_a_cycles, adc_a_cycles, sub_a_cycles, sbc_a_cycles, and_a_cycles,
        xor_a_cycles, or_a_cycles, cp_a_cycles, add_hl_cycles, set_reg8_cycles]
                                try omega
                              · rw [if_neg h14]
                                by_cases h15 : opcode = 0x0F
                                · rw [if_pos h15]
                                  try simp only [set_flag_cycles, set_bc_cycles, set_de_cycles, set_hl_cycles, set_af_cycles,
        write_byte_cycles, write_word_cycles, push_word_cycles, pop_word_cycles,
        fetch_byte_cycles, fetch_word_cycles, inc_8bit_cycles, dec_8bit_cycles,
        add_a_cycles, adc_a_cycles, sub_a_cycles, sbc_a_cycles, and_a_cycles,
        xor_a_cycles, or_a_cycles, cp_a_cycles, add_hl_cycles, set_reg8_cycles]
                                  try omega
                                · rw [if_neg h15]
                                  by_cases h16 : opcode = 0x11
                                  · rw [if_pos h16]
                                    try simp only [set_flag_cycles, set_bc_cycles, set_de_cycles, set_hl_cycles, set_af_cycles,
        write_byte_cycles, write_word_cycles, push_word_cycles, pop_word_cycles,
        fetch_byte_cycles, fetch_word_cycles, inc_8bit_cycles, dec_8bit_cycles,
        add_a_cycles, adc_a_cycles, sub_a_cycles, sbc_a_cycles, and_a_cycles,
        xor_a_cycles, or_a_cycles, cp_a_cycles, add_hl_cycles, set_reg8_cycles]
                                    try omega
                                  · rw [if_neg h16]
                                    by_cases h17 : opcode = 0x12
                                    · rw [if_pos h17]
                                      try simp only [set_flag_cycles, set_bc_cycles, set_de_cycles, set_hl_cycles, set_af_cycles,
        write_byte_cycles, write_word_cycles, push_word_cycles, pop_word_cycles,
        fetch_byte_cycles, fetch_word_cycles, inc_8bit_cycles, dec_8bit_cycles,
        add_a_cycles, adc_a_cycles, sub_a_cycles, sbc_a_cycles, and_a_cycles,
        xor_a_cycles, or_a_cycles, cp_a_cycles, add_hl_cycles, set_reg8_cycles]
                                      try omega
                                    · rw [if_neg h17]
                                      by_cases h18 : opcode = 0x13
                                      · rw [if_pos h18]
                                        try simp only [set_flag_cycles, set_bc_cycles, set_de_cycles, set_hl_cycles, set_af_cycles,
        write_byte_cycles, write_word_cycles, push_word_cycles, pop_word_cycles,
        fetch_byte_cycles, fetch_word_cycles, inc_8bit_cycles, dec_8bit_cycles,
        add_a_cycles, adc_a_cycles, sub_a_cycles, sbc_a_cycles, and_a_cycles,
        xor_a_cycles, or_a_cycles, cp_a_cycles, add_hl_cycles, set_reg8_cycles]
                                        try omega
                                      · rw [if_neg h18]
                                        by_cases h19 : opcode = 0x14
                                        · rw [if_pos h19]
                                          try simp only [set_flag_cycles, set_bc_cycles, set_de_cycles, set_hl_cycles, set_af_cycles,
        write_byte_cycles, write_word_cycles, push_word_cycles, pop_word_cycles,
        fetch_byte_cycles, fetch_word_cycles, inc_8bit_cycles, dec_8bit_cycles,
        add_a_cycles, adc_a_cycles, sub_a_cycles, sbc_a_cycles, and_a_cycles,
        xor_a_cycles, or_a_cycles, cp_a_cycles, add_hl_cycles, set_reg8_cycles]
                                          try omega
                                        · rw [if_neg h19]
                                          by_cases h20 : opcode = 0x15
                                          · rw [if_pos h20]
                                            try simp only [set_flag_cycles, set_bc_cycles, set_de_cycles, set_hl_cycles, set_af_cycles,
        write_byte_cycles, write_word_cycles, push_word_cycles, pop_word_cycles,
        fetch_byte_cycles, fetch_word_cycles, inc_8bit_cycles, dec_8bit_cycles,
        add_a_cycles, adc_a_cycles, sub_a_cycles, sbc_a_cycles, and_a_cycles,
        xor_a_cycles, or_a_cycles, cp_a_cycles, add_hl_cycles, set_reg8_cycles]
                                            try omega
                                          · rw [if_neg h20]
                                            by_cases h21 : opcode = 0x16
                                            · rw [if_pos h21]
                                              try simp only [set_flag_cycles, set_bc_cycles, set_de_cycles, set_hl_cycles, set_af_cycles,
        write_byte_cycles, write_word_cycles, push_word_cycles, pop_word_cycles,
        fetch_byte_cycles, fetch_word_cycles, inc_8bit_cycles, dec_8bit_cycles,
        add_a_cycles, adc_a_cycles, sub_a_cycles, sbc_a_cycles, and_a_cycles,
        xor_a_cycles, or_a_cycles, cp_a_cycles, add_hl_cycles, set_reg8_cycles]
                                              try omega
                                            · rw [if_neg h21]
                                              by_cases h22 : opcode = 0x17
                                              · rw [if_pos h22]
                                                try simp only [set_flag_cycles, set_bc_cycles, set_de_cycles, set_hl_cycles, set_af_cycles,
        write_byte_cycles, write_word_cycles, push_word_cycles, pop_word_cycles,
        fetch_byte_cycles, fetch_word_cycles, inc_8bit_cycles, dec_8bit_cycles,
        add_a_cycles, adc_a_cycles, sub_a_cycles, sbc_a_cycles, and_a_cycles,
        xor_a_cycles, or_a_cycles, cp_a_cycles, add_hl_cycles, set_reg8_cycles]
                                                try omega
                                              · rw [if_neg h22]
                                                by_cases h23 : opcode = 0x18
                                                · rw [if_pos h23]
                                                  try simp only [set_flag_cycles, set_bc_cycles, set_de_cycles, set_hl_cycles, set_af_cycles,
        write_byte_cycles, write_word_cycles, push_word_cycles, pop_word_cycles,
        fetch_byte_cycles, fetch_word_cycles, inc_8bit_cycles, dec_8bit_cycles,
        add_a_cycles, adc_a_cycles, sub_a_cycles, sbc_a_cycles, and_a_cycles,
        xor_a_cycles, or_a_cycles, cp_a_cycles, add_hl_cycles, set_reg8_cycles]
                                                  try omega
                                                · rw [if_neg h23]
                                                  by_cases h24 : opcode = 0x19
                                                  · rw [if_pos h24]
                                                    try simp only [set_flag_cycles, set_bc_cycles, set_de_cycles, set_hl_cycles, set_af_cycles,
        write_byte_cycles, write_word_cycles, push_word_cycles, pop_word_cycles,
        fetch_byte_cycles, fetch_word_cycles, inc_8bit_cycles, dec_8bit_cycles,
        add_a_cycles, adc_a_cycles, sub_a_cycles, sbc_a_cycles, and_a_cycles,
        xor_a_cycles, or_a_cycles, cp_a_cycles, add_hl_cycles, set_reg8_cycles]
                                                    try omega
                                                  · rw [if_neg h24]
                                                    by_cases h25 : opcode = 0x1A
                                                    · rw [if_pos h25]
                                                      try simp only [set_flag_cycles, set_bc_cycles, set_de_cycles, set_hl_cycles, set_af_cycles,
        write_byte_cycles, write_word_cycles, push_word_cycles, pop_word_cycles,
        fetch_byte_cycles, fetch_word_cycles, inc_8bit_cycles, dec_8bit_cycles,
        add_a_cycles, adc_a_cycles, sub_a_cycles, sbc_a_cycles, and_a_cycles,
        xor_a_cycles, or_a_cycles, cp_a_cycles, add_hl_cycles, set_reg8_cycles]
                                                      try omega
                                                    · rw [if_neg h25]
                                                      by_cases h26 : opcode = 0x1B
                                                      · rw [if_pos h26]
                                                        try simp only [set_flag_cycles, set_bc_cycles, set_de_cycles, set_hl_cycles, set_af_cycles,
        write_byte_cycles, write_word_cycles, push_word_cycles, pop_word_cycles,
        fetch_byte_cycles, fetch_word_cycles, inc_8bit_cycles, dec_8bit_cycles,
        add_a_cycles, adc_a_cycles, sub_a_cycles, sbc_a_cycles, and_a_cycles,
        xor_a_cycles, or_a_cycles, cp_a_cycles, add_hl_cycles, set_reg8_cycles]
                                                        try omega
                                                      · rw [if_neg h26]
                                                        by_cases h27 : opcode = 0x1C
                                                        · rw [if_pos h27]
                                                          try simp only [set_flag_cycles, set_bc_cycles, set_de_cycles, set_hl_cycles, set_af_cycles,
        write_byte_cycles, write_word_cycles, push_word_cycles, pop_word_cycles,
        fetch_byte_cycles, fetch_word_cycles, inc_8bit_cycles, dec_8bit_cycles,
        add_a_cycles, adc_a_cycles, sub_a_cycles, sbc_a_cycles, and_a_cycles,
        xor_a_cycles, or_a_cycles, cp_a_cycles, add_hl_cycles, set_reg8_cycles]
                                                          try omega
                                                        · rw [if_neg h27]
                                                          by_cases h28 : opcode = 0x1D
                                                          · rw [if_pos h28]
                                                            try simp only [set_flag_cycles, set_bc_cycles, set_de_cycles, set_hl_cycles, set_af_cycles,
        write_byte_cycles, write_word_cycles, push_word_cycles, pop_word_cycles,
        fetch_byte_cycles, fetch_word_cycles, inc_8bit_cycles, dec_8bit_cycles,
        add_a_cycles, adc_a_cycles, sub_a_cycles, sbc_a_cycles, and_a_cycles,
        xor_a_cycles, or_a_cycles, cp_a_cycles, add_hl_cycles, set_reg8_cycles]
                                                            try omega
                                                          · rw [if_neg h28]
                                                            by_cases h29 : opcode = 0x1E
                                                            · rw [if_pos h29]
                                                              try simp only [set_flag_cycles, set_bc_cycles, set_de_cycles, set_hl_cycles, set_af_cycles,
        write_byte_cycles, write_word_cycles, push_word_cycles, pop_word_cycles,
        fetch_byte_cycles, fetch_word_cycles, inc_8bit_cycles, dec_8bit_cycles,
        add_a_cycles, adc_a_cycles, sub_a_cycles, sbc_a_cycles, and_a_cycles,
        xor_a_cycles, or_a_cycles, cp_a_cycles, add_hl_cycles, set_reg8_cycles]
                                                              try omega
                                                            · rw [if_neg h29]
                                                              by_cases h30 : opcode = 0x1F
                                                              · rw [if_pos h30]
                                                                try simp only [set_flag_cycles, set_bc_cycles, set_de_cycles, set_hl_cycles, set_af_cycles,
        write_byte_cycles, write_word_cycles, push_word_cycles, pop_word_cycles,
        fetch_byte_cycles, fetch_word_cycles, inc_8bit_cycles, dec_8bit_cycles,
        add_a_cycles, adc_a_cycles, sub_a_cycles, sbc_a_cycles, and_a_cycles,
        xor_a_cycles, or_a_cycles, cp_a_cycles, add_hl_cycles, set_reg8_cycles]
                                                                try omega
                                                              · rw [if_neg h30]
                                                                by_cases h31 : opcode = 0x20
                                                                · rw [if_pos h31]
                                                                  try simp only [set_flag_cycles, set_bc_cycles, set_de_cycles, set_hl_cycles, set_af_cycles,
        write_byte_cycles, write_word_cycles, push_word_cycles, pop_word_cycles,
        fetch_byte_cycles, fetch_word_cycles, inc_8bit_cycles, dec_8bit_cycles,
        add_a_cycles, adc_a_cycles, sub_a_cycles, sbc_a_cycles, and_a_cycles,
        xor_a_cycles, or_a_cycles, cp_a_cycles, add_hl_cycles, set_reg8_cycles]
                                                                  by_cases hcnd : get_flag (fetch_byte s).1 FLAG_Z = 0
                                                                  · rw [if_pos hcnd]
                                                                    try simp only [set_flag_cycles, set_bc_cycles, set_de_cycles, set_hl_cycles, set_af_cycles,
        write_byte_cycles, write_word_cycles, push_word_cycles, pop_word_cycles,
        fetch_byte_cycles, fetch_word_cycles, inc_8bit_cycles, dec_8bit_cycles,
        add_a_cycles, adc_a_cycles, sub_a_cycles, sbc_a_cycles, and_a_cycles,
        xor_a_cycles, or_a_cycles, cp_a_cycles, add_hl_cycles, set_reg8_cycles]
                                                                    try omega
                                                                  · rw [if_neg hcnd]
                                                                    try simp only [set_flag_cycles, set_bc_cycles, set_de_cycles, set_hl_cycles, set_af_cycles,
        write_byte_cycles, write_word_cycles, push_word_cycles, pop_word_cycles,
        fetch_byte_cycles, fetch_word_cycles, inc_8bit_cycles, dec_8bit_cycles,
        add_a_cycles, adc_a_cycles, sub_a_cycles, sbc_a_cycles, and_a_cycles,
        xor_a_cycles, or_a_cycles, cp_a_cycles, add_hl_cycles, set_reg8_cycles]
                                                                    try omega
                                                                · rw [if_neg h31]
                                                                  by_cases h32 : opcode = 0x21
                                                                  · rw [if_pos h32]
                                                                    try simp only [set_flag_cycles, set_bc_cycles, set_de_cycles, set_hl_cycles, set_af_cycles,
        write_byte_cycles, write_word_cycles, push_word_cycles, pop_word_cycles,
        fetch_byte_cycles, fetch_word_cycles, inc_8bit_cycles, dec_8bit_cycles,
        add_a_cycles, adc_a_cycles, sub_a_cycles, sbc_a_cycles, and_a_cycles,
        xor_a_cycles, or_a_cycles, cp_a_cycles, add_hl_cycles, set_reg8_cycles]
                                                                    try omega
                                                                  · rw [if_neg h32]
                                                                    by_cases h33 : opcode = 0x22
                                                                    · rw [if_pos h33]
                                                                      try simp only [set_flag_cycles, set_bc_cycles, set_de_cycles, set_hl_cycles, set_af_cycles,
        write_byte_cycles, write_word_cycles, push_word_cycles, pop_word_cycles,
        fetch_byte_cycles, fetch_word_cycles, inc_8bit_cycles, dec_8bit_cycles,
        add_a_cycles, adc_a_cycles, sub_a_cycles, sbc_a_cycles, and_a_cycles,
        xor_a_cycles, or_a_cycles, cp_a_cycles, add_hl_cycles, set_reg8_cycles]
                                                                      try omega
                                                                    · rw [if_neg h33]
                                                                      by_cases h34 : opcode = 0x23
                                                                      · rw [if_pos h34]
                                                                        try simp only [set_flag_cycles, set_bc_cycles, set_de_cycles, set_hl_cycles, set_af_cycles,
        write_byte_cycles, write_word_cycles, push_word_cycles, pop_word_cycles,
        fetch_byte_cycles, fetch_word_cycles, inc_8bit_cycles, dec_8bit_cycles,
        add_a_cycles, adc_a_cycles, sub_a_cycles, sbc_a_cycles, and_a_cycles,
        xor_a_cycles, or_a_cycles, cp_a_cycles, add_hl_cycles, set_reg8_cycles]
                                                                        try omega
                                                                      · rw [if_neg h34]
                                                                        by_cases h35 : opcode = 0x24
                                                                        · rw [if_pos h35]
                                                                          try simp only [set_flag_cycles, set_bc_cycles, set_de_cycles, set_hl_cycles, set_af_cycles,
        write_byte_cycles, write_word_cycles, push_word_cycles, pop_word_cycles,
        fetch_byte_cycles, fetch_word_cycles, inc_8bit_cycles, dec_8bit_cycles,
        add_a_cycles, adc_a_cycles, sub_a_cycles, sbc_a_cycles, and_a_cycles,
        xor_a_cycles, or_a_cycles, cp_a_cycles, add_hl_cycles, set_reg8_cycles]
                                                                          try omega
                                                                        · rw [if_neg h35]
                                                                          by_cases h36 : opcode = 0x25
                                                                          · rw [if_pos h36]
                                                                            try simp only [set_flag_cycles, set_bc_cycles, set_de_cycles, set_hl_cycles, set_af_cycles,
        write_byte_cycles, write_word_cycles, push_word_cycles, pop_word_cycles,
        fetch_byte_cycles, fetch_word_cycles, inc_8bit_cycles, dec_8bit_cycles,
        add_a_cycles, adc_a_cycles, sub_a_cycles, sbc_a_cycles, and_a_cycles,
        xor_a_cycles, or_a_cycles, cp_a_cycles, add_hl_cycles, set_reg8_cycles]
                                                                            try omega
                                                                          · rw [if_neg h36]
                                                                            by_cases h37 : opcode = 0x26
                                                                            · rw [if_pos h37]
                                                                              try simp only [set_flag_cycles, set_bc_cycles, set_de_cycles, set_hl_cycles, set_af_cycles,
        write_byte_cycles, write_word_cycles, push_word_cycles, pop_word_cycles,
        fetch_byte_cycles, fetch_word_cycles, inc_8bit_cycles, dec_8bit_cycles,
        add_a_cycles, adc_a_cycles, sub_a_cycles, sbc_a_cycles, and_a_cycles,
        xor_a_cycles, or_a_cycles, cp_a_cycles, add_hl_cycles, set_reg8_cycles]
                                                                              try omega
                                                                            · rw [if_neg h37]
                                                                              by_cases h38 : opcode = 0x28
                                                                              · rw [if_pos h38]
                                                                                try simp only [set_flag_cycles, set_bc_cycles, set_de_cycles, set_hl_cycles, set_af_cycles,
        write_byte_cycles, write_word_cycles, push_word_cycles, pop_word_cycles,
        fetch_byte_cycles, fetch_word_cycles, inc_8bit_cycles, dec_8bit_cycles,
        add_a_cycles, adc_a_cycles, sub_a_cycles, sbc_a_cycles, and_a_cycles,
        xor_a_cycles, or_a_cycles, cp_a_cycles, add_hl_cycles, set_reg8_cycles]
                                                                                by_cases hcnd : get_flag (fetch_byte s).1 FLAG_Z ≠ 0
                                                                                · rw [if_pos hcnd]
                                                                                  try simp only [set_flag_cycles, set_bc_cycles, set_de_cycles, set_hl_cycles, set_af_cycles,
        write_byte_cycles, write_word_cycles, push_word_cycles, pop_word_cycles,
        fetch_byte_cycles, fetch_word_cycles, inc_8bit_cycles, dec_8bit_cycles,
        add_a_cycles, adc_a_cycles, sub_a_cycles, sbc_a_cycles, and_a_cycles,
        xor_a_cycles, or_a_cycles, cp_a_cycles, add_hl_cycles, set_reg8_cycles]
                                                                                  try omega
                                                                                · rw [if_neg hcnd]
                                                                                  try simp only [set_flag_cycles, set_bc_cycles, set_de_cycles, set_hl_cycles, set_af_cycles,
        write_byte_cycles, write_word_cycles, push_word_cycles, pop_word_cycles,
        fetch_byte_cycles, fetch_word_cycles, inc_8bit_cycles, dec_8bit_cycles,
        add_a_cycles, adc_a_cycles, sub_a_cycles, sbc_a_cycles, and_a_cycles,
        xor_a_cycles, or_a_cycles, cp_a_cycles, add_hl_cycles, set_reg8_cycles]
                                                                                  try omega
                                                                              · rw [if_neg h38]
                                                                                by_cases h39 : opcode = 0x29
                                                                                · rw [if_pos h39]
                                                                                  try simp only [set_flag_cycles, set_bc_cycles, set_de_cycles, set_hl_cycles, set_af_cycles,
        write_byte_cycles, write_word_cycles, push_word_cycles, pop_word_cycles,
        fetch_byte_cycles, fetch_word_cycles, inc_8bit_cycles, dec_8bit_cycles,
        add_a_cycles, adc_a_cycles, sub_a_cycles, sbc_a_cycles, and_a_cycles,
        xor_a_cycles, or_a_cycles, cp_a_cycles, add_hl_cycles, set_reg8_cycles]
                                                                                  try omega
                                                                                · rw [if_neg h39]
                                                                                  by_cases h40 : opcode = 0x2A
                                                                                  · rw [if_pos h40]
                                                                                    try simp only [set_flag_cycles, set_bc_cycles, set_de_cycles, set_hl_cycles, set_af_cycles,
        write_byte_cycles, write_word_cycles, push_word_cycles, pop_word_cycles,
        fetch_byte_cycles, fetch_word_cycles, inc_8bit_cycles, dec_8bit_cycles,
        add_a_cycles, adc_a_cycles, sub_a_cycles, sbc_a_cycles, and_a_cycles,
        xor_a_cycles, or_a_cycles, cp_a_cycles, add_hl_cycles, set_reg8_cycles]
                                                                                    try omega
                                                                                  · rw [if_neg h40]
                                                                                    by_cases h41 : opcode = 0x2B
                                                                                    · rw [if_pos h41]
                                                                                      try simp only [set_flag_cycles, set_bc_cycles, set_de_cycles, set_hl_cycles, set_af_cycles,
        write_byte_cycles, write_word_cycles, push_word_cycles, pop_word_cycles,
        fetch_byte_cycles, fetch_word_cycles, inc_8bit_cycles, dec_8bit_cycles,
        add_a_cycles, adc_a_cycles, sub_a_cycles, sbc_a_cycles, and_a_cycles,
        xor_a_cycles, or_a_cycles, cp_a_cycles, add_hl_cycles, set_reg8_cycles]
                                                                                      try omega
                                                                                    · rw [if_neg h41]
                                                                                      by_cases h42 : opcode = 0x2C
                                                                                      · rw [if_pos h42]
                                                                                        try simp only [set_flag_cycles, set_bc_cycles, set_de_cycles, set_hl_cycles, set_af_cycles,
        write_byte_cycles, write_word_cycles, push_word_cycles, pop_word_cycles,
        fetch_byte_cycles, fetch_word_cycles, inc_8bit_cycles, dec_8bit_cycles,
        add_a_cycles, adc_a_cycles, sub_a_cycles, sbc_a_cycles, and_a_cycles,
        xor_a_cycles, or_a_cycles, cp_a_cycles, add_hl_cycles, set_reg8_cycles]
                                                                                        try omega
                                                                                      · rw [if_neg h42]
                                                                                        by_cases h43 : opcode = 0x2D
                                                                                        · rw [if_pos h43]
                                                                                          try simp only [set_flag_cycles, set_bc_cycles, set_de_cycles, set_hl_cycles, set_af_cycles,
        write_byte_cycles, write_word_cycles, push_word_cycles, pop_word_cycles,
        fetch_byte_cycles, fetch_word_cycles, inc_8bit_cycles, dec_8bit_cycles,
        add_a_cycles, adc_a_cycles, sub_a_cycles, sbc_a_cycles, and_a_cycles,
        xor_a_cycles, or_a_cycles, cp_a_cycles, add_hl_cycles, set_reg8_cycles]
                                                                                          try omega
                                                                                        · rw [if_neg h43]
                                                                                          by_cases h44 : opcode = 0x2E
                                                                                          · rw [if_pos h44]
                                                                                            try simp only [set_flag_cycles, set_bc_cycles, set_de_cycles, set_hl_cycles, set_af_cycles,
        write_byte_cycles, write_word_cycles, push_word_cycles, pop_word_cycles,
        fetch_byte_cycles, fetch_word_cycles, inc_8bit_cycles, dec_8bit_cycles,
        add_a_cycles, adc_a_cycles, sub_a_cycles, sbc_a_cycles, and_a_cycles,
        xor_a_cycles, or_a_cycles, cp_a_cycles, add_hl_cycles, set_reg8_cycles]
                                                                                            try omega
                                                                                          · rw [if_neg h44]
                                                                                            by_cases h45 : opcode = 0x2F
                                                                                            · rw [if_pos h45]
                                                                                              try simp only [set_flag_cycles, set_bc_cycles, set_de_cycles, set_hl_cycles, set_af_cycles,
        write_byte_cycles, write_word_cycles, push_word_cycles, pop_word_cycles,
        fetch_byte_cycles, fetch_word_cycles, inc_8bit_cycles, dec_8bit_cycles,
        add_a_cycles, adc_a_cycles, sub_a_cycles, sbc_a_cycles, and_a_cycles,
        xor_a_cycles, or_a_cycles, cp_a_cycles, add_hl_cycles, set_reg8_cycles]
                                                                                              try omega
                                                                                            · rw [if_neg h45]
                                                                                              by_cases h46 : opcode = 0x30
                                                                                              · rw [if_pos h46]
                                                                                                try simp only [set_flag_cycles, set_bc_cycles, set_de_cycles, set_hl_cycles, set_af_cycles,
        write_byte_cycles, write_word_cycles, push_word_cycles, pop_word_cycles,
        fetch_byte_cycles, fetch_word_cycles, inc_8bit_cycles, dec_8bit_cycles,
        add_a_cycles, adc_a_cycles, sub_a_cycles, sbc_a_cycles, and_a_cycles,
        xor_a_cycles, or_a_cycles, cp_a_cycles, add_hl_cycles, set_reg8_cycles]
                                                                                                by_cases hcnd : get_flag (fetch_byte s).1 FLAG_C = 0
                                                                                                · rw [if_pos hcnd]
                                                                                                  try simp only [set_flag_cycles, set_bc_cycles, set_de_cycles, set_hl_cycles, set_af_cycles,
        write_byte_cycles, write_word_cycles, push_word_cycles, pop_word_cycles,
        fetch_byte_cycles, fetch_word_cycles, inc_8bit_cycles, dec_8bit_cycles,
        add_a_cycles, adc_a_cycles, sub_a_cycles, sbc_a_cycles, and_a_cycles,
        xor_a_cycles, or_a_cycles, cp_a_cycles, add_hl_cycles, set_reg8_cycles]
                                                                                                  try omega
                                                                                                · rw [if_neg hcnd]
                                                                                                  try simp only [set_flag_cycles, set_bc_cycles, set_de_cycles, set_hl_cycles, set_af_cycles,
        write_byte_cycles, write_word_cycles, push_word_cycles, pop_word_cycles,
        fetch_byte_cycles, fetch_word_cycles, inc_8bit_cycles, dec_8bit_cycles,
        add_a_cycles, adc_a_cycles, sub_a_cycles, sbc_a_cycles, and_a_cycles,
        xor_a_cycles, or_a_cycles, cp_a_cycles, add_hl_cycles, set_reg8_cycles]
                                                                                                  try omega
                                                                                              · rw [if_neg h46]
                                                                                                by_cases h47 : opcode = 0x31
                                                                                                · rw [if_pos h47]
                                                                                                  try simp only [set_flag_cycles, set_bc_cycles, set_de_cycles, set_hl_cycles, set_af_cycles,
        write_byte_cycles, write_word_cycles, push_word_cycles, pop_word_cycles,
        fetch_byte_cycles, fetch_word_cycles, inc_8bit_cycles, dec_8bit_cycles,
        add_a_cycles, adc_a_cycles, sub_a_cycles, sbc_a_cycles, and_a_cycles,
        xor_a_cycles, or_a_cycles, cp_a_cycles, add_hl_cycles, set_reg8_cycles]
                                                                                                  try omega
                                                                                                · rw [if_neg h47]
                                                                                                  by_cases h48 : opcode = 0x32
                                                                                                  · rw [if_pos h48]
                                                                                                    try simp only [set_flag_cycles, set_bc_cycles, set_de_cycles, set_hl_cycles, set_af_cycles,
        write_byte_cycles, write_word_cycles, push_word_cycles, pop_word_cycles,
        fetch_byte_cycles, fetch_word_cycles, inc_8bit_cycles, dec_8bit_cycles,
        add_a_cycles, adc_a_cycles, sub_a_cycles, sbc_a_cycles, and_a_cycles,
        xor_a_cycles, or_a_cycles, cp_a_cycles, add_hl_cycles, set_reg8_cycles]
                                                                                                    try omega
                                                                                                  · rw [if_neg h48]
                                                                                                    by_cases h49 : opcode = 0x33
                                                                                                    · rw [if_pos h49]
                                                                                                      try simp only [set_flag_cycles, set_bc_cycles, set_de_cycles, set_hl_cycles, set_af_cycles,
        write_byte_cycles, write_word_cycles, push_word_cycles, pop_word_cycles,
        fetch_byte_cycles, fetch_word_cycles, inc_8bit_cycles, dec_8bit_cycles,
        add_a_cycles, adc_a_cycles, sub_a_cycles, sbc_a_cycles, and_a_cycles,
        xor_a_cycles, or_a_cycles, cp_a_cycles, add_hl_cycles, set_reg8_cycles]
                                                                                                      try omega
                                                                                                    · rw [if_neg h49]
                                                                                                      by_cases h50 : opcode = 0x34
                                                                                                      · rw [if_pos h50]
                                                                                                        try simp only [set_flag_cycles, set_bc_cycles, set_de_cycles, set_hl_cycles, set_af_cycles,
        write_byte_cycles, write_word_cycles, push_word_cycles, pop_word_cycles,
        fetch_byte_cycles, fetch_word_cycles, inc_8bit_cycles, dec_8bit_cycles,
        add_a_cycles, adc_a_cycles, sub_a_cycles, sbc_a_cycles, and_a_cycles,
        xor_a_cycles, or_a_cycles, cp_a_cycles, add_hl_cycles, set_reg8_cycles]
                                                                                                        try omega
                                                                                                      · rw [if_neg h50]
                                                                                                        by_cases h51 : opcode = 0x35
                                                                                                        · rw [if_pos h51]
                                                                                                          try simp only [set_flag_cycles, set_bc_cycles, set_de_cycles, set_hl_cycles, set_af_cycles,
        write_byte_cycles, write_word_cycles, push_word_cycles, pop_word_cycles,
        fetch_byte_cycles, fetch_word_cycles, inc_8bit_cycles, dec_8bit_cycles,
        add_a_cycles, adc_a_cycles, sub_a_cycles, sbc_a_cycles, and_a_cycles,
        xor_a_cycles, or_a_cycles, cp_a_cycles, add_hl_cycles, set_reg8_cycles]
                                                                                                          try omega
                                                                                                        · rw [if_neg h51]
                                                                                                          by_cases h52 : opcode = 0x36
                                                                                                          · rw [if_pos h52]
                                                                                                            try simp only [set_flag_cycles, set_bc_cycles, set_de_cycles, set_hl_cycles, set_af_cycles,
        write_byte_cycles, write_word_cycles, push_word_cycles, pop_word_cycles,
        fetch_byte_cycles, fetch_word_cycles, inc_8bit_cycles, dec_8bit_cycles,
        add_a_cycles, adc_a_cycles, sub_a_cycles, sbc_a_cycles, and_a_cycles,
        xor_a_cycles, or_a_cycles, cp_a_cycles, add_hl_cycles, set_reg8_cycles]
                                                                                                            try omega
                                                                                                          · rw [if_neg h52]
                                                                                                            by_cases h53 : opcode = 0x37
                                                                                                            · rw [if_pos h53]
                                                                                                              try simp only [set_flag_cycles, set_bc_cycles, set_de_cycles, set_hl_cycles, set_af_cycles,
        write_byte_cycles, write_word_cycles, push_word_cycles, pop_word_cycles,
        fetch_byte_cycles, fetch_word_cycles, inc_8bit_cycles, dec_8bit_cycles,
        add_a_cycles, adc_a_cycles, sub_a_cycles, sbc_a_cycles, and_a_cycles,
        xor_a_cycles, or_a_cycles, cp_a_cycles, add_hl_cycles, set_reg8_cycles]
                                                                                                              try omega
                                                                                                            · rw [if_neg h53]
                                                                                                              by_cases h54 : opcode = 0x38
                                                                                                              · rw [if_pos h54]
                                                                                                                try simp only [set_flag_cycles, set_bc_cycles, set_de_cycles, set_hl_cycles, set_af_cycles,
        write_byte_cycles, write_word_cycles, push_word_cycles, pop_word_cycles,
        fetch_byte_cycles, fetch_word_cycles, inc_8bit_cycles, dec_8bit_cycles,
        add_a_cycles, adc_a_cycles, sub_a_cycles, sbc_a_cycles, and_a_cycles,
        xor_a_cycles, or_a_cycles, cp_a_cycles, add_hl_cycles, set_reg8_cycles]
                                                                                                                by_cases hcnd : get_flag (fetch_byte s).1 FLAG_C ≠ 0
                                                                                                                · rw [if_pos hcnd]
                                                                                                                  try simp only [set_flag_cycles, set_bc_cycles, set_de_cycles, set_hl_cycles, set_af_cycles,
        write_byte_cycles, write_word_cycles, push_word_cycles, pop_word_cycles,
        fetch_byte_cycles, fetch_word_cycles, inc_8bit_cycles, dec_8bit_cycles,
        add_a_cycles, adc_a_cycles, sub_a_cycles, sbc_a_cycles, and_a_cycles,
        xor_a_cycles, or_a_cycles, cp_a_cycles, add_hl_cycles, set_reg8_cycles]
                                                                                                                  try omega
                                                                                                                · rw [if_neg hcnd]
                                                                                                                  try simp only [set_flag_cycles, set_bc_cycles, set_de_cycles, set_hl_cycles, set_af_cycles,
        write_byte_cycles, write_word_cycles, push_word_cycles, pop_word_cycles,
        fetch_byte_cycles, fetch_word_cycles, inc_8bit_cycles, dec_8bit_cycles,
        add_a_cycles, adc_a_cycles, sub_a_cycles, sbc_a_cycles, and_a_cycles,
        xor_a_cycles, or_a_cycles, cp_a_cycles, add_hl_cycles, set_reg8_cycles]
                                                                                                                  try omega
                                                                                                              · rw [if_neg h54]
                                                                                                                by_cases h55 : opcode = 0x39
                                                                                                                · rw [if_pos h55]
                                                                                                                  try simp only [set_flag_cycles, set_bc_cycles, set_de_cycles, set_hl_cycles, set_af_cycles,
        write_byte_cycles, write_word_cycles, push_word_cycles, pop_word_cycles,
        fetch_byte_cycles, fetch_word_cycles, inc_8bit_cycles, dec_8bit_cycles,
        add_a_cycles, adc_a_cycles, sub_a_cycles, sbc_a_cycles, and_a_cycles,
        xor_a_cycles, or_a_cycles, cp_a_cycles, add_hl_cycles, set_reg8_cycles]
                                                                                                                  try omega
                                                                                                                · rw [if_neg h55]
                                                                                                                  by_cases h56 : opcode = 0x3A
                                                                                                                  · rw [if_pos h56]
                                                                                                                    try simp only [set_flag_cycles, set_bc_cycles, set_de_cycles, set_hl_cycles, set_af_cycles,
        write_byte_cycles, write_word_cycles, push_word_cycles, pop_word_cycles,
        fetch_byte_cycles, fetch_word_cycles, inc_8bit_cycles, dec_8bit_cycles,
        add_a_cycles, adc_a_cycles, sub_a_cycles, sbc_a_cycles, and_a_cycles,
        xor_a_cycles, or_a_cycles, cp_a_cycles, add_hl_cycles, set_reg8_cycles]
                                                                                                                    try omega
                                                                                                                  · rw [if_neg h56]
                                                                                                                    by_cases h57 : opcode = 0x3B
                                                                                                                    · rw [if_pos h57]
                                                                                                                      try simp only [set_flag_cycles, set_bc_cycles, set_de_cycles, set_hl_cycles, set_af_cycles,
        write_byte_cycles, write_word_cycles, push_word_cycles, pop_word_cycles,
        fetch_byte_cycles, fetch_word_cycles, inc_8bit_cycles, dec_8bit_cycles,
        add_a_cycles, adc_a_cycles, sub_a_cycles, sbc_a_cycles, and_a_cycles,
        xor_a_cycles, or_a_cycles, cp_a_cycles, add_hl_cycles, set_reg8_cycles]
                                                                                                                      try omega
                                                                                                                    · rw [if_neg h57]
                                                                                                                      by_cases h58 : opcode = 0x3C
                                                                                                                      · rw [if_pos h58]
                                                                                                                        try simp only [set_flag_cycles, set_bc_cycles, set_de_cycles, set_hl_cycles, set_af_cycles,
        write_byte_cycles, write_word_cycles, push_word_cycles, pop_word_cycles,
        fetch_byte_cycles, fetch_word_cycles, inc_8bit_cycles, dec_8bit_cycles,
        add_a_cycles, adc_a_cycles, sub_a_cycles, sbc_a_cycles, and_a_cycles,
        xor_a_cycles, or_a_cycles, cp_a_cycles, add_hl_cycles, set_reg8_cycles]
                                                                                                                        try omega
                                                                                                                      · rw [if_neg h58]
                                                                                                                        by_cases h59 : opcode = 0x3D
                                                                                                                        · rw [if_pos h59]
                                                                                                                          try simp only [set_flag_cycles, set_bc_cycles, set_de_cycles, set_hl_cycles, set_af_cycles,
        write_byte_cycles, write_word_cycles, push_word_cycles, pop_word_cycles,
        fetch_byte_cycles, fetch_word_cycles, inc_8bit_cycles, dec_8bit_cycles,
        add_a_cycles, adc_a_cycles, sub_a_cycles, sbc_a_cycles, and_a_cycles,
        xor_a_cycles, or_a_cycles, cp_a_cycles, add_hl_cycles, set_reg8_cycles]
                                                                                                                          try omega
                                                                                                                        · rw [if_neg h59]
                                                                                                                          by_cases h60 : opcode = 0x3E
                                                                                                                          · rw [if_pos h60]
                                                                                                                            try simp only [set_flag_cycles, set_bc_cycles, set_de_cycles, set_hl_cycles, set_af_cycles,
        write_byte_cycles, write_word_cycles, push_word_cycles, pop_word_cycles,
        fetch_byte_cycles, fetch_word_cycles, inc_8bit_cycles, dec_8bit_cycles,
        add_a_cycles, adc_a_cycles, sub_a_cycles, sbc_a_cycles, and_a_cycles,
        xor_a_cycles, or_a_cycles, cp_a_cycles, add_hl_cycles, set_reg8_cycles]
                                                                                                                            try omega
                                                                                                                          · rw [if_neg h60]
                                                                                                                            by_cases h61 : opcode = 0x3F
                                                                                                                            · rw [if_pos h61]
                                                                                                                              try simp only [set_flag_cycles, set_bc_cycles, set_de_cycles, set_hl_cycles, set_af_cycles,
        write_byte_cycles, write_word_cycles, push_word_cycles, pop_word_cycles,
        fetch_byte_cycles, fetch_word_cycles, inc_8bit_cycles, dec_8bit_cycles,
        add_a_cycles, adc_a_cycles, sub_a_cycles, sbc_a_cycles, and_a_cycles,
        xor_a_cycles, or_a_cycles, cp_a_cycles, add_hl_cycles, set_reg8_cycles]
                                                                                                                              try omega
                                                                                                                            · rw [if_neg h61]
                                                                                                                              by_cases hR : 0x40 ≤ opcode ∧ opcode ≤ 0x7F
                                                                                                                              · rw [if_pos hR]
                                                                                                                                by_cases h76 : opcode = 0x76
                                                                                                                                · rw [if_pos h76]
                                                                                                                                  try simp only [set_flag_cycles, set_bc_cycles, set_de_cycles, set_hl_cycles, set_af_cycles,
        write_byte_cycles, write_word_cycles, push_word_cycles, pop_word_cycles,
        fetch_byte_cycles, fetch_word_cycles, inc_8bit_cycles, dec_8bit_cycles,
        add_a_cycles, adc_a_cycles, sub_a_cycles, sbc_a_cycles, and_a_cycles,
        xor_a_cycles, or_a_cycles, cp_a_cycles, add_hl_cycles, set_reg8_cycles]
                                                                                                                                  try omega
                                                                                                                                · rw [if_neg h76]
                                                                                                                                  exact ld_r_r_cycles s opcode
                                                                                                                              · rw [if_neg hR]
                                                                                                                                exact execute_opcode_hi_cycles s opcode

/-- Every opcode dispatch preserves a zero low flag nibble. -/
theorem execute_opcode_fnib (s : S) (opcode : Nat) (h : s.f &&& 0xF = 0) :
    (execute_opcode s opcode).f &&& 0xF = 0 := by
  unfold execute_opcode
  by_cases h0 : opcode = 0x00
  · rw [if_pos h0]
    try simp only [set_flag_fnib_z, set_flag_fnib_n, set_flag_fnib_h, set_flag_fnib_c,
        set_af_fnib, write_byte_f, write_word_f, push_word_f, pop_word_f,
        fetch_byte_f, fetch_word_f, set_bc_f, set_de_f, set_hl_f, inc_8bit_f,
        dec_8bit_f, add_a_f, adc_a_f, sub_a_f, sbc_a_f, and_a_f, xor_a_f,
        or_a_f, cp_a_f, add_hl_f, set_reg8_f, ld_r_r_f, execute_cb_f]
    try first | exact h | rfl | omega
  · rw [if_neg h0]
    by_cases h1 : opcode = 0x01
    · rw [if_pos h1]
      try simp only [set_flag_fnib_z, set_flag_fnib_n, set_flag_fnib_h, set_flag_fnib_c,
        set_af_fnib, write_byte_f, write_word_f, push_word_f, pop_word_f,
        fetch_byte_f, fetch_word_f, set_bc_f, set_de_f, set_hl_f, inc_8bit_f,
        dec_8bit_f, add_a_f, adc_a_f, sub_a_f, sbc_a_f, and_a_f, xor_a_f,
        or_a_f, cp_a_f, add_hl_f, set_reg8_f, ld_r_r_f, execute_cb_f]
      try first | exact h | rfl | omega
    · rw [if_neg h1]
      by_cases h2 : opcode = 0x02
      · rw [if_pos h2]
        try simp only [set_flag_fnib_z, set_flag_fnib_n, set_flag_fnib_h, set_flag_fnib_c,
        set_af_fnib, write_byte_f, write_word_f, push_word_f, pop_word_f,
        fetch_byte_f, fetch_word_f, set_bc_f, set_de_f, set_hl_f, inc_8bit_f,
        dec_8bit_f, add_a_f, adc_a_f, sub_a_f, sbc_a_f, and_a_f, xor_a_f,
        or_a_f, cp_a_f, add_hl_f, set_reg8_f, ld_r_r_f, execute_cb_f]
        try first | exact h | rfl | omega
      · rw [if_neg h2]
        by_cases h3 : opcode = 0x03
        · rw [if_pos h3]
          try simp only [set_flag_fnib_z, set_flag_fnib_n, set_flag_fnib_h, set_flag_fnib_c,
        set_af_fnib, write_byte_f, write_word_f, push_word_f, pop_word_f,
        fetch_byte_f, fetch_word_f, set_bc_f, set_de_f, set_hl_f, inc_8bit_f,
        dec_8bit_f, add_a_f, adc_a_f, sub_a_f, sbc_a_f, and_a_f, xor_a_f,
        or_a_f, cp_a_f, add_hl_f, set_reg8_f, ld_r_r_f, execute_cb_f]
          try first | exact h | rfl | omega
        · rw [if_neg h3]
          by_cases h4 : opcode = 0x04
          · rw [if_pos h4]
            try simp only [set_flag_fnib_z, set_flag_fnib_n, set_flag_fnib_h, set_flag_fnib_c,
        set_af_fnib, write_byte_f, write_word_f, push_word_f, pop_word_f,
        fetch_byte_f, fetch_word_f, set_bc_f, set_de_f, set_hl_f, inc_8bit_f,
        dec_8bit_f, add_a_f, adc_a_f, sub_a_f, sbc_a_f, and_a_f, xor_a_f,
        or_a_f, cp_a_f, add_hl_f, set_reg8_f, ld_r_r_f, execute_cb_f]
            try first | exact h | rfl | omega
          · rw [if_neg h4]
            by_cases h5 : opcode = 0x05
            · rw [if_pos h5]
              try simp only [set_flag_fnib_z, set_flag_fnib_n, set_flag_fnib_h, set_flag_fnib_c,
        set_af_fnib, write_byte_f, write_word_f, push_word_f, pop_word_f,
        fetch_byte_f, fetch_word_f, set_bc_f, set_de_f, set_hl_f, inc_8bit_f,
        dec_8bit_f, add_a_f, adc_a_f, sub_a_f, sbc_a_f, and_a_f, xor_a_f,
        or_a_f, cp_a_f, add_hl_f, set_reg8_f, ld_r_r_f, execute_cb_f]
              try first | exact h | rfl | omega
            · rw [if_neg h5]
              by_cases h6 : opcode = 0x06
              · rw [if_pos h6]
                try simp only [set_flag_fnib_z, set_flag_fnib_n, set_flag_fnib_h, set_flag_fnib_c,
        set_af_fnib, write_byte_f, write_word_f, push_word_f, pop_word_f,
        fetch_byte_f, fetch_word_f, set_bc_f, set_de_f, set_hl_f, inc_8bit_f,
        dec_8bit_f, add_a_f, adc_a_f, sub_a_f, sbc_a_f, and_a_f, xor_a_f,
        or_a_f, cp_a_f, add_hl_f, set_reg8_f, ld_r_r_f, execute_cb_f]
                try first | exact h | rfl | omega
              · rw [if_neg h6]
                by_cases h7 : opcode = 0x07
                · rw [if_pos h7]
                  try simp only [set_flag_fnib_z, set_flag_fnib_n, set_flag_fnib_h, set_flag_fnib_c,
        set_af_fnib, write_byte_f, write_word_f, push_word_f, pop_word_f,
        fetch_byte_f, fetch_word_f, set_bc_f, set_de_f, set_hl_f, inc_8bit_f,
        dec_8bit_f, add_a_f, adc_a_f, sub_a_f, sbc_a_f, and_a_f, xor_a_f,
        or_a_f, cp_a_f, add_hl_f, set_reg8_f, ld_r_r_f, execute_cb_f]
                  try first | exact h | rfl | omega
                · rw [if_neg h7]
                  by_cases h8 : opcode = 0x08
                  · rw [if_pos h8]
                    try simp only [set_flag_fnib_z, set_flag_fnib_n, set_flag_fnib_h, set_flag_fnib_c,
        set_af_fnib, write_byte_f, write_word_f, push_word_f, pop_word_f,
        fetch_byte_f, fetch_word_f, set_bc_f, set_de_f, set_hl_f, inc_8bit_f,
        dec_8bit_f, add_a_f, adc_a_f, sub_a_f, sbc_a_f, and_a_f, xor_a_f,
        or_a_f, cp_a_f, add_hl_f, set_reg8_f, ld_r_r_f, execute_cb_f]
                    try first | exact h | rfl | omega
                  · rw [if_neg h8]
                    by_cases h9 : opcode = 0x09
                    · rw [if_pos h9]
                      try simp only [set_flag_fnib_z, set_flag_fnib_n, set_flag_fnib_h, set_flag_fnib_c,
        set_af_fnib, write_byte_f, write_word_f, push_word_f, pop_word_f,
        fetch_byte_f, fetch_word_f, set_bc_f, set_de_f, set_hl_f, inc_8bit_f,
        dec_8bit_f, add_a_f, adc_a_f, sub_a_f, sbc_a_f, and_a_f, xor_a_f,
        or_a_f, cp_a_f, add_hl_f, set_reg8_f, ld_r_r_f, execute_cb_f]
                      try first | exact h | rfl | omega
                    · rw [if_neg h9]
                      by_cases h10 : opcode = 0x0A
                      · rw [if_pos h10]
                        try simp only [set_flag_fnib_z, set_flag_fnib_n, set_flag_fnib_h, set_flag_fnib_c,
        set_af_fnib, write_byte_f, write_word_f, push_word_f, pop_word_f,
        fetch_byte_f, fetch_word_f, set_bc_f, set_de_f, set_hl_f, inc_8bit_f,
        dec_8bit_f, add_a_f, adc_a_f, sub_a_f, sbc_a_f, and_a_f, xor_a_f,
        or_a_f, cp_a_f, add_hl_f, set_reg8_f, ld_r_r_f, execute_cb_f]
                        try first | exact h | rfl | omega
                      · rw [if_neg h10]
                        by_cases h11 : opcode = 0x0B
                        · rw [if_pos h11]
                          try simp only [set_flag_fnib_z, set_flag_fnib_n, set_flag_fnib_h, set_flag_fnib_c,
        set_af_fnib, write_byte_f, write_word_f, push_word_f, pop_word_f,
        fetch_byte_f, fetch_word_f, set_bc_f, set_de_f, set_hl_f, inc_8bit_f,
        dec_8bit_f, add_a_f, adc_a_f, sub_a_f, sbc_a_f, and_a_f, xor_a_f,
        or_a_f, cp_a_f, add_hl_f, set_reg8_f, ld_r_r_f, execute_cb_f]
                          try first | exact h | rfl | omega
                        · rw [if_neg h11]
                          by_cases h12 : opcode = 0x0C
                          · rw [if_pos h12]
                            try simp only [set_flag_fnib_z, set_flag_fnib_n, set_flag_fnib_h, set_flag_fnib_c,
        set_af_fnib, write_byte_f, write_word_f, push_word_f, pop_word_f,
        fetch_byte_f, fetch_word_f, set_bc_f, set_de_f, set_hl_f, inc_8bit_f,
        dec_8bit_f, add_a_f, adc_a_f, sub_a_f, sbc_a_f, and_a_f, xor_a_f,
        or_a_f, cp_a_f, add_hl_f, set_reg8_f, ld_r_r_f, execute_cb_f]
                            try first | exact h | rfl | omega
                          · rw [if_neg h12]
                            by_cases h13 : opcode = 0x0D
                            · rw [if_pos h13]
                              try simp only [set_flag_fnib_z, set_flag_fnib_n, set_flag_fnib_h, set_flag_fnib_c,
        set_af_fnib, write_byte_f, write_word_f, push_word_f, pop_word_f,
        fetch_byte_f, fetch_word_f, set_bc_f, set_de_f, set_hl_f, inc_8bit_f,
        dec_8bit_f, add_a_f, adc_a_f, sub_a_f, sbc_a_f, and_a_f, xor_a_f,
        or_a_f, cp_a_f, add_hl_f, set_reg8_f, ld_r_r_f, execute_cb_f]
                              try first | exact h | rfl | omega
                            · rw [if_neg h13]
                              by_cases h14 : opcode = 0x0E
                              · rw [if_pos h14]
                                try simp only [set_flag_fnib_z, set_flag_fnib_n, set_flag_fnib_h, set_flag_fnib_c,
        set_af_fnib, write_byte_f, write_word_f, push_word_f, pop_word_f,
        fetch_byte_f, fetch_word_f, set_bc_f, set_de_f, set_hl_f, inc_8bit_f,
        dec_8bit_f, add_a_f, adc_a_f, sub_a_f, sbc_a_f, and_a_f, xor_a_f,
        or_a_f, cp_a_f, add_hl_f, set_reg8_f, ld_r_r_f, execute_cb_f]
                                try first | exact h | rfl | omega
                              · rw [if_neg h14]
                                by_cases h15 : opcode = 0x0F
                                · rw [if_pos h15]
                                  try simp only [set_flag_fnib_z, set_flag_fnib_n, set_flag_fnib_h, set_flag_fnib_c,
        set_af_fnib, write_byte_f, write_word_f, push_word_f, pop_word_f,
        fetch_byte_f, fetch_word_f, set_bc_f, set_de_f, set_hl_f, inc_8bit_f,
        dec_8bit_f, add_a_f, adc_a_f, sub_a_f, sbc_a_f, and_a_f, xor_a_f,
        or_a_f, cp_a_f, add_hl_f, set_reg8_f, ld_r_r_f, execute_cb_f]
                                  try first | exact h | rfl | omega
                                · rw [if_neg h15]
                                  by_cases h16 : opcode = 0x11
                                  · rw [if_pos h16]
                                    try simp only [set_flag_fnib_z, set_flag_fnib_n, set_flag_fnib_h, set_flag_fnib_c,
        set_af_fnib, write_byte_f, write_word_f, push_word_f, pop_word_f,
        fetch_byte_f, fetch_word_f, set_bc_f, set_de_f, set_hl_f, inc_8bit_f,
        dec_8bit_f, add_a_f, adc_a_f, sub_a_f, sbc_a_f, and_a_f, xor_a_f,
        or_a_f, cp_a_f, add_hl_f, set_reg8_f, ld_r_r_f, execute_cb_f]
                                    try first | exact h | rfl | omega
                                  · rw [if_neg h16]
                                    by_cases h17 : opcode = 0x12
                                    · rw [if_pos h17]
                                      try simp only [set_flag_fnib_z, set_flag_fnib_n, set_flag_fnib_h, set_flag_fnib_c,
        set_af_fnib, write_byte_f, write_word_f, push_word_f, pop_word_f,
        fetch_byte_f, fetch_word_f, set_bc_f, set_de_f, set_hl_f, inc_8bit_f,
        dec_8bit_f, add_a_f, adc_a_f, sub_a_f, sbc_a_f, and_a_f, xor_a_f,
        or_a_f, cp_a_f, add_hl_f, set_reg8_f, ld_r_r_f, execute_cb_f]
                                      try first | exact h | rfl | omega
                                    · rw [if_neg h17]
                                      by_cases h18 : opcode = 0x13
                                      · rw [if_pos h18]
                                        try simp only [set_flag_fnib_z, set_flag_fnib_n, set_flag_fnib_h, set_flag_fnib_c,
        set_af_fnib, write_byte_f, write_word_f, push_word_f, pop_word_f,
        fetch_byte_f, fetch_word_f, set_bc_f, set_de_f, set_hl_f, inc_8bit_f,
        dec_8bit_f, add_a_f, adc_a_f, sub_a_f, sbc_a_f, and_a_f, xor_a_f,
        or_a_f, cp_a_f, add_hl_f, set_reg8_f, ld_r_r_f, execute_cb_f]
                                        try first | exact h | rfl | omega
                                      · rw [if_neg h18]
                                        by_cases h19 : opcode = 0x14
                                        · rw [if_pos h19]
                                          try simp only [set_flag_fnib_z, set_flag_fnib_n, set_flag_fnib_h, set_flag_fnib_c,
        set_af_fnib, write_byte_f, write_word_f, push_word_f, pop_word_f,
        fetch_byte_f, fetch_word_f, set_bc_f, set_de_f, set_hl_f, inc_8bit_f,
        dec_8bit_f, add_a_f, adc_a_f, sub_a_f, sbc_a_f, and_a_f, xor_a_f,
        or_a_f, cp_a_f, add_hl_f, set_reg8_f, ld_r_r_f, execute_cb_f]
                                          try first | exact h | rfl | omega
                                        · rw [if_neg h19]
                                          by_cases h20 : opcode = 0x15
                                          · rw [if_pos h20]
                                            try simp only [set_flag_fnib_z, set_flag_fnib_n, set_flag_fnib_h, set_flag_fnib_c,
        set_af_fnib, write_byte_f, write_word_f, push_word_f, pop_word_f,
        fetch_byte_f, fetch_word_f, set_bc_f, set_de_f, set_hl_f, inc_8bit_f,
        dec_8bit_f, add_a_f, adc_a_f, sub_a_f, sbc_a_f, and_a_f, xor_a_f,
        or_a_f, cp_a_f, add_hl_f, set_reg8_f, ld_r_r_f, execute_cb_f]
                                            try first | exact h | rfl | omega
                                          · rw [if_neg h20]
                                            by_cases h21 : opcode = 0x16
                                            · rw [if_pos h21]
                                              try simp only [set_flag_fnib_z, set_flag_fnib_n, set_flag_fnib_h, set_flag_fnib_c,
        set_af_fnib, write_byte_f, write_word_f, push_word_f, pop_word_f,
        fetch_byte_f, fetch_word_f, set_bc_f, set_de_f, set_hl_f, inc_8bit_f,
        dec_8bit_f, add_a_f, adc_a_f, sub_a_f, sbc_a_f, and_a_f, xor_a_f,
        or_a_f, cp_a_f, add_hl_f, set_reg8_f, ld_r_r_f, execute_cb_f]
                                              try first | exact h | rfl | omega
                                            · rw [if_neg h21]
                                              by_cases h22 : opcode = 0x17
                                              · rw [if_pos h22]
                                                try simp only [set_flag_fnib_z, set_flag_fnib_n, set_flag_fnib_h, set_flag_fnib_c,
        set_af_fnib, write_byte_f, write_word_f, push_word_f, pop_word_f,
        fetch_byte_f, fetch_word_f, set_bc_f, set_de_f, set_hl_f, inc_8bit_f,
        dec_8bit_f, add_a_f, adc_a_f, sub_a_f, sbc_a_f, and_a_f, xor_a_f,
        or_a_f, cp_a_f, add_hl_f, set_reg8_f, ld_r_r_f, execute_cb_f]
                                                try first | exact h | rfl | omega
                                              · rw [if_neg h22]
                                                by_cases h23 : opcode = 0x18
                                                · rw [if_pos h23]
                                                  try simp only [set_flag_fnib_z, set_flag_fnib_n, set_flag_fnib_h, set_flag_fnib_c,
        set_af_fnib, write_byte_f, write_word_f, push_word_f, pop_word_f,
        fetch_byte_f, fetch_word_f, set_bc_f, set_de_f, set_hl_f, inc_8bit_f,
        dec_8bit_f, add_a_f, adc_a_f, sub_a_f, sbc_a_f, and_a_f, xor_a_f,
        or_a_f, cp_a_f, add_hl_f, set_reg8_f, ld_r_r_f, execute_cb_f]
                                                  try first | exact h | rfl | omega
                                                · rw [if_neg h23]
                                                  by_cases h24 : opcode = 0x19
                                                  · rw [if_pos h24]
                                                    try simp only [set_flag_fnib_z, set_flag_fnib_n, set_flag_fnib_h, set_flag_fnib_c,
        set_af_fnib, write_byte_f, write_word_f, push_word_f, pop_word_f,
        fetch_byte_f, fetch_word_f, set_bc_f, set_de_f, set_hl_f, inc_8bit_f,
        dec_8bit_f, add_a_f, adc_a_f, sub_a_f, sbc_a_f, and_a_f, xor_a_f,
        or_a_f, cp_a_f, add_hl_f, set_reg8_f, ld_r_r_f, execute_cb_f]
                                                    try first | exact h | rfl | omega
                                                  · rw [if_neg h24]
                                                    by_cases h25 : opcode = 0x1A
                                                    · rw [if_pos h25]
                                                      try simp only [set_flag_fnib_z, set_flag_fnib_n, set_flag_fnib_h, set_flag_fnib_c,
        set_af_fnib, write_byte_f, write_word_f, push_word_f, pop_word_f,
        fetch_byte_f, fetch_word_f, set_bc_f, set_de_f, set_hl_f, inc_8bit_f,
        dec_8bit_f, add_a_f, adc_a_f, sub_a_f, sbc_a_f, and_a_f, xor_a_f,
        or_a_f, cp_a_f, add_hl_f, set_reg8_f, ld_r_r_f, execute_cb_f]
                                                      try first | exact h | rfl | omega
                                                    · rw [if_neg h25]
                                                      by_cases h26 : opcode = 0x1B
                                                      · rw [if_pos h26]
                                                        try simp only [set_flag_fnib_z, set_flag_fnib_n, set_flag_fnib_h, set_flag_fnib_c,
        set_af_fnib, write_byte_f, write_word_f, push_word_f, pop_word_f,
        fetch_byte_f, fetch_word_f, set_bc_f, set_de_f, set_hl_f, inc_8bit_f,
        dec_8bit_f, add_a_f, adc_a_f, sub_a_f, sbc_a_f, and_a_f, xor_a_f,
        or_a_f, cp_a_f, add_hl_f, set_reg8_f, ld_r_r_f, execute_cb_f]
                                                        try first | exact h | rfl | omega
                                                      · rw [if_neg h26]
                                                        by_cases h27 : opcode = 0x1C
                                                        · rw [if_pos h27]
                                                          try simp only [set_flag_fnib_z, set_flag_fnib_n, set_flag_fnib_h, set_flag_fnib_c,
        set_af_fnib, write_byte_f, write_word_f, push_word_f, pop_word_f,
        fetch_byte_f, fetch_word_f, set_bc_f, set_de_f, set_hl_f, inc_8bit_f,
        dec_8bit_f, add_a_f, adc_a_f, sub_a_f, sbc_a_f, and_a_f, xor_a_f,
        or_a_f, cp_a_f, add_hl_f, set_reg8_f, ld_r_r_f, execute_cb_f]
                                                          try first | exact h | rfl | omega
                                                        · rw [if_neg h27]
                                                          by_cases h28 : opcode = 0x1D
                                                          · rw [if_pos h28]
                                                            try simp only [set_flag_fnib_z, set_flag_fnib_n, set_flag_fnib_h, set_flag_fnib_c,
        set_af_fnib, write_byte_f, write_word_f, push_word_f, pop_word_f,
        fetch_byte_f, fetch_word_f, set_bc_f, set_de_f, set_hl_f, inc_8bit_f,
        dec_8bit_f, add_a_f, adc_a_f, sub_a_f, sbc_a_f, and_a_f, xor_a_f,
        or_a_f, cp_a_f, add_hl_f, set_reg8_f, ld_r_r_f, execute_cb_f]
                                                            try first | exact h | rfl | omega
                                                          · rw [if_neg h28]
                                                            by_cases h29 : opcode = 0x1E
                                                            · rw [if_pos h29]
                                                              try simp only [set_flag_fnib_z, set_flag_fnib_n, set_flag_fnib_h, set_flag_fnib_c,
        set_af_fnib, write_byte_f, write_word_f, push_word_f, pop_word_f,
        fetch_byte_f, fetch_word_f, set_bc_f, set_de_f, set_hl_f, inc_8bit_f,
        dec_8bit_f, add_a_f, adc_a_f, sub_a_f, sbc_a_f, and_a_f, xor_a_f,
        or_a_f, cp_a_f, add_hl_f, set_reg8_f, ld_r_r_f, execute_cb_f]
                                                              try first | exact h | rfl | omega
                                                            · rw [if_neg h29]
                                                              by_cases h30 : opcode = 0x1F
                                                              · rw [if_pos h30]
                                                                try simp only [set_flag_fnib_z, set_flag_fnib_n, set_flag_fnib_h, set_flag_fnib_c,
        set_af_fnib, write_byte_f, write_word_f, push_word_f, pop_word_f,
        fetch_byte_f, fetch_word_f, set_bc_f, set_de_f, set_hl_f, inc_8bit_f,
        dec_8bit_f, add_a_f, adc_a_f, sub_a_f, sbc_a_f, and_a_f, xor_a_f,
        or_a_f, cp_a_f, add_hl_f, set_reg8_f, ld_r_r_f, execute_cb_f]
                                                                try first | exact h | rfl | omega
                                                              · rw [if_neg h30]
                                                                by_cases h31 : opcode = 0x20
                                                                · rw [if_pos h31]
                                                                  try simp only [set_flag_fnib_z, set_flag_fnib_n, set_flag_fnib_h, set_flag_fnib_c,
        set_af_fnib, write_byte_f, write_word_f, push_word_f, pop_word_f,
        fetch_byte_f, fetch_word_f, set_bc_f, set_de_f, set_hl_f, inc_8bit_f,
        dec_8bit_f, add_a_f, adc_a_f, sub_a_f, sbc_a_f, and_a_f, xor_a_f,
        or_a_f, cp_a_f, add_hl_f, set_reg8_f, ld_r_r_f, execute_cb_f]
                                                                  by_cases hcnd : get_flag (fetch_byte s).1 FLAG_Z = 0
                                                                  · rw [if_pos hcnd]
                                                                    try simp only [set_flag_fnib_z, set_flag_fnib_n, set_flag_fnib_h, set_flag_fnib_c,
        set_af_fnib, write_byte_f, write_word_f, push_word_f, pop_word_f,
        fetch_byte_f, fetch_word_f, set_bc_f, set_de_f, set_hl_f, inc_8bit_f,
        dec_8bit_f, add_a_f, adc_a_f, sub_a_f, sbc_a_f, and_a_f, xor_a_f,
        or_a_f, cp_a_f, add_hl_f, set_reg8_f, ld_r_r_f, execute_cb_f]
                                                                    try first | exact h | rfl | omega
                                                                  · rw [if_neg hcnd]
                                                                    try simp only [set_flag_fnib_z, set_flag_fnib_n, set_flag_fnib_h, set_flag_fnib_c,
        set_af_fnib, write_byte_f, write_word_f, push_word_f, pop_word_f,
        fetch_byte_f, fetch_word_f, set_bc_f, set_de_f, set_hl_f, inc_8bit_f,
        dec_8bit_f, add_a_f, adc_a_f, sub_a_f, sbc_a_f, and_a_f, xor_a_f,
        or_a_f, cp_a_f, add_hl_f, set_reg8_f, ld_r_r_f, execute_cb_f]
                                                                    try first | exact h | rfl | omega
                                                                · rw [if_neg h31]
                                                                  by_cases h32 : opcode = 0x21
                                                                  · rw [if_pos h32]
                                                                    try simp only [set_flag_fnib_z, set_flag_fnib_n, set_flag_fnib_h, set_flag_fnib_c,
        set_af_fnib, write_byte_f, write_word_f, push_word_f, pop_word_f,
        fetch_byte_f, fetch_word_f, set_bc_f, set_de_f, set_hl_f, inc_8bit_f,
        dec_8bit_f, add_a_f, adc_a_f, sub_a_f, sbc_a_f, and_a_f, xor_a_f,
        or_a_f, cp_a_f, add_hl_f, set_reg8_f, ld_r_r_f, execute_cb_f]
                                                                    try first | exact h | rfl | omega
                                                                  · rw [if_neg h32]
                                                                    by_cases h33 : opcode = 0x22
                                                                    · rw [if_pos h33]
                                                                      try simp only [set_flag_fnib_z, set_flag_fnib_n, set_flag_fnib_h, set_flag_fnib_c,
        set_af_fnib, write_byte_f, write_word_f, push_word_f, pop_word_f,
        fetch_byte_f, fetch_word_f, set_bc_f, set_de_f, set_hl_f, inc_8bit_f,
        dec_8bit_f, add_a_f, adc_a_f, sub_a_f, sbc_a_f, and_a_f, xor_a_f,
        or_a_f, cp_a_f, add_hl_f, set_reg8_f, ld_r_r_f, execute_cb_f]
                                                                      try first | exact h | rfl | omega
                                                                    · rw [if_neg h33]
                                                                      by_cases h34 : opcode = 0x23
                                                                      · rw [if_pos h34]
                                                                        try simp only [set_flag_fnib_z, set_flag_fnib_n, set_flag_fnib_h, set_flag_fnib_c,
        set_af_fnib, write_byte_f, write_word_f, push_word_f, pop_word_f,
        fetch_byte_f, fetch_word_f, set_bc_f, set_de_f, set_hl_f, inc_8bit_f,
        dec_8bit_f, add_a_f, adc_a_f, sub_a_f, sbc_a_f, and_a_f, xor_a_f,
        or_a_f, cp_a_f, add_hl_f, set_reg8_f, ld_r_r_f, execute_cb_f]
                                                                        try first | exact h | rfl | omega
                                                                      · rw [if_neg h34]
                                                                        by_cases h35 : opcode = 0x24
                                                                        · rw [if_pos h35]
                                                                          try simp only [set_flag_fnib_z, set_flag_fnib_n, set_flag_fnib_h, set_flag_fnib_c,
        set_af_fnib, write_byte_f, write_word_f, push_word_f, pop_word_f,
        fetch_byte_f, fetch_word_f, set_bc_f, set_de_f, set_hl_f, inc_8bit_f,
        dec_8bit_f, add_a_f, adc_a_f, sub_a_f, sbc_a_f, and_a_f, xor_a_f,
        or_a_f, cp_a_f, add_hl_f, set_reg8_f, ld_r_r_f, execute_cb_f]
                                                                          try first | exact h | rfl | omega
                                                                        · rw [if_neg h35]
                                                                          by_cases h36 : opcode = 0x25
                                                                          · rw [if_pos h36]
                                                                            try simp only [set_flag_fnib_z, set_flag_fnib_n, set_flag_fnib_h, set_flag_fnib_c,
        set_af_fnib, write_byte_f, write_word_f, push_word_f, pop_word_f,
        fetch_byte_f, fetch_word_f, set_bc_f, set_de_f, set_hl_f, inc_8bit_f,
        dec_8bit_f, add_a_f, adc_a_f, sub_a_f, sbc_a_f, and_a_f, xor_a_f,
        or_a_f, cp_a_f, add_hl_f, set_reg8_f, ld_r_r_f, execute_cb_f]
                                                                            try first | exact h | rfl | omega
                                                                          · rw [if_neg h36]
                                                                            by_cases h37 : opcode = 0x26
                                                                            · rw [if_pos h37]
                                                                              try simp only [set_flag_fnib_z, set_flag_fnib_n, set_flag_fnib_h, set_flag_fnib_c,
        set_af_fnib, write_byte_f, write_word_f, push_word_f, pop_word_f,
        fetch_byte_f, fetch_word_f, set_bc_f, set_de_f, set_hl_f, inc_8bit_f,
        dec_8bit_f, add_a_f, adc_a_f, sub_a_f, sbc_a_f, and_a_f, xor_a_f,
        or_a_f, cp_a_f, add_hl_f, set_reg8_f, ld_r_r_f, execute_cb_f]
                                                                              try first | exact h | rfl | omega
                                                                            · rw [if_neg h37]
                                                                              by_cases h38 : opcode = 0x28
                                                                              · rw [if_pos h38]
                                                                                try simp only [set_flag_fnib_z, set_flag_fnib_n, set_flag_fnib_h, set_flag_fnib_c,
        set_af_fnib, write_byte_f, write_word_f, push_word_f, pop_word_f,
        fetch_byte_f, fetch_word_f, set_bc_f, set_de_f, set_hl_f, inc_8bit_f,
        dec_8bit_f, add_a_f, adc_a_f, sub_a_f, sbc_a_f, and_a_f, xor_a_f,
        or_a_f, cp_a_f, add_hl_f, set_reg8_f, ld_r_r_f, execute_cb_f]
                                                                                by_cases hcnd : get_flag (fetch_byte s).1 FLAG_Z ≠ 0
                                                                                · rw [if_pos hcnd]
                                                                                  try simp only [set_flag_fnib_z, set_flag_fnib_n, set_flag_fnib_h, set_flag_fnib_c,
        set_af_fnib, write_byte_f, write_word_f, push_word_f, pop_word_f,
        fetch_byte_f, fetch_word_f, set_bc_f, set_de_f, set_hl_f, inc_8bit_f,
        dec_8bit_f, add_a_f, adc_a_f, sub_a_f, sbc_a_f, and_a_f, xor_a_f,
        or_a_f, cp_a_f, add_hl_f, set_reg8_f, ld_r_r_f, execute_cb_f]
                                                                                  try first | exact h | rfl | omega
                                                                                · rw [if_neg hcnd]
                                                                                  try simp only [set_flag_fnib_z, set_flag_fnib_n, set_flag_fnib_h, set_flag_fnib_c,
        set_af_fnib, write_byte_f, write_word_f, push_word_f, pop_word_f,
        fetch_byte_f, fetch_word_f, set_bc_f, set_de_f, set_hl_f, inc_8bit_f,
        dec_8bit_f, add_a_f, adc_a_f, sub_a_f, sbc_a_f, and_a_f, xor_a_f,
        or_a_f, cp_a_f, add_hl_f, set_reg8_f, ld_r_r_f, execute_cb_f]
                                                                                  try first | exact h | rfl | omega
                                                                              · rw [if_neg h38]
                                                                                by_cases h39 : opcode = 0x29
                                                                                · rw [if_pos h39]
                                                                                  try simp only [set_flag_fnib_z, set_flag_fnib_n, set_flag_fnib_h, set_flag_fnib_c,
        set_af_fnib, write_byte_f, write_word_f, push_word_f, pop_word_f,
        fetch_byte_f, fetch_word_f, set_bc_f, set_de_f, set_hl_f, inc_8bit_f,
        dec_8bit_f, add_a_f, adc_a_f, sub_a_f, sbc_a_f, and_a_f, xor_a_f,
        or_a_f, cp_a_f, add_hl_f, set_reg8_f, ld_r_r_f, execute_cb_f]
                                                                                  try first | exact h | rfl | omega
                                                                                · rw [if_neg h39]
                                                                                  by_cases h40 : opcode = 0x2A
                                                                                  · rw [if_pos h40]
                                                                                    try simp only [set_flag_fnib_z, set_flag_fnib_n, set_flag_fnib_h, set_flag_fnib_c,
        set_af_fnib, write_byte_f, write_word_f, push_word_f, pop_word_f,
        fetch_byte_f, fetch_word_f, set_bc_f, set_de_f, set_hl_f, inc_8bit_f,
        dec_8bit_f, add_a_f, adc_a_f, sub_a_f, sbc_a_f, and_a_f, xor_a_f,
        or_a_f, cp_a_f, add_hl_f, set_reg8_f, ld_r_r_f, execute_cb_f]
                                                                                    try first | exact h | rfl | omega
                                                                                  · rw [if_neg h40]
                                                                                    by_cases h41 : opcode = 0x2B
                                                                                    · rw [if_pos h41]
                                                                                      try simp only [set_flag_fnib_z, set_flag_fnib_n, set_flag_fnib_h, set_flag_fnib_c,
        set_af_fnib, write_byte_f, write_word_f, push_word_f, pop_word_f,
        fetch_byte_f, fetch_word_f, set_bc_f, set_de_f, set_hl_f, inc_8bit_f,
        dec_8bit_f, add_a_f, adc_a_f, sub_a_f, sbc_a_f, and_a_f, xor_a_f,
        or_a_f, cp_a_f, add_hl_f, set_reg8_f, ld_r_r_f, execute_cb_f]
                                                                                      try first | exact h | rfl | omega
                                                                                    · rw [if_neg h41]
                                                                                      by_cases h42 : opcode = 0x2C
                                                                                      · rw [if_pos h42]
                                                                                        try simp only [set_flag_fnib_z, set_flag_fnib_n, set_flag_fnib_h, set_flag_fnib_c,
        set_af_fnib, write_byte_f, write_word_f, push_word_f, pop_word_f,
        fetch_byte_f, fetch_word_f, set_bc_f, set_de_f, set_hl_f, inc_8bit_f,
        dec_8bit_f, add_a_f, adc_a_f, sub_a_f, sbc_a_f, and_a_f, xor_a_f,
        or_a_f, cp_a_f, add_hl_f, set_reg8_f, ld_r_r_f, execute_cb_f]
                                                                                        try first | exact h | rfl | omega
                                                                                      · rw [if_neg h42]
                                                                                        by_cases h43 : opcode = 0x2D
                                                                                        · rw [if_pos h43]
                                                                                          try simp only [set_flag_fnib_z, set_flag_fnib_n, set_flag_fnib_h, set_flag_fnib_c,
        set_af_fnib, write_byte_f, write_word_f, push_word_f, pop_word_f,
        fetch_byte_f, fetch_word_f, set_bc_f, set_de_f, set_hl_f, inc_8bit_f,
        dec_8bit_f, add_a_f, adc_a_f, sub_a_f, sbc_a_f, and_a_f, xor_a_f,
        or_a_f, cp_a_f, add_hl_f, set_reg8_f, ld_r_r_f, execute_cb_f]
                                                                                          try first | exact h | rfl | omega
                                                                                        · rw [if_neg h43]
                                                                                          by_cases h44 : opcode = 0x2E
                                                                                          · rw [if_pos h44]
                                                                                            try simp only [set_flag_fnib_z, set_flag_fnib_n, set_flag_fnib_h, set_flag_fnib_c,
        set_af_fnib, write_byte_f, write_word_f, push_word_f, pop_word_f,
        fetch_byte_f, fetch_word_f, set_bc_f, set_de_f, set_hl_f, inc_8bit_f,
        dec_8bit_f, add_a_f, adc_a_f, sub_a_f, sbc_a_f, and_a_f, xor_a_f,
        or_a_f, cp_a_f, add_hl_f, set_reg8_f, ld_r_r_f, execute_cb_f]
                                                                                            try first | exact h | rfl | omega
                                                                                          · rw [if_neg h44]
                                                                                            by_cases h45 : opcode = 0x2F
                                                                                            · rw [if_pos h45]
                                                                                              try simp only [set_flag_fnib_z, set_flag_fnib_n, set_flag_fnib_h, set_flag_fnib_c,
        set_af_fnib, write_byte_f, write_word_f, push_word_f, pop_word_f,
        fetch_byte_f, fetch_word_f, set_bc_f, set_de_f, set_hl_f, inc_8bit_f,
        dec_8bit_f, add_a_f, adc_a_f, sub_a_f, sbc_a_f, and_a_f, xor_a_f,
        or_a_f, cp_a_f, add_hl_f, set_reg8_f, ld_r_r_f, execute_cb_f]
                                                                                              try first | exact h | rfl | omega
                                                                                            · rw [if_neg h45]
                                                                                              by_cases h46 : opcode = 0x30
                                                                                              · rw [if_pos h46]
                                                                                                try simp only [set_flag_fnib_z, set_flag_fnib_n, set_flag_fnib_h, set_flag_fnib_c,
        set_af_fnib, write_byte_f, write_word_f, push_word_f, pop_word_f,
        fetch_byte_f, fetch_word_f, set_bc_f, set_de_f, set_hl_f, inc_8bit_f,
        dec_8bit_f, add_a_f, adc_a_f, sub_a_f, sbc_a_f, and_a_f, xor_a_f,
        or_a_f, cp_a_f, add_hl_f, set_reg8_f, ld_r_r_f, execute_cb_f]
                                                                                                by_cases hcnd : get_flag (fetch_byte s).1 FLAG_C = 0
                                                                                                · rw [if_pos hcnd]
                                                                                                  try simp only [set_flag_fnib_z, set_flag_fnib_n, set_flag_fnib_h, set_flag_fnib_c,
        set_af_fnib, write_byte_f, write_word_f, push_word_f, pop_word_f,
        fetch_byte_f, fetch_word_f, set_bc_f, set_de_f, set_hl_f, inc_8bit_f,
        dec_8bit_f, add_a_f, adc_a_f, sub_a_f, sbc_a_f, and_a_f, xor_a_f,
        or_a_f, cp_a_f, add_hl_f, set_reg8_f, ld_r_r_f, execute_cb_f]
                                                                                                  try first | exact h | rfl | omega
                                                                                                · rw [if_neg hcnd]
                                                                                                  try simp only [set_flag_fnib_z, set_flag_fnib_n, set_flag_fnib_h, set_flag_fnib_c,
        set_af_fnib, write_byte_f, write_word_f, push_word_f, pop_word_f,
        fetch_byte_f, fetch_word_f, set_bc_f, set_de_f, set_hl_f, inc_8bit_f,
        dec_8bit_f, add_a_f, adc_a_f, sub_a_f, sbc_a_f, and_a_f, xor_a_f,
        or_a_f, cp_a_f, add_hl_f, set_reg8_f, ld_r_r_f, execute_cb_f]
                                                                                                  try first | exact h | rfl | omega
                                                                                              · rw [if_neg h46]
                                                                                                by_cases h47 : opcode = 0x31
                                                                                                · rw [if_pos h47]
                                                                                                  try simp only [set_flag_fnib_z, set_flag_fnib_n, set_flag_fnib_h, set_flag_fnib_c,
        set_af_fnib, write_byte_f, write_word_f, push_word_f, pop_word_f,
        fetch_byte_f, fetch_word_f, set_bc_f, set_de_f, set_hl_f, inc_8bit_f,
        dec_8bit_f, add_a_f, adc_a_f, sub_a_f, sbc_a_f, and_a_f, xor_a_f,
        or_a_f, cp_a_f, add_hl_f, set_reg8_f, ld_r_r_f, execute_cb_f]
                                                                                                  try first | exact h | rfl | omega
                                                                                                · rw [if_neg h47]
                                                                                                  by_cases h48 : opcode = 0x32
                                                                                                  · rw [if_pos h48]
                                                                                                    try simp only [set_flag_fnib_z, set_flag_fnib_n, set_flag_fnib_h, set_flag_fnib_c,
        set_af_fnib, write_byte_f, write_word_f, push_word_f, pop_word_f,
        fetch_byte_f, fetch_word_f, set_bc_f, set_de_f, set_hl_f, inc_8bit_f,
        dec_8bit_f, add_a_f, adc_a_f, sub_a_f, sbc_a_f, and_a_f, xor_a_f,
        or_a_f, cp_a_f, add_hl_f, set_reg8_f, ld_r_r_f, execute_cb_f]
                                                                                                    try first | exact h | rfl | omega
                                                                                                  · rw [if_neg h48]
                                                                                                    by_cases h49 : opcode = 0x33
                                                                                                    · rw [if_pos h49]
                                                                                                      try simp only [set_flag_fnib_z, set_flag_fnib_n, set_flag_fnib_h, set_flag_fnib_c,
        set_af_fnib, write_byte_f, write_word_f, push_word_f, pop_word_f,
        fetch_byte_f, fetch_word_f, set_bc_f, set_de_f, set_hl_f, inc_8bit_f,
        dec_8bit_f, add_a_f, adc_a_f, sub_a_f, sbc_a_f, and_a_f, xor_a_f,
        or_a_f, cp_a_f, add_hl_f, set_reg8_f, ld_r_r_f, execute_cb_f]
                                                                                                      try first | exact h | rfl | omega
                                                                                                    · rw [if_neg h49]
                                                                                                      by_cases h50 : opcode = 0x34
                                                                                                      · rw [if_pos h50]
                                                                                                        try simp only [set_flag_fnib_z, set_flag_fnib_n, set_flag_fnib_h, set_flag_fnib_c,
        set_af_fnib, write_byte_f, write_word_f, push_word_f, pop_word_f,
        fetch_byte_f, fetch_word_f, set_bc_f, set_de_f, set_hl_f, inc_8bit_f,
        dec_8bit_f, add_a_f, adc_a_f, sub_a_f, sbc_a_f, and_a_f, xor_a_f,
        or_a_f, cp_a_f, add_hl_f, set_reg8_f, ld_r_r_f, execute_cb_f]
                                                                                                        try first | exact h | rfl | omega
                                                                                                      · rw [if_neg h50]
                                                                                                        by_cases h51 : opcode = 0x35
                                                                                                        · rw [if_pos h51]
                                                                                                          try simp only [set_flag_fnib_z, set_flag_fnib_n, set_flag_fnib_h, set_flag_fnib_c,
        set_af_fnib, write_byte_f, write_word_f, push_word_f, pop_word_f,
        fetch_byte_f, fetch_word_f, set_bc_f, set_de_f, set_hl_f, inc_8bit_f,
        dec_8bit_f, add_a_f, adc_a_f, sub_a_f, sbc_a_f, and_a_f, xor_a_f,
        or_a_f, cp_a_f, add_hl_f, set_reg8_f, ld_r_r_f, execute_cb_f]
                                                                                                          try first | exact h | rfl | omega
                                                                                                        · rw [if_neg h51]
                                                                                                          by_cases h52 : opcode = 0x36
                                                                                                          · rw [if_pos h52]
                                                                                                            try simp only [set_flag_fnib_z, set_flag_fnib_n, set_flag_fnib_h, set_flag_fnib_c,
        set_af_fnib, write_byte_f, write_word_f, push_word_f, pop_word_f,
        fetch_byte_f, fetch_word_f, set_bc_f, set_de_f, set_hl_f, inc_8bit_f,
        dec_8bit_f, add_a_f, adc_a_f, sub_a_f, sbc_a_f, and_a_f, xor_a_f,
        or_a_f, cp_a_f, add_hl_f, set_reg8_f, ld_r_r_f, execute_cb_f]
                                                                                                            try first | exact h | rfl | omega
                                                                                                          · rw [if_neg h52]
                                                                                                            by_cases h53 : opcode = 0x37
                                                                                                            · rw [if_pos h53]
                                                                                                              try simp only [set_flag_fnib_z, set_flag_fnib_n, set_flag_fnib_h, set_flag_fnib_c,
        set_af_fnib, write_byte_f, write_word_f, push_word_f, pop_word_f,
        fetch_byte_f, fetch_word_f, set_bc_f, set_de_f, set_hl_f, inc_8bit_f,
        dec_8bit_f, add_a_f, adc_a_f, sub_a_f, sbc_a_f, and_a_f, xor_a_f,
        or_a_f, cp_a_f, add_hl_f, set_reg8_f, ld_r_r_f, execute_cb_f]
                                                                                                              try first | exact h | rfl | omega
                                                                                                            · rw [if_neg h53]
                                                                                                              by_cases h54 : opcode = 0x38
                                                                                                              · rw [if_pos h54]
                                                                                                                try simp only [set_flag_fnib_z, set_flag_fnib_n, set_flag_fnib_h, set_flag_fnib_c,
        set_af_fnib, write_byte_f, write_word_f, push_word_f, pop_word_f,
        fetch_byte_f, fetch_word_f, set_bc_f, set_de_f, set_hl_f, inc_8bit_f,
        dec_8bit_f, add_a_f, adc_a_f, sub_a_f, sbc_a_f, and_a_f, xor_a_f,
        or_a_f, cp_a_f, add_hl_f, set_reg8_f, ld_r_r_f, execute_cb_f]
                                                                                                                by_cases hcnd : get_flag (fetch_byte s).1 FLAG_C ≠ 0
                                                                                                                · rw [if_pos hcnd]
                                                                                                                  try simp only [set_flag_fnib_z, set_flag_fnib_n, set_flag_fnib_h, set_flag_fnib_c,
        set_af_fnib, write_byte_f, write_word_f, push_word_f, pop_word_f,
        fetch_byte_f, fetch_word_f, set_bc_f, set_de_f, set_hl_f, inc_8bit_f,
        dec_8bit_f, add_a_f, adc_a_f, sub_a_f, sbc_a_f, and_a_f, xor_a_f,
        or_a_f, cp_a_f, add_hl_f, set_reg8_f, ld_r_r_f, execute_cb_f]
                                                                                                                  try first | exact h | rfl | omega
                                                                                                                · rw [if_neg hcnd]
                                                                                                                  try simp only [set_flag_fnib_z, set_flag_fnib_n, set_flag_fnib_h, set_flag_fnib_c,
        set_af_fnib, write_byte_f, write_word_f, push_word_f, pop_word_f,
        fetch_byte_f, fetch_word_f, set_bc_f, set_de_f, set_hl_f, inc_8bit_f,
        dec_8bit_f, add_a_f, adc_a_f, sub_a_f, sbc_a_f, and_a_f, xor_a_f,
        or_a_f, cp_a_f, add_hl_f, set_reg8_f, ld_r_r_f, execute_cb_f]
                                                                                                                  try first | exact h | rfl | omega
                                                                                                              · rw [if_neg h54]
                                                                                                                by_cases h55 : opcode = 0x39
                                                                                                                · rw [if_pos h55]
                                                                                                                  try simp only [set_flag_fnib_z, set_flag_fnib_n, set_flag_fnib_h, set_flag_fnib_c,
        set_af_fnib, write_byte_f, write_word_f, push_word_f, pop_word_f,
        fetch_byte_f, fetch_word_f, set_bc_f, set_de_f, set_hl_f, inc_8bit_f,
        dec_8bit_f, add_a_f, adc_a_f, sub_a_f, sbc_a_f, and_a_f, xor_a_f,
        or_a_f, cp_a_f, add_hl_f, set_reg8_f, ld_r_r_f, execute_cb_f]
                                                                                                                  try first | exact h | rfl | omega
                                                                                                                · rw [if_neg h55]
                                                                                                                  by_cases h56 : opcode = 0x3A
                                                                                                                  · rw [if_pos h56]
                                                                                                                    try simp only [set_flag_fnib_z, set_flag_fnib_n, set_flag_fnib_h, set_flag_fnib_c,
        set_af_fnib, write_byte_f, write_word_f, push_word_f, pop_word_f,
        fetch_byte_f, fetch_word_f, set_bc_f, set_de_f, set_hl_f, inc_8bit_f,
        dec_8bit_f, add_a_f, adc_a_f, sub_a_f, sbc_a_f, and_a_f, xor_a_f,
        or_a_f, cp_a_f, add_hl_f, set_reg8_f, ld_r_r_f, execute_cb_f]
                                                                                                                    try first | exact h | rfl | omega
                                                                                                                  · rw [if_neg h56]
                                                                                                                    by_cases h57 : opcode = 0x3B
                                                                                                                    · rw [if_pos h57]
                                                                                                                      try simp only [set_flag_fnib_z, set_flag_fnib_n, set_flag_fnib_h, set_flag_fnib_c,
        set_af_fnib, write_byte_f, write_word_f, push_word_f, pop_word_f,
        fetch_byte_f, fetch_word_f, set_bc_f, set_de_f, set_hl_f, inc_8bit_f,
        dec_8bit_f, add_a_f, adc_a_f, sub_a_f, sbc_a_f, and_a_f, xor_a_f,
        or_a_f, cp_a_f, add_hl_f, set_reg8_f, ld_r_r_f, execute_cb_f]
                                                                                                                      try first | exact h | rfl | omega
                                                                                                                    · rw [if_neg h57]
                                                                                                                      by_cases h58 : opcode = 0x3C
                                                                                                                      · rw [if_pos h58]
                                                                                                                        try simp only [set_flag_fnib_z, set_flag_fnib_n, set_flag_fnib_h, set_flag_fnib_c,
        set_af_fnib, write_byte_f, write_word_f, push_word_f, pop_word_f,
        fetch_byte_f, fetch_word_f, set_bc_f, set_de_f, set_hl_f, inc_8bit_f,
        dec_8bit_f, add_a_f, adc_a_f, sub_a_f, sbc_a_f, and_a_f, xor_a_f,
        or_a_f, cp_a_f, add_hl_f, set_reg8_f, ld_r_r_f, execute_cb_f]
                                                                                                                        try first | exact h | rfl | omega
                                                                                                                      · rw [if_neg h58]
                                                                                                                        by_cases h59 : opcode = 0x3D
                                                                                                                        · rw [if_pos h59]
                                                                                                                          try simp only [set_flag_fnib_z, set_flag_fnib_n, set_flag_fnib_h, set_flag_fnib_c,
        set_af_fnib, write_byte_f, write_word_f, push_word_f, pop_word_f,
        fetch_byte_f, fetch_word_f, set_bc_f, set_de_f, set_hl_f, inc_8bit_f,
        dec_8bit_f, add_a_f, adc_a_f, sub_a_f, sbc_a_f, and_a_f, xor_a_f,
        or_a_f, cp_a_f, add_hl_f, set_reg8_f, ld_r_r_f, execute_cb_f]
                                                                                                                          try first | exact h | rfl | omega
                                                                                                                        · rw [if_neg h59]
                                                                                                                          by_cases h60 : opcode = 0x3E
                                                                                                                          · rw [if_pos h60]
                                                                                                                            try simp only [set_flag_fnib_z, set_flag_fnib_n, set_flag_fnib_h, set_flag_fnib_c,
        set_af_fnib, write_byte_f, write_word_f, push_word_f, pop_word_f,
        fetch_byte_f, fetch_word_f, set_bc_f, set_de_f, set_hl_f, inc_8bit_f,
        dec_8bit_f, add_a_f, adc_a_f, sub_a_f, sbc_a_f, and_a_f, xor_a_f,
        or_a_f, cp_a_f, add_hl_f, set_reg8_f, ld_r_r_f, execute_cb_f]
                                                                                                                            try first | exact h | rfl | omega
                                                                                                                          · rw [if_neg h60]
                                                                                                                            by_cases h61 : opcode = 0x3F
                                                                                                                            · rw [if_pos h61]
                                                                                                                              try simp only [set_flag_fnib_z, set_flag_fnib_n, set_flag_fnib_h, set_flag_fnib_c,
        set_af_fnib, write_byte_f, write_word_f, push_word_f, pop_word_f,
        fetch_byte_f, fetch_word_f, set_bc_f, set_de_f, set_hl_f, inc_8bit_f,
        dec_8bit_f, add_a_f, adc_a_f, sub_a_f, sbc_a_f, and_a_f, xor_a_f,
        or_a_f, cp_a_f, add_hl_f, set_reg8_f, ld_r_r_f, execute_cb_f]
                                                                                                                              try first | exact h | rfl | omega
                                                                                                                            · rw [if_neg h61]
                                                                                                                              by_cases hR : 0x40 ≤ opcode ∧ opcode ≤ 0x7F
                                                                                                                              · rw [if_pos hR]
                                                                                                                                by_cases h76 : opcode = 0x76
                                                                                                                                · rw [if_pos h76]
                                                                                                                                  try simp only [set_flag_fnib_z, set_flag_fnib_n, set_flag_fnib_h, set_flag_fnib_c,
        set_af_fnib, write_byte_f, write_word_f, push_word_f, pop_word_f,
        fetch_byte_f, fetch_word_f, set_bc_f, set_de_f, set_hl_f, inc_8bit_f,
        dec_8bit_f, add_a_f, adc_a_f, sub_a_f, sbc_a_f, and_a_f, xor_a_f,
        or_a_f, cp_a_f, add_hl_f, set_reg8_f, ld_r_r_f, execute_cb_f]
                                                                                                                                  try first | exact h | rfl | omega
                                                                                                                                · rw [if_neg h76]
                                                                                                                                  rw [ld_r_r_f]
                                                                                                                                  exact h
                                                                                                                              · rw [if_neg hR]
                                                                                                                                exact execute_opcode_hi_fnib s opcode h

/-- C8: the low nibble of the flag register F is an invariant: it is 0 at
power-on (F = 0xB0) and every executed instruction — every `execute_opcode`
call, CB prefixes and POP AF included — keeps `F & 0x0F = 0`, since every
flag write goes through `set_flag` on bits 4-7 or through `set_af`, which
masks the low nibble away. -/
theorem flag_low_nibble_invariant :
    init_state.f &&& 0x0F = 0 ∧
    ∀ (s : S) (opcode : Nat), s.f &&& 0x0F = 0 →
      (execute_opcode s opcode).f &&& 0x0F = 0 :=
  ⟨by decide, fun s opcode h => execute_opcode_fnib s opcode h⟩

/-- C8 witness: one step of POP AF (opcode 0xF1) from the power-on state
keeps the low flag nibble zero. -/
theorem flag_low_nibble_invariant_witness :
    (execute_opcode init_state 0xF1).f &&& 0x0F = 0 :=
  flag_low_nibble_invariant.2 init_state 0xF1 (by decide)

/-- A set bit makes the masked conjunction with that single bit nonzero. -/
theorem and_shift_ne_zero (x j : Nat) (h : x.testBit j = true) :
    x &&& (1 <<< j) ≠ 0 := by
  rw [Nat.one_shiftLeft, Nat.and_two_pow, h]
  simpa using (Nat.two_pow_pos j).ne'

/-- A clear bit makes the masked conjunction with that single bit zero. -/
theorem and_shift_eq_zero (x j : Nat) (h : x.testBit j = false) :
    x &&& (1 <<< j) = 0 := by
  rw [Nat.one_shiftLeft, Nat.and_two_pow, h]
  simp

/-- C7: after `SUB A,v` (and identically `CP A,v`) on byte-valued operands,
the carry flag is exactly `A < v` (the implementation's `result < 0` over the
unbounded integers coincides with it), N is 1, H is `(A & 0x0F) < (v & 0x0F)`
and Z is `(A - v) mod 256 == 0`. -/
theorem sub_cp_flags (s : S) (v : Nat) (ha : s.a ≤ 0xFF) (hv : v ≤ 0xFF) :
    get_flag (sub_a s v) FLAG_C = (if s.a < v then 1 else 0) ∧
    get_flag (sub_a s v) FLAG_N = 1 ∧
    get_flag (sub_a s v) FLAG_H = (if s.a &&& 0x0F < v &&& 0x0F then 1 else 0) ∧
    get_flag (sub_a s v) FLAG_Z =
      (if ((s.a : Int) - (v : Int)) % 256 = 0 then 1 else 0) ∧
    get_flag (cp_a s v) FLAG_C = (if s.a < v then 1 else 0) ∧
    get_flag (cp_a s v) FLAG_N = 1 ∧
    get_flag (cp_a s v) FLAG_H = (if s.a &&& 0x0F < v &&& 0x0F then 1 else 0) ∧
    get_flag (cp_a s v) FLAG_Z =
      (if ((s.a : Int) - (v : Int)) % 256 = 0 then 1 else 0) := by
  have hiff : ((s.a : Int) - (v : Int) < 0) ↔ s.a < v := by omega
  refine ⟨?_, ?_, ?_, ?_, ?_, ?_, ?_, ?_⟩ <;>
    · rw [get_flag_eq_testBit]
      simp only [sub_a, cp_a, FLAG_Z, FLAG_N, FLAG_H, FLAG_C]
      simp [testBit_set_flag_self, testBit_set_flag_other, set_flag_a,
        toNat_decide, hiff]

/-- C7 witness: the flag equations evaluated at A = 0x10, v = 0x21. -/
theorem sub_cp_flags_witness :
    get_flag (sub_a { init_state with a := 0x10 } 0x21) FLAG_C = 1 ∧
    get_flag (cp_a { init_state with a := 0x10 } 0x21) FLAG_H = 1 := by
  have h := sub_cp_flags { init_state with a := 0x10 } 0x21 (by decide) (by decide)
  refine ⟨?_, ?_⟩
  · rw [h.1]
    decide
  · rw [h.2.2.2.2.2.2.1]
    decide


/-- C1: if IME is on, interrupt `i < 5` is both requested (IF bit `i`) and
enabled (IE bit `i`), and no lower-numbered interrupt is pending, then
`handle_interrupts` dispatches: it reports `true`, clears IME, clears IF bit
`i`, pushes the old PC onto the stack (the stack bytes being RAM-backed),
jumps to the vector `0x0040 + 8*i` and charges 20 cycles. -/
theorem interrupt_dispatch (s : S) (i : Nat)
    (hi : i < 5)
    (hime : s.ime = true)
    (hif : s.interrupt_flag.testBit i = true)
    (hie : s.interrupt_enable.testBit i = true)
    (hlow : ∀ j, j < i → (s.interrupt_flag &&& s.interrupt_enable).testBit j = false)
    (hsp1 : ramBacked (s.sp - 2)) (hsp2 : ramBacked (s.sp - 1))
    (hsp : 2 ≤ s.sp ∧ s.sp < 0x10000) (hpc : s.pc < 0x10000) :
    (handle_interrupts s).2 = true ∧
    (handle_interrupts s).1.ime = false ∧
    (handle_interrupts s).1.interrupt_flag.testBit i = false ∧
    (handle_interrupts s).1.pc = 0x0040 + 8 * i ∧
    (handle_interrupts s).1.cycles = s.cycles + 20 ∧
    (handle_interrupts s).1.sp = s.sp - 2 ∧
    read_word (handle_interrupts s).1 (s.sp - 2) = s.pc := by
  have hpt : (s.interrupt_flag &&& s.interrupt_enable).testBit i = true := by
    simp [Nat.testBit_and, hif, hie]
  have hne : ¬(s.interrupt_flag &&& s.interrupt_enable = 0) := by
    intro h0
    rw [h0] at hpt
    simp at hpt
  have hbranch : handle_interrupts s = (service_interrupt s i (0x0040 + 8 * i), true) := by
    simp only [handle_interrupts, INT_VBLANK, INT_LCD, INT_TIMER, INT_SERIAL,
      INT_JOYPAD, VECTOR_VBLANK, VECTOR_LCD, VECTOR_TIMER, VECTOR_SERIAL,
      VECTOR_JOYPAD]
    rw [if_neg (by simp [hime])]
    rw [if_neg hne]
    interval_cases i
    · rw [if_pos (and_shift_ne_zero _ _ hpt)]
    · rw [if_neg (not_not_intro (and_shift_eq_zero _ _ (hlow 0 (by omega)))),
        if_pos (and_shift_ne_zero _ _ hpt)]
    · rw [if_neg (not_not_intro (and_shift_eq_zero _ _ (hlow 0 (by omega)))),
        if_neg (not_not_intro (and_shift_eq_zero _ _ (hlow 1 (by omega)))),
        if_pos (and_shift_ne_zero _ _ hpt)]
    · rw [if_neg (not_not_intro (and_shift_eq_zero _ _ (hlow 0 (by omega)))),
        if_neg (not_not_intro (and_shift_eq_zero _ _ (hlow 1 (by omega)))),
        if_neg (not_not_intro (and_shift_eq_zero _ _ (hlow 2 (by omega)))),
        if_pos (and_shift_ne_zero _ _ hpt)]
    · rw [if_neg (not_not_intro (and_shift_eq_zero _ _ (hlow 0 (by omega)))),
        if_neg (not_not_intro (and_shift_eq_zero _ _ (hlow 1 (by omega)))),
        if_neg (not_not_intro (and_shift_eq_zero _ _ (hlow 2 (by omega)))),
        if_neg (not_not_intro (and_shift_eq_zero _ _ (hlow 3 (by omega)))),
        if_pos (and_shift_ne_zero _ _ hpt)]
  obtain ⟨c1, _, c3, c4, c5, c6, c7⟩ :=
    service_interrupt_spec s i (0x0040 + 8 * i) hsp1 hsp2 hsp hpc
  rw [hbranch]
  exact ⟨rfl, c1, c3, c4, c5, c6, c7⟩

/-- C1 witness: in the concrete state with IME on and only the Timer
interrupt (bit 2) requested and enabled, the dispatch lands on vector
0x0050 with the old PC pushed at the top of the stack. -/
theorem interrupt_dispatch_witness :
    (handle_interrupts dispatch_state).2 = true ∧
    (handle_interrupts dispatch_state).1.pc = 0x0040 + 8 * 2 ∧
    read_word (handle_interrupts dispatch_state).1 (dispatch_state.sp - 2) =
      dispatch_state.pc := by
  have h := interrupt_dispatch dispatch_state 2 (by omega) rfl (by decide) (by decide)
    (fun j hj => by interval_cases j <;> decide)
    (by unfold ramBacked; exact Or.inr (by decide))
    (by unfold ramBacked; exact Or.inr (by decide))
    (by exact ⟨by decide, by decide⟩) (by decide)
  exact ⟨h.1, h.2.2.2.1, h.2.2.2.2.2.2⟩

/-- C3 (counterexample): reading 0xFF0F through the bus does not force the
upper three bits to 1.  In the initial state the interrupt flag is 0 and the
bus read returns 0, not `0 ||| 0xE0 = 0xE0` as the claim states. -/
theorem read_ff0f_counterexample :
    read_byte init_state 0xFF0F ≠ get_interrupt_flag init_state ||| 0xE0 := by
  decide

/-- C3 (amended): reading address 0xFF0F through `Memory.read_byte` returns
the interrupt-flag register exactly as stored (`Interrupts.get_interrupt_flag`),
with no bits forced to 1. -/
theorem read_ff0f_returns_raw_flag (s : S) :
    read_byte s 0xFF0F = get_interrupt_flag s := by
  rfl

/-- C4 (code evaluated at the failing input): a bus write of 0x55 to 0xFF04
is not routed to the Timer: the value lands in the io-register array, an
immediately following bus read of 0xFF04 returns 0x55 (not 0), and the
timer's DIV state is untouched. -/
theorem write_ff04_not_routed :
    read_byte (write_byte init_state 0xFF04 0x55) 0xFF04 = 0x55 ∧
    (write_byte init_state 0xFF04 0x55).div_counter = init_state.div_counter ∧
    (write_byte init_state 0xFF04 0x55).div = init_state.div := by
  decide

/-- C2 (code evaluated at the failing input): in a state that is halted with
IME off and the V-Blank interrupt both requested and enabled, one `CPU.step`
followed by the interrupt poll leaves the CPU exactly as before except for 4
cycles — in particular it is still halted, against the claim that it
resumes. -/
theorem halted_step_keeps_halted :
    (handle_interrupts (step halted_state)).1.halted = true ∧
    (handle_interrupts (step halted_state)).1.interrupt_flag &&&
      (handle_interrupts (step halted_state)).1.interrupt_enable &&& 0x1F ≠ 0 ∧
    (handle_interrupts (step halted_state)).1 =
      { halted_state with cycles := halted_state.cycles + 4 } := by
  exact ⟨rfl, by decide, rfl⟩

/-- C5 (code evaluated at the failing input): with LCDC bit 4 clear (signed
tile mode, LCDC = 0x81), the tile-data address the renderer computes for
tile-map entry 0 is 0x8800, not the 0x9000 the claim states; entry 0x80
(signed -128) even lands at 0x8000, outside the 0x8800-0x97FF window. -/
theorem bg_tile_addr_signed_base :
    bg_tile_addr 0x81 0x00 = 0x8800 ∧ bg_tile_addr 0x81 0x00 ≠ 0x9000 ∧
    bg_tile_addr 0x81 0x80 = 0x8000 := by
  exact ⟨by decide, by decide, by decide⟩

/-- C6 (code evaluated at the failing input): with Start held down, writing
0x10 to 0xFF00 (bit 5 cleared, which by the claim selects the buttons group)
and then reading 0xFF00 yields 0xCF, whose bit 3 is 1 — the pressed Start
button is not reported as 0, because `read_p1` tests `not select_buttons`
and so serves the group whose select bit was written 1. -/
theorem joypad_select_inverted :
    read_byte (write_byte joypad_state 0xFF00 0x10) 0xFF00 = 0xCF ∧
    Nat.testBit (read_byte (write_byte joypad_state 0xFF00 0x10) 0xFF00) 3 = true := by
  decide

end GB
